import Mathlib

/-!
# gardenctl: the ephemeral AWS bastion workflow

A shallow embedding of `pkg/cmd/ssh_aws.go`, of the parts of `pkg/cmd/utils.go` it uses, of
three further helpers of `pkg/cmd/utils.go` and of the vendored `terraformer/errors.go`,
with a model of the state documents that `fetchAwsAttributes` reads through `jq`.
The Go code is sequential and acts on the outside world only through calls
(the cloud command line, temporary files, sub-processes, sleeps, standard output), so
every function becomes a state-passing program over

* an abstract world `σ`, stepped by the collaborators collected in `Env`, and
* a trace of the calls issued so far, in order.

A program either returns a value or ends the process (`os.Exit`, `log.Fatalf`, a
run-time panic); in both cases the state reached is kept, so that what was and was not
issued before the end can be stated.
-/

namespace Gardenctl

/-! ## Go strings -/

/-- Go `strings.HasPrefix(s, pre)`. -/
def hasPrefix (s pre : String) : Bool := pre.data.isPrefixOf s.data

/-- Go `unicode.IsSpace`: the white-space code points (given in decimal): tab, line feed,
vertical tab, form feed, carriage return, space, NEL, NBSP, and the Unicode `White_Space`
characters above Latin-1. -/
def isSpace (c : Char) : Bool :=
  let n := c.toNat
  (9 ≤ n && n ≤ 13) || n == 32 || n == 133 || n == 160 || n == 5760 ||
  (8192 ≤ n && n ≤ 8202) || n == 8232 || n == 8233 || n == 8239 || n == 8287 || n == 12288

/-- Go `strings.Fields(s)`: the maximal runs of non-space characters, in order. -/
def fields (s : String) : List String :=
  ((s.data.splitOnP isSpace).filter (fun w => !w.isEmpty)).map String.mk

/-- Go `strings.Trim(s, cutset)`: `s` without its leading and trailing characters that are
in `cutset`. -/
def trim (s cutset : String) : String :=
  String.mk
    (((s.data.dropWhile (fun c => cutset.data.contains c)).reverse.dropWhile
      (fun c => cutset.data.contains c)).reverse)

/-- Go `strings.TrimSpace(s)`. -/
def trimSpace (s : String) : String :=
  String.mk (((s.data.dropWhile isSpace).reverse.dropWhile isSpace).reverse)

/-- Go `strings.Split(s, sep)` for a one-character separator. -/
def split (s : String) (sep : Char) : List String :=
  (s.data.splitOn sep).map String.mk

/-! ## The record, the world and programs -/

/-- AwsInstanceAttribute stores all the critical information for creating an instance on AWS
(`ssh_aws.go`, lines 29-46).  Byte slices are lists of byte values. -/
structure AwsInstanceAttribute where
  ShootName : String
  InstanceID : String
  SecurityGroupName : String
  SecurityGroupID : String
  ImageID : String
  VpcID : String
  KeyName : String
  SubnetID : String
  BastionSecurityGroupID : String
  BastionInstanceName : String
  BastionIP : String
  BastionInstanceID : String
  BastionSecurityGroupName : String
  UserData : List Nat
  SSHPublicKey : List Nat
deriving DecidableEq, Repr

/-- The Go zero value `AwsInstanceAttribute{}`. -/
def AwsInstanceAttribute.zero : AwsInstanceAttribute :=
  ⟨"", "", "", "", "", "", "", "", "", "", "", "", "", [], []⟩

/-- A non-nil Go `error`: its text and, when it is an `*exec.ExitError`, the standard error
the value carries. -/
structure GoError where
  msg : String
  stderr : Option String
deriving DecidableEq, Repr

/-- How a process ends other than by returning. -/
inductive Abort where
  | exit (code : Nat)
  | panic (msg : String)
deriving DecidableEq, Repr

/-- A cluster node as `getAwsInstanceIDForIP` reads it: `Status.Addresses[i].Address` and
`Spec.ProviderID`. -/
structure Node where
  addresses : List String
  providerID : String
deriving DecidableEq, Repr

/-- The calls a run issues, in the order it issues them. -/
inductive Event where
  /-- Go `fmt.Println(line)`. -/
  | println (line : String)
  /-- Go `log.Println(line)`. -/
  | logPrintln (line : String)
  /-- Go `log.Fatalf` reporting `err`, with the caller position when `debug`. -/
  | logFatalf (err : GoError) (debug : Bool)
  /-- The call `operate(provider, arguments)`. -/
  | operate (provider arguments : String)
  /-- Go `time.Sleep` of that many seconds. -/
  | sleep (seconds : Nat)
  /-- Go `ioutil.TempFile(dir, pattern)`. -/
  | tempFile (dir pattern : String)
  /-- A `Write` of `data` to the file `name`. -/
  | write (name : String) (data : List Nat)
  /-- Go `os.Remove(name)`. -/
  | remove (name : String)
  /-- Go `exec.Command(name, args...)`, run to its end. -/
  | command (name : String) (args : List String)
  /-- A call of a collaborator of the package named `name`. -/
  | call (name : String)
deriving DecidableEq, Repr

/-- The collaborators of the workflow that are not part of the embedded files, over a world
`σ`.  The helpers of the package itself may end the process, so they answer with an
`Except Abort`; library calls always answer. -/
structure Env (σ : Type) where
  /-- The package-level flag `debugSwitch`. -/
  debugSwitch : Bool
  /-- The helper `isIP`. -/
  isIP : String → Bool
  /-- What `capture()` ... `captured()` yields around `operate(provider, arguments)`: the
  text the command printed and the error of reading it back. -/
  operate : String → String → σ → Except Abort (String × Option GoError) × σ
  /-- The helper `getShootClusterName`. -/
  getShootClusterName : σ → Except Abort String × σ
  /-- The helper `getBastionUserData`. -/
  getBastionUserData : List Nat → σ → Except Abort (List Nat) × σ
  /-- The helper `getTargetType`. -/
  getTargetType : σ → Except Abort (String × Option GoError) × σ
  /-- The helper `clientToTarget`; the client itself lives in the world. -/
  clientToTarget : String → σ → Except Abort (Option GoError) × σ
  /-- The call `Client.CoreV1().Nodes().List(...)`. -/
  listNodes : σ → (List Node × Option GoError) × σ
  /-- Go `exec.Command(name, args...).Output()`. -/
  output : String → List String → σ → (String × Option GoError) × σ
  /-- Go `exec.Command(name, args...).Run()` on the standard streams. -/
  run : String → List String → σ → Option GoError × σ
  /-- Go `os.TempDir()`. -/
  tempDir : σ → String
  /-- Go `ioutil.TempFile(dir, pattern)`: the name of the file created. -/
  tempFile : String → String → σ → (String × Option GoError) × σ
  /-- A `Write` to the named file. -/
  write : String → List Nat → σ → Option GoError × σ
  /-- Go `os.Remove(name)`. -/
  remove : String → σ → σ
  /-- Go `time.Sleep`: the world after that many seconds. -/
  sleep : Nat → σ → σ
  /-- Whether `semver.NewConstraint` parses the text. -/
  validConstraint : String → Bool
  /-- Whether `semver.NewVersion` parses the text. -/
  validVersion : String → Bool
  /-- The result of `c.Check(v)` for a parsed constraint and a parsed version. -/
  check : String → String → Bool
  /-- Go `fmt.Sprintf(format)` without operands. -/
  sprintf : String → String
  /-- Go `fmt.Sprintf("%q", s)`. -/
  quote : String → String

/-- The state of a run: the world and the calls issued so far. -/
structure St (σ : Type) where
  world : σ
  trace : List Event

/-- The end of a program: it returned `val`, or the process ended. -/
inductive Res (σ α : Type) where
  | ok (val : α) (st : St σ)
  | abort (why : Abort) (st : St σ)

/-- The state in which a program ended. -/
def Res.state {σ α : Type} : Res σ α → St σ
  | Res.ok _ st => st
  | Res.abort _ st => st

/-- The value a program returned, if it returned. -/
def Res.value? {σ α : Type} : Res σ α → Option α
  | Res.ok a _ => some a
  | Res.abort _ _ => none

/-- How the process ended, if the program did not return. -/
def Res.abort? {σ α : Type} : Res σ α → Option Abort
  | Res.ok _ _ => none
  | Res.abort w _ => some w

/-- Whether the program returned. -/
def Res.returned {σ α : Type} : Res σ α → Bool
  | Res.ok _ _ => true
  | Res.abort _ _ => false

/-- Continue with `f` after a return; the end of the process stays. -/
def Res.next {σ α β : Type} (r : Res σ α) (f : α → St σ → Res σ β) : Res σ β :=
  match r with
  | Res.ok a st => f a st
  | Res.abort w st => Res.abort w st

/-- The calls a program issued: the trace it ended with, without the trace it started
with. -/
def newEvents {σ α : Type} (st : St σ) (r : Res σ α) : List Event :=
  r.state.trace.drop st.trace.length

/-- Whether the event is a call of `operate` whose command begins with `pre`. -/
def Event.issues (pre : String) : Event → Bool
  | Event.operate _ arguments => pre.data.isPrefixOf arguments.data
  | _ => false

/-- Whether the event is a `fmt.Println`. -/
def Event.isPrintln : Event → Bool
  | Event.println _ => true
  | _ => false

/-- Whether the event is a line of the `log` package. -/
def Event.isLog : Event → Bool
  | Event.logPrintln _ => true
  | Event.logFatalf _ _ => true
  | _ => false

/-- Whether the event is the creation of a temporary file. -/
def Event.isTempFile : Event → Bool
  | Event.tempFile _ _ => true
  | _ => false

/-- A program: a function of the state it starts in. -/
def Prog (σ α : Type) : Type := St σ → Res σ α

namespace Prog

variable {σ α β : Type}

/-- Return `a`. -/
def ret (a : α) : Prog σ α := fun st => Res.ok a st

/-- Run `m`, then `f` on its value; the end of the process ends the whole. -/
def andThen (m : Prog σ α) (f : α → Prog σ β) : Prog σ β := fun st => (m st).next f

instance : Monad (Prog σ) where
  pure := ret
  bind := andThen

end Prog

variable {σ : Type}

/-- Record one call. -/
def emit (e : Event) : Prog σ Unit := fun st =>
  Res.ok () { st with trace := st.trace ++ [e] }

/-- End the process. -/
def abortWith {α : Type} (w : Abort) : Prog σ α := fun st => Res.abort w st

/-- A library call: recorded, then answered by the world. -/
def libCall {α : Type} (e : Event) (f : σ → α × σ) : Prog σ α := fun st =>
  Res.ok (f st.world).1 { world := (f st.world).2, trace := st.trace ++ [e] }

/-- A call of a helper of the package: recorded, then answered by the world, or the end of
the process. -/
def helperCall {α : Type} (e : Event) (f : σ → Except Abort α × σ) : Prog σ α := fun st =>
  match (f st.world).1 with
  | Except.ok a => Res.ok a { world := (f st.world).2, trace := st.trace ++ [e] }
  | Except.error w => Res.abort w { world := (f st.world).2, trace := st.trace ++ [e] }

/-- Go `fmt.Println`. -/
def println (line : String) : Prog σ Unit := emit (Event.println line)

/-- Go `os.Exit(code)`. -/
def osExit {α : Type} (code : Nat) : Prog σ α := abortWith (Abort.exit code)

/-- Go `time.Sleep(seconds * time.Second)`. -/
def sleep (env : Env σ) (seconds : Nat) : Prog σ Unit :=
  libCall (Event.sleep seconds) (fun w => ((), env.sleep seconds w))

/-- The sequence `captured := capture(); operate(provider, arguments); captured()`, and
`operate(provider, arguments)` alone when the result is dropped. -/
def operate (env : Env σ) (provider arguments : String) : Prog σ (String × Option GoError) :=
  helperCall (Event.operate provider arguments) (env.operate provider arguments)

/-! ## `pkg/cmd/utils.go` -/

/-- checkError checks if an error during execution occurred (`utils.go`, lines 44-58):
nothing on `nil`; otherwise the standard error of an `*exec.ExitError` is logged and
`log.Fatalf` ends the process with status 1. -/
def checkError (env : Env σ) (err : Option GoError) : Prog σ Unit :=
  match err with
  | none => pure ()
  | some e => do
    match e.stderr with
    | some text => emit (Event.logPrintln text)
    | none => pure ()
    emit (Event.logFatalf e env.debugSwitch)
    osExit 1

/-- ExecCmdReturnOutput execute cmd and return output (`utils.go`, lines 206-210). -/
def ExecCmdReturnOutput (env : Env σ) (cmd : String) (args : List String) :
    Prog σ (String × Option GoError) := do
  let r ← libCall (Event.command cmd args) (env.output cmd args)
  pure (trimSpace r.1, r.2)

/-! ## `pkg/cmd/ssh_aws.go` -/

/-- The command of line 126: the image of the instance with the private address
`privateIP`. -/
def describeImageCmd (privateIP : String) : String :=
  "aws ec2 describe-instances --filters Name=private-ip-address,Values=" ++
    privateIP ++ " --query Reservations[0].Instances[0].ImageId"

/-- fetchAWSImageIDByInstancePrivateIP returns the image ID (AMI) for instance with the
given `privateIP` (`ssh_aws.go`, lines 124-134). -/
def fetchAWSImageIDByInstancePrivateIP (env : Env σ) (privateIP : String) :
    Prog σ (String × Option GoError) := do
  let command := "aws ec2 describe-instances --filters Name=private-ip-address,Values=" ++
    privateIP ++ " --query Reservations[0].Instances[0].ImageId"
  let r ← operate env "aws" command
  if r.2 ≠ none ∨ r.1 = "None" then
    pure ("", some ⟨"could not fetch image ID (AMI) of instance with private IP address " ++
      env.quote privateIP, none⟩)
  else
    pure (r.1, none)

/-- The command of lines 169 and 179: the identifiers of the groups named `name` in the
network `vpc`. -/
def describeSecurityGroupsCmd (vpc name : String) : String :=
  "aws ec2 describe-security-groups --filters Name=vpc-id,Values=" ++ vpc ++
    " Name=group-name,Values=" ++ name ++ " --query SecurityGroups[*].\x7bID:GroupId\x7d"

/-- getSecurityGroupID extracts security group id of ec2 instance (lines 166-174). -/
def getSecurityGroupID (env : Env σ) (a : AwsInstanceAttribute) :
    Prog σ AwsInstanceAttribute := do
  let r ← operate env "aws" (describeSecurityGroupsCmd a.VpcID a.SecurityGroupName)
  let a := { a with SecurityGroupID := r.1 }
  checkError env r.2
  pure a

/-- getBastionSecurityGroupID extracts security group id for bastion security group
(lines 176-184). -/
def getBastionSecurityGroupID (env : Env σ) (a : AwsInstanceAttribute) :
    Prog σ AwsInstanceAttribute := do
  let r ← operate env "aws" (describeSecurityGroupsCmd a.VpcID a.BastionSecurityGroupName)
  let a := { a with BastionSecurityGroupID := r.1 }
  checkError env r.2
  pure a

/-- The command of lines 153 and 158: open TCP/22 from anywhere on the group `groupID`. -/
def authorizeIngress (groupID : String) : String :=
  "aws ec2 authorize-security-group-ingress --group-id " ++ groupID ++
    " --protocol tcp --port 22 --cidr 0.0.0.0/0"

/-- The command of line 147. -/
def createSecurityGroupCmd (a : AwsInstanceAttribute) : String :=
  "aws ec2 create-security-group --group-name " ++ a.BastionSecurityGroupName ++
    " --description ssh-access --vpc-id " ++ a.VpcID

/-- createBastionHostSecurityGroup finds the or creates a security group for the bastion host
(lines 136-164). -/
def createBastionHostSecurityGroup (env : Env σ) (a : AwsInstanceAttribute) :
    Prog σ AwsInstanceAttribute := do
  -- check if security group exists
  let a ← getBastionSecurityGroupID env a
  if a.BastionSecurityGroupID ≠ "" then
    println "Security Group exists, skipping creation."
    pure a
  else
    -- create security group and ssh rule
    let r ← operate env "aws" (createSecurityGroupCmd a)
    checkError env r.2
    let a := { a with BastionSecurityGroupID := trim r.1 "\n" }
    let _ ← operate env "aws" (authorizeIngress a.BastionSecurityGroupID)
    println "Bastion host security group set up."
    -- add shh rule to ec2 instance
    let r ← operate env "aws" (authorizeIngress a.SecurityGroupID)
    checkError env r.2
    println "Opend SSH Port on Node."
    pure a

/-- The loop of lines 194-202 of `getAwsInstanceIDForIP`: reading `Addresses[0]` of a node
without addresses is a run-time panic. -/
def getAwsInstanceIDForIPLoop (ip : String) : List Node → Prog σ String
  | [] => pure ""
  | node :: rest =>
    match node.addresses with
    | [] => abortWith (Abort.panic "runtime error: index out of range [0] with length 0")
    | address :: _ =>
      if ip = address then
        match (split node.providerID '/').find? (fun v => hasPrefix v "i-") with
        | some v => pure v
        | none => getAwsInstanceIDForIPLoop ip rest
      else getAwsInstanceIDForIPLoop ip rest

/-- The first `/`-separated segment of `providerID` that begins with `i-` is `v`. -/
def FirstInstanceSegment (providerID v : String) : Prop :=
  ∃ s1 s2, split providerID '/' = s1 ++ v :: s2 ∧ hasPrefix v "i-" = true ∧
    ∀ u ∈ s1, hasPrefix u "i-" = false

/-- The node qualifies for `ip`: its first reported address is `ip` and its provider ID has
a segment that begins with `i-`. -/
def Qualifies (ip : String) (n : Node) : Prop :=
  n.addresses.head? = some ip ∧ ∃ v, FirstInstanceSegment n.providerID v

/-- getAwsInstanceIDForIP returns the instance ID with the given `nodeIP` (lines 186-204). -/
def getAwsInstanceIDForIP (env : Env σ) (ip : String) : Prog σ String := do
  let t ← helperCall (Event.call "getTargetType") env.getTargetType
  checkError env t.2
  let err ← helperCall (Event.call "clientToTarget") (env.clientToTarget t.1)
  checkError env err
  let nodes ← libCall (Event.call "Nodes().List") env.listNodes
  checkError env nodes.2
  getAwsInstanceIDForIPLoop ip nodes.1

/-- The discovery command of line 209. -/
def describeBastionCmd (a : AwsInstanceAttribute) : String :=
  "aws ec2 describe-instances --filter Name=vpc-id,Values=" ++ a.VpcID ++
    " Name=tag:Name,Values=" ++ a.BastionSecurityGroupName ++
    " Name=instance-state-name,Values=running" ++
    " --query Reservations[*].Instances[].\x7bInstance:InstanceId\x7d --output text"

/-- getBastionHostInstance gets bastion host instance if it exists (lines 206-214). -/
def getBastionHostInstance (env : Env σ) (a : AwsInstanceAttribute) :
    Prog σ AwsInstanceAttribute := do
  let r ← operate env "aws" (describeBastionCmd a)
  let a := { a with BastionInstanceID := r.1 }
  checkError env r.2
  pure a

/-- The launch command of line 233, with the user data in the file `tmpfile`. -/
def runInstancesCmd (a : AwsInstanceAttribute) (tmpfile : String) : String :=
  "aws " ++ ("ec2 run-instances --iam-instance-profile Name=" ++ a.BastionInstanceName ++
    " --image-id " ++ a.ImageID ++ " --count 1 --instance-type t2.nano --key-name " ++
    a.KeyName ++ " --security-group-ids " ++ a.BastionSecurityGroupID ++ " --subnet-id " ++
    a.SubnetID ++ " --associate-public-ip-address --user-data file://" ++ tmpfile ++
    " --tag-specifications ResourceType=instance,Tags=[\x7bKey=Name,Value=" ++
    a.BastionInstanceName ++ "\x7d]")

/-- The state query of line 250. -/
def stateQueryCmd (a : AwsInstanceAttribute) : String :=
  "aws ec2 describe-instances --instance-id=" ++ a.BastionInstanceID ++
    " --query Reservations[*].Instances[].[State.Name] --output text"

/-- The detail query of line 257. -/
def detailQueryCmd (a : AwsInstanceAttribute) : String :=
  "aws ec2 describe-instances --instance-id " ++ a.BastionInstanceID

/-- The loop of lines 239-243: every word beginning with `i-` is assigned in turn. -/
def assignInstanceID (a : AwsInstanceAttribute) (words : List String) : AwsInstanceAttribute :=
  words.foldl (fun a value => if hasPrefix value "i-" then { a with BastionInstanceID := value }
    else a) a

/-- The loop of lines 263-269: `ip` starts empty and takes the first word that `isIP` accepts
and that does not begin with `10.`, where the loop breaks. -/
def selectIP (env : Env σ) : List String → String
  | [] => ""
  | value :: rest =>
    if env.isIP value && !hasPrefix value "10." then value else selectIP env rest

/-- How the readiness loop of `createBastionHostInstance` is left: by the `return` of line
271, with the record it leaves, or by its condition failing, with the counter reached. -/
inductive LoopExit where
  | returned (a : AwsInstanceAttribute)
  | done (attemptCnt : Nat)
deriving DecidableEq, Repr

/-- The loop `for attemptCnt < 60` of lines 249-275, entered with the counter at
`attemptCnt`. -/
def readinessLoop (env : Env σ) (a : AwsInstanceAttribute) (attemptCnt : Nat) :
    Prog σ LoopExit :=
  if attemptCnt < 60 then do
    let r ← operate env "aws" (stateQueryCmd a)
    checkError env r.2
    println ("Instance State: " ++ r.1)
    if trim r.1 "\n" = "running" then
      let d ← operate env "aws" (detailQueryCmd a)
      let words := fields d.1
      checkError env d.2
      pure (LoopExit.returned { a with BastionIP := selectIP env words })
    else
      sleep env 2
      readinessLoop env a (attemptCnt + 1)
  else
    pure (LoopExit.done attemptCnt)
termination_by 60 - attemptCnt
decreasing_by omega

/-- Lines 229-280 of `createBastionHostInstance`: what runs between the `defer` of line 228
and the deferred call. -/
def createBastionHostInstanceBody (env : Env σ) (a : AwsInstanceAttribute) (tmpfile : String) :
    Prog σ AwsInstanceAttribute := do
  let err ← libCall (Event.write tmpfile a.UserData) (env.write tmpfile a.UserData)
  checkError env err
  -- create bastion host
  let r ← operate env "aws" (runInstancesCmd a tmpfile)
  checkError env r.2
  let a := assignInstanceID a (fields r.1)
  println "Bastion host instance created."
  println ""
  -- check if bastion host is up and running, timeout after 3 minutes
  match ← readinessLoop env a 0 with
  | LoopExit.returned a => pure a
  | LoopExit.done attemptCnt =>
    if attemptCnt = 90 then
      println "Bastion server instance timeout. Please try again."
      osExit 2
    else
      pure a

/-- The readiness loop by recursion on the turns left instead of on the distance of the
counter from 60: the same program (`readinessLoop_eq_turns`), in a form that evaluates on
concrete inputs. -/
def readinessLoopTurns (env : Env σ) (a : AwsInstanceAttribute) : Nat → Nat → Prog σ LoopExit
  | 0, attemptCnt => pure (LoopExit.done attemptCnt)
  | turns + 1, attemptCnt => do
    let r ← operate env "aws" (stateQueryCmd a)
    checkError env r.2
    println ("Instance State: " ++ r.1)
    if trim r.1 "\n" = "running" then
      let d ← operate env "aws" (detailQueryCmd a)
      let words := fields d.1
      checkError env d.2
      pure (LoopExit.returned { a with BastionIP := selectIP env words })
    else
      sleep env 2
      readinessLoopTurns env a turns (attemptCnt + 1)

/-- createBastionHostInstance find or creates a bastion host instance (lines 216-280).  The
deferred `os.Remove` runs when the function returns, not when the process is ended. -/
def createBastionHostInstance (env : Env σ) (a : AwsInstanceAttribute) :
    Prog σ AwsInstanceAttribute := do
  -- check if bastion host exists
  let a ← getBastionHostInstance env a
  if a.BastionInstanceID ≠ "" then
    println "Bastion Host exists, skipping creation."
    pure a
  else
    let dir ← libCall (Event.call "os.TempDir") (fun w => (env.tempDir w, w))
    let t ← libCall (Event.tempFile dir "gardener-user.sh") (env.tempFile dir "gardener-user.sh")
    checkError env t.2
    let a ← createBastionHostInstanceBody env a t.1
    libCall (Event.remove t.1) (fun w => ((), env.remove t.1 w))
    pure a

/-- cleanupAwsBastionHost cleans up the bastion host for the targeted cluster
(lines 282-320). -/
def cleanupAwsBastionHost (env : Env σ) (a : AwsInstanceAttribute) : Prog σ Unit := do
  println "Cleaning up bastion host configurations..."
  println ""
  println "Starting cleanup"
  println ""
  -- clean up bastion host instance
  println "  (1/3) Cleaning up bastion host instance"
  let r ← operate env "aws" ("aws ec2 terminate-instances --instance-ids " ++ a.BastionInstanceID)
  checkError env r.2
  println r.1
  -- remove shh rule from ec2 instance
  println "  (2/3) Close SSH Port on Node."
  let r ← operate env "aws" ("aws ec2 revoke-security-group-ingress --group-id " ++
    a.SecurityGroupID ++ " --protocol tcp --port 22 --cidr 0.0.0.0/0")
  checkError env r.2
  println "  Closed SSH Port on Node."
  println r.1
  -- clean up bastion security group
  println "  (3/3) Clean up bastion host security group"
  println ""
  println "  Waiting 45 seconds until instance is deleted to remove all dependencies."
  sleep env 45
  let r ← operate env "aws" ("aws ec2 delete-security-group --group-id " ++
    a.BastionSecurityGroupID)
  checkError env r.2
  println ""
  println "Bastion host configurations successfully cleaned up."

/-- The command of line 291. -/
def terminateInstancesCmd (a : AwsInstanceAttribute) : String :=
  "aws ec2 terminate-instances --instance-ids " ++ a.BastionInstanceID

/-- The command of line 300: close TCP/22 from anywhere on the node security group. -/
def revokeIngressCmd (a : AwsInstanceAttribute) : String :=
  "aws ec2 revoke-security-group-ingress --group-id " ++ a.SecurityGroupID ++
    " --protocol tcp --port 22 --cidr 0.0.0.0/0"

/-- The command of line 313. -/
def deleteSecurityGroupCmd (a : AwsInstanceAttribute) : String :=
  "aws ec2 delete-security-group --group-id " ++ a.BastionSecurityGroupID

/-- fetchAwsAttributes gets all the needed attributes for creating bastion host and its
security group with given `nodeIP` (lines 83-122). -/
def fetchAwsAttributes (env : Env σ) (a : AwsInstanceAttribute) (nodeIP path : String) :
    Prog σ AwsInstanceAttribute := do
  let name ← helperCall (Event.call "getShootClusterName") env.getShootClusterName
  let a := { a with ShootName := name }
  let id ← getAwsInstanceIDForIP env nodeIP
  let a := { a with InstanceID := id }
  let terraformVersion ← ExecCmdReturnOutput env "bash"
    ["-c", "cat " ++ path ++ "  | jq -r .terraform_version"]
  checkError env terraformVersion.2
  if env.validConstraint ">= 0.12.0" = false then
    println "Handle version not being parsable."
    osExit 2
  else if env.validVersion terraformVersion.1 = false then
    println "Handle version not being parsable."
    osExit 2
  else
    let a ←
      if env.check ">= 0.12.0" terraformVersion.1 then do
        let subnetID ← ExecCmdReturnOutput env "bash"
          ["-c", "cat " ++ path ++ " | jq -r .outputs.subnet_public_utility_z0.value"]
        checkError env subnetID.2
        let a := { a with SubnetID := subnetID.1 }
        let vpcID ← ExecCmdReturnOutput env "bash"
          ["-c", "cat " ++ path ++ " | jq -r .outputs.vpc_id.value"]
        checkError env vpcID.2
        pure { a with VpcID := vpcID.1 }
      else do
        let subnetID ← ExecCmdReturnOutput env "bash"
          ["-c", "cat " ++ path ++ " | jq -r .modules[].outputs.subnet_public_utility_z0.value"]
        checkError env subnetID.2
        let a := { a with SubnetID := subnetID.1 }
        let vpcID ← ExecCmdReturnOutput env "bash"
          ["-c", "cat " ++ path ++ " | jq -r .modules[].outputs.vpc_id.value"]
        checkError env vpcID.2
        pure { a with VpcID := vpcID.1 }
    let a := { a with SecurityGroupName := a.ShootName ++ "-nodes" }
    let a ← getSecurityGroupID env a
    let a := { a with BastionInstanceName := a.ShootName ++ "-bastions" }
    let a := { a with BastionSecurityGroupName := a.ShootName ++ "-bsg" }
    let image ← fetchAWSImageIDByInstancePrivateIP env nodeIP
    let a := { a with ImageID := image.1 }
    checkError env image.2
    let a := { a with KeyName := a.ShootName ++ "-ssh-publickey" }
    let userData ← helperCall (Event.call "getBastionUserData")
      (env.getBastionUserData a.SSHPublicKey)
    pure { a with UserData := userData }

/-- The text handed to `fmt.Sprintf` on line 71. -/
def sshFormat (user nodeIP bastionIP : String) : String :=
  "ssh -i key -o \"ProxyCommand ssh -W %%h:%%p -i key -o StrictHostKeyChecking=no " ++
    (user ++ "@" ++ bastionIP) ++ "\" " ++ (user ++ "@" ++ nodeIP) ++
    " -o StrictHostKeyChecking=no"

/-- sshToAWSNode provides cmds to ssh to aws via a bastions host and clean it up afterwards
(lines 48-81). -/
def sshToAWSNode (env : Env σ) (nodeIP path user : String) (sshPublicKey : List Nat) :
    Prog σ Unit := do
  let a := { AwsInstanceAttribute.zero with SSHPublicKey := sshPublicKey }
  println ""
  println "(1/4) Fetching data from target shoot cluster"
  let a ← fetchAwsAttributes env a nodeIP path
  println "Data fetched from target shoot cluster."
  println ""
  println "(2/4) Setting up bastion host security group"
  let a ← createBastionHostSecurityGroup env a
  println ""
  println "(3/4) Creating bastion host"
  let a ← createBastionHostInstance env a
  println "Waiting 45 seconds until ports are open."
  sleep env 45
  let sshCmd := env.sprintf (sshFormat user nodeIP a.BastionIP)
  let err ← libCall (Event.command "bash" ["-c", sshCmd]) (env.run "bash" ["-c", sshCmd])
  checkError env err
  println "(4/4) Cleanup"
  cleanupAwsBastionHost env a

/-! ## A simulated environment

A small provider that keeps instances and security groups and answers the commands of the
workflow by reading their words, used to run the embedded code on concrete inputs. -/

/-- An instance of the simulated provider. -/
structure SimInstance where
  id : String
  nameTag : String
  state : String
  privateIP : String
  publicIP : String
deriving DecidableEq, Repr

/-- The simulated world: the provider's instances and security groups (name, identifier), the
state a launched instance is reported in, and how the interactive session will end. -/
structure SimAws where
  instances : List SimInstance
  groups : List (String × String)
  launchState : String
  sshError : Option GoError
deriving DecidableEq, Repr

/-- The rest of the first word that begins with `pre`. -/
def argAfter (pre : String) : List String → Option String
  | [] => none
  | w :: ws =>
    if hasPrefix w pre then some (String.mk (w.data.drop pre.length)) else argAfter pre ws

/-- Modelled from the spec: the helper `isIP` is not among the embedded files; the spec asks
for a token that "parses as a valid IP literal".  This instance accepts the dotted-quad IPv4
literals and serves the simulated environment only. -/
def isIPv4 (s : String) : Bool :=
  let parts := s.data.splitOn '.'
  parts.length == 4 &&
    parts.all (fun p => !p.isEmpty && p.length ≤ 3 && p.all Char.isDigit &&
      p.foldl (fun n c => 10 * n + (c.toNat - 48)) 0 ≤ 255)

/-- The simulated `describe-instances`: discovery by `tag:Name` among the running instances,
the state of one instance, the details of one instance, or the image of the instance with a
private address. -/
def simDescribeInstances (rest : List String) (w : SimAws) : String :=
  match argAfter "Name=tag:Name,Values=" rest with
  | some name =>
    String.intercalate "\n"
      ((w.instances.filter (fun i => i.nameTag == name && i.state == "running")).map
        (fun i => i.id))
  | none =>
    match argAfter "--instance-id=" rest with
    | some id =>
      match w.instances.find? (fun i => i.id == id) with
      | some i => i.state ++ "\n"
      | none => ""
    | none =>
      match rest with
      | ["--instance-id", id] =>
        match w.instances.find? (fun i => i.id == id) with
        | some i => i.privateIP ++ " " ++ i.publicIP ++ " " ++ i.id
        | none => ""
      | _ =>
        match argAfter "Name=private-ip-address,Values=" rest with
        | some _ => "ami-0123"
        | none => ""

/-- The simulated provider: the text printed for `arguments` and the world afterwards. -/
def simOperate (arguments : String) (w : SimAws) : String × SimAws :=
  match fields arguments with
  | "aws" :: "ec2" :: "describe-instances" :: rest => (simDescribeInstances rest w, w)
  | "aws" :: "ec2" :: "run-instances" :: rest =>
    match argAfter "ResourceType=instance,Tags=[\x7bKey=Name,Value=" rest with
    | some v =>
      let id := "i-" ++ String.mk (List.replicate (w.instances.length + 1) '7')
      (id, { w with instances := w.instances ++
        [⟨id, String.mk (v.data.take (v.length - 2)), w.launchState, "10.250.0.9",
          "203.0.113.9"⟩] })
    | none => ("", w)
  | "aws" :: "ec2" :: "terminate-instances" :: "--instance-ids" :: id :: _ =>
    ("", { w with instances := w.instances.filter (fun i => i.id != id) })
  | "aws" :: "ec2" :: "describe-security-groups" :: rest =>
    match argAfter "Name=group-name,Values=" rest with
    | some name =>
      match w.groups.find? (fun g => g.1 == name) with
      | some g => (g.2, w)
      | none => ("", w)
    | none => ("", w)
  | "aws" :: "ec2" :: "create-security-group" :: "--group-name" :: name :: _ =>
    ("sg-" ++ name ++ "\n", { w with groups := w.groups ++ [(name, "sg-" ++ name)] })
  | "aws" :: "ec2" :: "delete-security-group" :: "--group-id" :: id :: _ =>
    ("", { w with groups := w.groups.filter (fun g => g.2 != id) })
  | _ => ("", w)

/-- The simulated infrastructure state: what `jq` prints for the script of a `bash -c` call. -/
def simOutput (args : List String) : String :=
  match args with
  | ["-c", script] =>
    match (fields script).getLast? with
    | some ".terraform_version" => "0.12.20\n"
    | some ".outputs.subnet_public_utility_z0.value" => "subnet-1\n"
    | some ".outputs.vpc_id.value" => "vpc-1\n"
    | _ => "null\n"
  | _ => ""

/-- The simulated `fmt.Sprintf` without operands, for formats whose only verbs are `%%`. -/
def simSprintf : List Char → List Char
  | '%' :: '%' :: cs => '%' :: simSprintf cs
  | c :: cs => c :: simSprintf cs
  | [] => []

/-- The simulated environment: the cluster is `foo`, its node `10.250.0.7` is the instance
`i-0a1b`, every call succeeds, and the session ends as the world says. -/
def simEnv : Env SimAws where
  debugSwitch := false
  isIP := isIPv4
  operate := fun _ arguments w =>
    (Except.ok ((simOperate arguments w).1, none), (simOperate arguments w).2)
  getShootClusterName := fun w => (Except.ok "foo", w)
  getBastionUserData := fun key w => (Except.ok key, w)
  getTargetType := fun w => (Except.ok ("shoot", none), w)
  clientToTarget := fun _ w => (Except.ok none, w)
  listNodes := fun w => (([⟨["10.250.0.7"], "aws:///eu-west-1a/i-0a1b"⟩], none), w)
  output := fun _ args w => ((simOutput args, none), w)
  run := fun _ _ w => (w.sshError, w)
  tempDir := fun _ => "/tmp"
  tempFile := fun dir pattern w => ((dir ++ "/" ++ pattern ++ "1", none), w)
  write := fun _ _ w => (none, w)
  remove := fun _ w => w
  sleep := fun _ w => w
  validConstraint := fun _ => true
  validVersion := fun v => !v.isEmpty
  check := fun _ v => !hasPrefix v "0.11."
  sprintf := fun format => String.mk (simSprintf format.data)
  quote := fun s => "\"" ++ s ++ "\""

/-- The simulated world at the start: the node group of cluster `foo` exists, nothing else. -/
def simWorld : SimAws :=
  { instances := [], groups := [("foo-nodes", "sg-nodes")], launchState := "running",
    sshError := none }

/-- The record as `fetchAwsAttributes` leaves it in the simulated environment. -/
def simRecord : AwsInstanceAttribute :=
  { ShootName := "foo", InstanceID := "i-0a1b", SecurityGroupName := "foo-nodes",
    SecurityGroupID := "sg-nodes", ImageID := "ami-0123", VpcID := "vpc-1",
    KeyName := "foo-ssh-publickey", SubnetID := "subnet-1", BastionSecurityGroupID := "",
    BastionInstanceName := "foo-bastions", BastionIP := "", BastionInstanceID := "",
    BastionSecurityGroupName := "foo-bsg", UserData := [1, 2, 3], SSHPublicKey := [1, 2, 3] }

/-! ## Concrete inputs -/

/-- The simulated world with the bastion `i-0123` of cluster `foo` running, tagged with the
instance name. -/
def simBastionWorld : SimAws :=
  { simWorld with
    instances := [⟨"i-0123", "foo-bastions", "running", "10.0.1.5", "203.0.113.9"⟩] }

/-- The simulated world in which a running instance carries the Name tag that the discovery
of line 209 asks for, the security group name `foo-bsg`. -/
def simReuseWorld : SimAws :=
  { simWorld with
    instances := [⟨"i-0123", "foo-bsg", "running", "10.0.1.5", "203.0.113.9"⟩] }

/-- The simulated world in which the bastion security group of cluster `foo` exists. -/
def simGroupWorld : SimAws :=
  { simWorld with groups := [("foo-nodes", "sg-nodes"), ("foo-bsg", "sg-foo-bsg")] }

/-- The simulated world in which the interactive session ends with a non-zero status. -/
def simFailingSessionWorld : SimAws :=
  { simWorld with sshError := some ⟨"exit status 255", some ""⟩ }

/-- An environment whose provider never reports `running`: discovery finds nothing, the
launch answers `i-7`, every state query answers `pending`, and no call fails. -/
def pendingEnv : Env SimAws :=
  { simEnv with
    operate := fun _ arguments w =>
      (Except.ok
        (if hasPrefix arguments "aws ec2 describe-instances --instance-id=" then "pending\n"
          else if hasPrefix arguments "aws ec2 run-instances" then "i-7" else "", none), w) }

/-- Two calls of `createBastionHostInstance` in sequence on the same record, against the
simulated provider started without instances. -/
def simTwice : Res SimAws AwsInstanceAttribute :=
  (createBastionHostInstance simEnv simRecord ⟨simWorld, []⟩).next
    (fun a1 st1 => createBastionHostInstance simEnv a1 st1)

/-- The workflow for node `10.250.0.7` of cluster `foo` when the session fails. -/
def simFailedSession : Res SimAws Unit :=
  sshToAWSNode simEnv "10.250.0.7" "/tmp/tf.state" "gardener" [1, 2, 3]
    ⟨simFailingSessionWorld, []⟩

/-- The simulated environment in which every provider call whose command begins with `pre`
fails: it changes nothing and reports the error `e`. -/
def failingEnv (pre : String) (e : GoError) : Env SimAws :=
  { simEnv with
    operate := fun provider arguments w =>
      if hasPrefix arguments pre then (Except.ok ("", some e), w)
      else simEnv.operate provider arguments w }

/-- The error of a provider call that ended with a non-zero status. -/
def exitStatus : GoError := ⟨"exit status 255", some ""⟩

/-- The record of cluster `foo` after the bastion `i-7` and its group `sg-foo-bsg` were set
up. -/
def simBastionRecord : AwsInstanceAttribute :=
  { simRecord with
    BastionSecurityGroupID := "sg-foo-bsg", BastionInstanceID := "i-7",
    BastionIP := "203.0.113.9" }

/-- The simulated world after the bastion `i-7` and its group `sg-foo-bsg` were set up. -/
def simSetUpWorld : SimAws :=
  { simWorld with
    instances := [⟨"i-7", "foo-bastions", "running", "10.250.0.9", "203.0.113.9"⟩],
    groups := [("foo-nodes", "sg-nodes"), ("foo-bsg", "sg-foo-bsg")] }

/-- The simulated environment whose cluster lists, before the node `10.250.0.7`, a node that
reports no address. -/
def addresslessEnv : Env SimAws :=
  { simEnv with
    listNodes := fun w =>
      (([⟨[], "aws:///eu-west-1a/i-0aaa"⟩, ⟨["10.250.0.7"], "aws:///eu-west-1a/i-0a1b"⟩],
        none), w) }

/-- The error of an authorization that repeats an existing rule. -/
def duplicateRule : GoError :=
  ⟨"An error occurred (InvalidPermission.Duplicate) when calling the " ++
    "AuthorizeSecurityGroupIngress operation: the specified rule already exists", none⟩

/-- `createBastionHostInstance` for cluster `foo` when the launch fails. -/
def simFailedLaunch : Res SimAws AwsInstanceAttribute :=
  createBastionHostInstance (failingEnv "aws ec2 run-instances" exitStatus) simRecord
    ⟨simWorld, []⟩

/-- `createBastionHostSecurityGroup` for cluster `foo` when the rule on the node group is
reported as existing already. -/
def simDuplicateRule : Res SimAws AwsInstanceAttribute :=
  createBastionHostSecurityGroup
    (failingEnv "aws ec2 authorize-security-group-ingress --group-id sg-nodes" duplicateRule)
    simRecord ⟨simWorld, []⟩

/-- The simulated environment whose node `10.250.0.7` reports its host name first and its
IP second, so that no node has the IP as first address. -/
def unresolvedEnv : Env SimAws :=
  { simEnv with
    listNodes := fun w =>
      (([⟨["ip-10-250-0-7.eu-west-1.compute.internal", "10.250.0.7"],
          "aws:///eu-west-1a/i-0a1b"⟩], none), w) }

/-- The workflow for node `10.250.0.7` when its instance identifier is not resolved. -/
def simUnresolved : Res SimAws Unit :=
  sshToAWSNode unresolvedEnv "10.250.0.7" "/tmp/tf.state" "gardener" [1, 2, 3] ⟨simWorld, []⟩

/-! ## More Go strings -/

/-- Go `strings.Contains(s, substr)`. -/
def contains (s substr : String) : Bool :=
  s.data.tails.any (fun t => substr.data.isPrefixOf t)

/-- Go `net.JoinHostPort(host, port)`: the host is put in brackets when it holds a colon. -/
def joinHostPort (host port : String) : String :=
  if host.data.contains ':' then "[" ++ host ++ "]:" ++ port else host ++ ":" ++ port

/-- Go `strings.Index(s, substr)` followed by `s[:index]`: the text before the first
occurrence of `substr`, and all of `s` when there is none. -/
def beforeFirst (substr : List Char) : List Char → List Char
  | [] => []
  | c :: cs => if substr.isPrefixOf (c :: cs) then [] else c :: beforeFirst substr cs

/-- Go `a < b` on strings. -/
def stringLess : List Char → List Char → Bool
  | _, [] => false
  | [], _ :: _ => true
  | a :: as, b :: bs => a.toNat < b.toNat || (a == b && stringLess as bs)

/-- One step of sorting: `x` is put before the first element that is not smaller. -/
def insertSorted (x : String) : List String → List String
  | [] => [x]
  | y :: ys => if stringLess y.data x.data then y :: insertSorted x ys else x :: y :: ys

/-- Go `sort.Strings(lines)`: the strings in increasing order. -/
def sortStrings (lines : List String) : List String :=
  lines.foldr insertSorted []

/-! ## `pkg/cmd/utils.go`, continued -/

/-- The fields of a `clientcmdapi.AuthProviderConfig`. -/
structure AuthProviderConfig where
  Name : String
  Config : List (String × String)
deriving DecidableEq, Repr

/-- The fields of a `clientcmdapi.AuthInfo` that `ValidateClientConfig` reads; of the `Exec`
configuration only its command is kept. -/
structure AuthInfo where
  ClientCertificate : String
  ClientKey : String
  TokenFile : String
  Impersonate : String
  ImpersonateGroups : List String
  AuthProvider : Option AuthProviderConfig
  Exec : Option String
deriving DecidableEq, Repr

/-- The slice `validFields` of line 238 as `%+v` prints it. -/
def validFields : String :=
  "[client-certificate-data client-key-data token username password]"

/-- The loop of lines 240-259 of `ValidateClientConfig` over the entries of
`config.AuthInfos` in the order in which `range` visits them. -/
def ValidateClientConfigLoop (env : Env σ) (pathOfKubeconfig : String) :
    List (String × AuthInfo) → Prog σ (Option GoError)
  | [] => pure none
  | (user, authInfo) :: rest =>
    if authInfo.ClientCertificate ≠ "" then
      pure (some ⟨"client certificate files are not supported (user " ++ env.quote user ++
        "), these are the valid fields: " ++ validFields, none⟩)
    else if authInfo.ClientKey ≠ "" then
      pure (some ⟨"client key files are not supported (user " ++ env.quote user ++
        "), these are the valid fields: " ++ validFields, none⟩)
    else if authInfo.TokenFile ≠ "" then
      pure (some ⟨"token files are not supported (user " ++ env.quote user ++
        "), these are the valid fields: " ++ validFields, none⟩)
    else if authInfo.Impersonate ≠ "" ∨ authInfo.ImpersonateGroups.length > 0 then
      pure (some ⟨"impersonation is not supported, these are the valid fields: " ++
        validFields, none⟩)
    else if (authInfo.AuthProvider.map (fun p => decide (p.Config.length > 0))) = some true then do
      println ("Kubeconfig under path " ++ pathOfKubeconfig ++
        " contains auth provider configurations that could contain malicious code." ++
        " Please only continue if you have verified it to be uncritical")
      pure none
    else if authInfo.Exec ≠ none then do
      println ("Kubeconfig under path " ++ pathOfKubeconfig ++
        " contains exec configurations that could contain malicious code." ++
        " Please only continue if you have verified it to be uncritical")
      pure none
    else ValidateClientConfigLoop env pathOfKubeconfig rest

/-- ValidateClientConfig validates that the auth info of a given kubeconfig doesn't have
unsupported fields (`utils.go`, lines 236-262).  The helper `getKubeConfigOfCurrentTarget` is
not part of the embedded files, and `visited` lists the entries of the map
`config.AuthInfos` in the order in which `range` visits them. -/
def ValidateClientConfig (env : Env σ)
    (getKubeConfigOfCurrentTarget : σ → Except Abort String × σ)
    (visited : List (String × AuthInfo)) : Prog σ (Option GoError) := do
  let pathOfKubeconfig ←
    helperCall (Event.call "getKubeConfigOfCurrentTarget") getKubeConfigOfCurrentTarget
  ValidateClientConfigLoop env pathOfKubeconfig visited

/-- The loop of lines 361-372 of `CheckIPPortReachable`, entered with `attemptCount`
attempts made; `dial` answers whether `net.DialTimeout` yields a connection. -/
def CheckIPPortReachableLoop (env : Env σ) (dial : String → String → Nat → σ → Bool × σ)
    (ip port : String) (attemptCount : Nat) : Prog σ (Option GoError) :=
  if attemptCount < 12 then do
    let conn ← libCall (Event.call "net.DialTimeout") (dial "tcp" (joinHostPort ip port) 10)
    if conn then
      println ("IP " ++ ip ++ " port " ++ port ++ " is reachable")
      emit (Event.call "conn.Close")
      pure none
    else
      println "waiting for 10 seconds to retry"
      sleep env 10
      CheckIPPortReachableLoop env dial ip port (attemptCount + 1)
  else
    pure (some ⟨"IP " ++ ip ++ " port " ++ port ++ " is not reachable", none⟩)
termination_by 12 - attemptCount
decreasing_by omega

/-- CheckIPPortReachable check whether IP with port is reachable within certain period of time
(`utils.go`, lines 359-375). -/
def CheckIPPortReachable (env : Env σ) (dial : String → String → Nat → σ → Bool × σ)
    (ip port : String) : Prog σ (Option GoError) :=
  CheckIPPortReachableLoop env dial ip port 0

/-- The fields of a `gardencorev1beta1.Hibernation`, over the type of its schedules. -/
structure Hibernation (ς : Type) where
  Enabled : Option Bool
  Schedules : List ς

/-- A `gardencorev1beta1.Shoot` as `setHibernation` sees it: the object that
`Spec.Hibernation` points to, if any, and all its other fields. -/
structure Shoot (ρ ς : Type) where
  Hibernation : Option (Hibernation ς)
  rest : ρ

/-- setHibernation hibernate a shoot or wake up a shoot (`utils.go`, lines 377-385).  The
result is the shoot afterwards, together with the object that `Spec.Hibernation` pointed to
before the call, as the write of line 380 leaves it. -/
def setHibernation {ρ ς : Type} (shoot : Shoot ρ ς) (hibernated : Bool) :
    Shoot ρ ς × Option (Hibernation ς) :=
  let previous := shoot.Hibernation.map (fun h => { h with Enabled := some hibernated })
  let shoot := { shoot with Hibernation := previous }
  ({ shoot with Hibernation := some { Enabled := some hibernated, Schedules := [] } }, previous)

/-! ## `vendor/github.com/gardener/gardener/pkg/operation/terraformer/errors.go` -/

/-- The error codes of the package `gardenv1beta1` that `determineErrorCode` assigns; the
package is not part of the embedded files. -/
structure ErrorCodes where
  ErrorInfraUnauthorized : String
  ErrorInfraQuotaExceeded : String
  ErrorInfraInsufficientPrivileges : String
  ErrorInfraDependencies : String

/-- The code that the `switch` of lines 58-67 assigns, the empty zero value when no case
applies. -/
def errorCodeOf (codes : ErrorCodes) (message : String) : String :=
  if contains message "UnauthorizedOperation" || contains message "SignatureDoesNotMatch" then
    codes.ErrorInfraUnauthorized
  else if contains message "LimitExceeded" then codes.ErrorInfraQuotaExceeded
  else if contains message "AccessDenied" then codes.ErrorInfraInsufficientPrivileges
  else if contains message "DependencyViolation" then codes.ErrorInfraDependencies
  else ""

/-- determineErrorCode determines the Garden error code for the given error message
(`errors.go`, lines 54-74). -/
def determineErrorCode (codes : ErrorCodes) (message : String) : GoError :=
  let code := errorCodeOf codes message
  let message := if code.length ≠ 0 then "CODE:" ++ code ++ " " ++ message else message
  ⟨message, none⟩

/-- A match of the expression `(?:Error [^:]*|Errors): *([\s\S]*)` that begins at the start
of the text: its first submatch, if there is such a match.  After `Error ` the class `[^:]*`
runs to the first colon, the spaces after the colon are skipped, and the submatch is all the
rest. -/
def terraformErrorAt (s : List Char) : Option (List Char) :=
  if "Error ".data.isPrefixOf s then
    if (s.drop 6).contains ':' then
      some ((((s.drop 6).dropWhile (fun c => c != ':')).drop 1).dropWhile (fun c => c == ' '))
    else none
  else if "Errors:".data.isPrefixOf s then some ((s.drop 7).dropWhile (fun c => c == ' '))
  else none

/-- Go `regexTerraformError.FindStringSubmatch(s)[1]`: the first submatch of the leftmost
match, if the expression matches at all. -/
def findTerraformErrorSubmatch : List Char → Option (List Char)
  | [] => none
  | c :: cs =>
    match terraformErrorAt (c :: cs) with
    | some submatch => some submatch
    | none => findTerraformErrorSubmatch cs

/-- The class `[0-9a-f]` under the flag `(?i)`. -/
def isHexDigit (c : Char) : Bool :=
  let n := c.toNat
  (48 ≤ n && n ≤ 57) || (97 ≤ n && n ≤ 102) || (65 ≤ n && n ≤ 70)

/-- Whether the text begins with exactly `n` characters of the class `[0-9a-f]`. -/
def hexRun (n : Nat) (s : List Char) : Bool :=
  (s.take n).length == n && (s.take n).all isHexDigit

/-- Whether the expression `(?i)[0-9a-f]{8}(?:-[0-9a-f]{4}){3}-[0-9a-f]{12}` matches at the
start of the text; a match is 36 characters long. -/
def uuidAt (s : List Char) : Bool :=
  hexRun 8 s && (s.drop 8).head? == some '-' && hexRun 4 (s.drop 9) &&
    (s.drop 13).head? == some '-' && hexRun 4 (s.drop 14) &&
    (s.drop 18).head? == some '-' && hexRun 4 (s.drop 19) &&
    (s.drop 23).head? == some '-' && hexRun 12 (s.drop 24)

/-- Go `regexUUID.ReplaceAllString(s, "<omitted>")`: the matches are replaced from left to
right; `skip` counts the characters of the current match still to be passed over. -/
def omitUUIDs (skip : Nat) : List Char → List Char
  | [] => []
  | c :: cs =>
    if skip > 0 then omitUUIDs (skip - 1) cs
    else if uuidAt (c :: cs) then "<omitted>".data ++ omitUUIDs 35 cs
    else c :: omitUUIDs 0 cs

/-- Go `regexMultiNewline.ReplaceAllString(s, "\n")` for the expression `\n{2,}`: every run
of line feeds becomes one line feed; `afterNewline` tells that the previous character was a
line feed. -/
def collapseNewlines (afterNewline : Bool) : List Char → List Char
  | [] => []
  | c :: cs =>
    if c = '\n' then
      if afterNewline then collapseNewlines true cs else '\n' :: collapseNewlines true cs
    else c :: collapseNewlines false cs

/-- findTerraformErrors gets the `output` of a Terraform run and parses it to find the
occurred errors (which will be returned).  If no errors occurred, an empty string will be
returned (`errors.go`, lines 76-124). -/
def findTerraformErrors (output : String) : String :=
  -- Strip optional explaination how Terraform behaves in case of errors.
  let errorMessage :=
    beforeFirst "\n\nTerraform does not automatically rollback".data output.data
  -- Search for errors in Terraform output.
  match findTerraformErrorSubmatch errorMessage with
  | some submatch =>
    let errorMessage := trimSpace (String.mk submatch)
    -- Omit (request) uuid's to allow easy determination of duplicates.
    let errorMessage := String.mk (omitUUIDs 0 errorMessage.data)
    -- Sort the occurred errors alphabetically
    let lines := sortStrings (split errorMessage '*')
    -- Only keep the lines beginning with ' ' (actual errors)
    let valid := lines.filter (fun line => hasPrefix line " ")
    let errorMessage := "*" ++ String.intercalate "\n*" valid
    -- Strip multiple newlines to one newline
    let errorMessage := String.mk (collapseNewlines false errorMessage.data)
    trimSpace errorMessage
  | none => ""

/-- The first loop of `retrieveTerraformErrors` (lines 31-39) over the entries of `logList`
in the order in which `range` visits them: `foundErrors` maps an error message to the pod
that reported it first. -/
def collectErrors (foundErrors : List (String × String)) :
    List (String × String) → List (String × String)
  | [] => foundErrors
  | (podName, output) :: rest =>
    let errorMessage := findTerraformErrors output
    if errorMessage ≠ "" ∧ errorMessage ∉ foundErrors.map Prod.fst then
      collectErrors (foundErrors ++ [(errorMessage, podName)]) rest
    else collectErrors foundErrors rest

/-- retrieveTerraformErrors gets a map `logList` whose keys are pod names and whose values are
the corresponding logs, and it parses the logs for Terraform errors.  If none are found, it
will return nil, and otherwhise the list of found errors as string slice (`errors.go`, lines
27-52).  The map `logList` is given by its entries in the order in which `range` visits
them, and `ranged` puts the entries of `foundErrors` in the order in which the second
`range` visits them. -/
def retrieveTerraformErrors (visited : List (String × String))
    (ranged : List (String × String) → List (String × String)) : Option (List String) :=
  let foundErrors := collectErrors [] visited
  let errorList := (ranged foundErrors).map
    (fun entry => "-> Pod '" ++ entry.2 ++ "' reported:\n" ++ entry.1)
  if errorList.length = 0 then none else some errorList

/-! ## State documents, `jq` and the shell

The state of the prior infrastructure is a JSON document in a file, which
`fetchAwsAttributes` reads through `bash`, `cat` and `jq`.  The documents of the two layouts,
the path filters of `jq` and the pipeline `cat <path> | jq -r <filter>` are modelled here,
as far as the statements about the two layouts need them. -/

/-- A JSON value.  The members of an object stand in the order of the text. -/
inductive Json where
  | null
  | bool (b : Bool)
  | num (n : Nat)
  | str (s : String)
  | arr (items : List Json)
  | obj (members : List (String × Json))

/-- The filter `.key` of `jq`: the member of an object (the last one, when the text repeats
the key), `null` when the object has no such member and on `null`; an error (`none`) on any
other value. -/
def Json.field (key : String) : Json → Option Json
  | Json.obj members => some ((members.reverse.lookup key).getD Json.null)
  | Json.null => some Json.null
  | _ => none

/-- The filter `.[]` of `jq` on an array: its items, in order.  On `null` and on scalars `jq`
ends with an error; the order of the values of an object is left open (`none` in both
cases). -/
def Json.iterate : Json → Option (List Json)
  | Json.arr items => some items
  | _ => none

/-- What `jq -r` prints for one output, without the line feed: a string as it is, `null`,
`true` and `false` by name.  The layout of numbers and of composite values is left open
(`none`). -/
def Json.raw : Json → Option String
  | Json.null => some "null"
  | Json.bool b => some (if b then "true" else "false")
  | Json.str s => some s
  | _ => none

/-- One step of a path filter of `jq`. -/
inductive JqStep where
  | field (key : String)
  | iterate
deriving DecidableEq, Repr

/-- The outputs of one step on one input. -/
def JqStep.apply : JqStep → Json → Option (List Json)
  | JqStep.field key, v => (v.field key).map (fun out => [out])
  | JqStep.iterate, v => v.iterate

/-- The outputs of one step on a sequence of inputs, in order. -/
def JqStep.applyAll (step : JqStep) : List Json → Option (List Json)
  | [] => some []
  | v :: vs =>
    match step.apply v, step.applyAll vs with
    | some outs, some more => some (outs ++ more)
    | _, _ => none

/-- The outputs of a path filter: every step is applied to every output of the steps before
it. -/
def jqPath : List JqStep → List Json → Option (List Json)
  | [], vs => some vs
  | step :: rest, vs =>
    match step.applyAll vs with
    | some outs => jqPath rest outs
    | none => none

/-- Whether the character may stand in the key of a `.key` filter. -/
def isKeyChar (c : Char) : Bool :=
  c.isAlphanum || c == '_'

/-- The steps of a path filter of `jq` written with `.key` and `[]`, such as `.a.b`, `.a[].b`
and `.[]`; `key` holds the characters of the key being read, if one is being read. -/
def parseJqPath (key : Option (List Char)) : List Char → Option (List JqStep)
  | [] =>
    match key with
    | none => some []
    | some [] => none
    | some k => some [JqStep.field (String.mk k)]
  | '[' :: ']' :: cs =>
    match key with
    | some (c :: k) =>
      (parseJqPath none cs).map
        (fun s => JqStep.field (String.mk (c :: k)) :: JqStep.iterate :: s)
    | _ => (parseJqPath none cs).map (fun s => JqStep.iterate :: s)
  | '.' :: cs =>
    match key with
    | some [] => none
    | some k => (parseJqPath (some []) cs).map (fun s => JqStep.field (String.mk k) :: s)
    | none => parseJqPath (some []) cs
  | c :: cs =>
    match key with
    | some k => if isKeyChar c then parseJqPath (some (k ++ [c])) cs else none
    | none => none

/-- The lines that `jq -r` prints for a sequence of outputs. -/
def rawLines : List Json → Option String
  | [] => some ""
  | v :: vs =>
    match v.raw, rawLines vs with
    | some line, some more => some (line ++ "\n" ++ more)
    | _, _ => none

/-- What `jq -r <filter>` prints for the document `doc`, for the path filters modelled;
`none` when the filter is no such path, when `jq` ends with an error, or when an output is a
value whose layout is left open. -/
def jqRaw (filter : String) (doc : Json) : Option String :=
  match parseJqPath none filter.data with
  | some steps =>
    match jqPath steps [doc] with
    | some outs => rawLines outs
    | none => none
  | none => none

/-- Whether the character is a letter, a digit or one of `-`, `.`, `/`, `_` (code points in
decimal): the characters of a file name that the shell reads as they are. -/
def isPathChar (c : Char) : Bool :=
  let n := c.toNat
  (48 ≤ n && n ≤ 57) || (65 ≤ n && n ≤ 90) || (97 ≤ n && n ≤ 122) ||
    n == 45 || n == 46 || n == 47 || n == 95

/-- What the script `cat <path> | jq -r <filter>` prints when `bash -c` runs it over the
files `files`: the words of the script are those six, the path is made of the characters of
`isPathChar`, and `jq` reads the document that the file holds.  Every other case is left
open (`none`). -/
def pipelineOutput (files : String → Option Json) (script : String) : Option String :=
  match fields script with
  | ["cat", path, "|", "jq", "-r", filter] =>
    if path.data.all isPathChar then
      match files path with
      | some doc => jqRaw filter doc
      | none => none
    else none
  | _ => none

/-- An output of a Terraform state as the state file holds it. -/
def outputObject (value : String) : Json :=
  Json.obj [("sensitive", Json.bool false), ("type", Json.str "string"),
    ("value", Json.str value)]

/-- The value that a list of outputs (name, value) gives to the output `name`: that of the
last entry of that name. -/
def outputValue (outputs : List (String × String)) (name : String) : Option String :=
  outputs.reverse.lookup name

/-- A state document in the flat layout (Terraform 0.12 and later): the outputs (name,
value) stand under `outputs`. -/
def flatState (terraformVersion : String) (outputs : List (String × String)) : Json :=
  Json.obj [("version", Json.num 4), ("terraform_version", Json.str terraformVersion),
    ("outputs", Json.obj (outputs.map (fun o => (o.1, outputObject o.2)))),
    ("resources", Json.arr [])]

/-- A module of a state document in the legacy layout: its path and its outputs (name,
value). -/
structure StateModule where
  path : List String
  outputs : List (String × String)

/-- A state document in the legacy nested-module layout (Terraform before 0.12): every
module of `modules` holds its own outputs under `outputs`. -/
def legacyState (terraformVersion : String) (modules : List StateModule) : Json :=
  Json.obj [("version", Json.num 3), ("terraform_version", Json.str terraformVersion),
    ("modules", Json.arr (modules.map (fun m =>
      Json.obj [("path", Json.arr (m.path.map Json.str)),
        ("outputs", Json.obj (m.outputs.map (fun o => (o.1, outputObject o.2)))),
        ("resources", Json.obj [])])))]

/-! ## Notions used in the statements -/

/-- Every call that the program issues satisfies `P`, whatever state it starts in and however
it ends. -/
def Emits {α : Type} (P : Event → Prop) (p : Prog σ α) : Prop :=
  ∀ st, ∃ new, (p st).state.trace = st.trace ++ new ∧ ∀ e ∈ new, P e

/-- In every world the script, run by `bash -c`, prints `text` and ends without error. -/
def Prints (env : Env σ) (script text : String) : Prop :=
  ∀ w, ∃ w1, env.output "bash" ["-c", script] w = ((text, none), w1)

/-- The environment runs the pipelines `cat <path> | jq -r <filter>` over the files `files`:
whenever `pipelineOutput` determines what a script prints, `bash -c` prints that and ends
without error. -/
def RunsPipelines (env : Env σ) (files : String → Option Json) : Prop :=
  ∀ script out, pipelineOutput files script = some out →
    ∀ w, ∃ w1, env.output "bash" ["-c", script] w = ((out, none), w1)

/-- Whether the user sets a field that `ValidateClientConfig` reports as unsupported: a client
certificate file, a client key file, a token file, an impersonated user or impersonation
groups. -/
def AuthInfo.unsupported (authInfo : AuthInfo) : Bool :=
  authInfo.ClientCertificate != "" || authInfo.ClientKey != "" || authInfo.TokenFile != "" ||
    authInfo.Impersonate != "" || !authInfo.ImpersonateGroups.isEmpty

/-- The world in which the readiness loop makes state query number `i` (counted from 0) for
the record `a`, when the queries before it, started in the world `w`, did not fail and did
not report `running`. -/
def pollWorld (env : Env σ) (a : AwsInstanceAttribute) : Nat → σ → σ
  | 0, w => w
  | i + 1, w => pollWorld env a i (env.sleep 2 (env.operate "aws" (stateQueryCmd a) w).2)

/-- The world in which `CheckIPPortReachable` makes attempt number `i` (counted from 0) when
the attempts before it, started in the world `w`, all failed. -/
def attemptWorld (env : Env σ) (dial : String → String → Nat → σ → Bool × σ)
    (ip port : String) : Nat → σ → σ
  | 0, w => w
  | i + 1, w =>
    attemptWorld env dial ip port i (env.sleep 10 (dial "tcp" (joinHostPort ip port) 10 w).2)

/-- The calls of one failed attempt of `CheckIPPortReachable`. -/
def retryEvents : List Event :=
  [Event.call "net.DialTimeout", Event.println "waiting for 10 seconds to retry",
    Event.sleep 10]

/-- The text holds an error marker: `Errors:`, or `Error ` with a colon somewhere after
it. -/
def HasErrorMarker (s : List Char) : Prop :=
  (∃ pre post, s = pre ++ "Errors:".data ++ post) ∨
    ∃ pre mid post, s = pre ++ "Error ".data ++ mid ++ ':' :: post

/-! ## Further concrete inputs -/

/-- The values of the four error codes in gardener's `v1beta1` API. -/
def gardenCodes : ErrorCodes :=
  { ErrorInfraUnauthorized := "ERR_INFRA_UNAUTHORIZED",
    ErrorInfraQuotaExceeded := "ERR_INFRA_QUOTA_EXCEEDED",
    ErrorInfraInsufficientPrivileges := "ERR_INFRA_INSUFFICIENT_PRIVILEGES",
    ErrorInfraDependencies := "ERR_INFRA_DEPENDENCIES" }

/-- A simulated network: an address answers when a running instance has it as public address
with port 22. -/
def simDial (_network address : String) (_timeout : Nat) (w : SimAws) : Bool × SimAws :=
  (w.instances.any (fun i => i.publicIP ++ ":22" == address && i.state == "running"), w)

/-- A user that authenticates through an exec plugin and sets no other field. -/
def execUser : AuthInfo :=
  { ClientCertificate := "", ClientKey := "", TokenFile := "", Impersonate := "",
    ImpersonateGroups := [], AuthProvider := none, Exec := some "aws-iam-authenticator" }

/-- A user that sets a client certificate file. -/
def certFileUser : AuthInfo :=
  { ClientCertificate := "/home/me/admin.crt", ClientKey := "", TokenFile := "",
    Impersonate := "", ImpersonateGroups := [], AuthProvider := none, Exec := none }

/-- The path that the simulated `getKubeConfigOfCurrentTarget` answers. -/
def simKubeConfigOfCurrentTarget (w : SimAws) : Except Abort String × SimAws :=
  (Except.ok "/home/me/.garden/cache/kubeconfig.yaml", w)

/-- The record of cluster `foo` once the bastion security group `sg-foo-bsg` is known. -/
def simGroupRecord : AwsInstanceAttribute :=
  { simRecord with BastionSecurityGroupID := "sg-foo-bsg" }

/-- Go `fmt.Sprintf(format)` called without operands, for verbs that follow the percent sign
directly (no flags, width or precision): `%%` prints a percent sign, a verb `c` finds no
operand and prints `%!c(MISSING)`, and a percent sign at the end of the format prints
`%!(NOVERB)`. -/
def sprintfNoOperands : List Char → List Char
  | [] => []
  | ['%'] => "%!(NOVERB)".data
  | '%' :: '%' :: cs => '%' :: sprintfNoOperands cs
  | '%' :: c :: cs => "%!".data ++ c :: "(MISSING)".data ++ sprintfNoOperands cs
  | c :: cs => c :: sprintfNoOperands cs

/-- The simulated environment with `fmt.Sprintf` as `sprintfNoOperands`. -/
def fmtEnv : Env SimAws :=
  { simEnv with sprintf := fun format => String.mk (sprintfNoOperands format.data) }

/-- The workflow for node `10.250.0.7` of cluster `foo` as the user `user`. -/
def simSessionOf (user : String) : Res SimAws Unit :=
  sshToAWSNode fmtEnv "10.250.0.7" "/tmp/tf.state" user [1, 2, 3] ⟨simWorld, []⟩

/-- The simulated environment over a set of files: the scripts that `pipelineOutput`
determines print what it says, every other script fails. -/
def fileEnv (files : String → Option Json) : Env SimAws :=
  { simEnv with
    output := fun _ args w =>
      match args with
      | ["-c", script] =>
        match pipelineOutput files script with
        | some out => ((out, none), w)
        | none => (("", some exitStatus), w)
      | _ => (("", some exitStatus), w) }

/-- The outputs of cluster `foo`. -/
def simOutputs : List (String × String) :=
  [("subnet_public_utility_z0", "subnet-1"), ("vpc_id", "vpc-1")]

/-- Three state files of cluster `foo` that carry the same outputs: one in the flat layout,
one in the legacy layout with the root module only, and one in the legacy layout with the
root module and a child module without outputs. -/
def simFiles (path : String) : Option Json :=
  if path = "/tmp/tf.state" then some (flatState "0.12.20" simOutputs)
  else if path = "/tmp/tf11.state" then some (legacyState "0.11.14" [⟨["root"], simOutputs⟩])
  else if path = "/tmp/tf11-modules.state" then
    some (legacyState "0.11.14" [⟨["root"], simOutputs⟩, ⟨["root", "network"], []⟩])
  else none

/-- An environment whose provider finds no bastion, answers the launch with `i-0123`, reports
that instance as `running` at once and gives its details as the three tokens `10.0.1.5`,
`203.0.113.9`, `i-0123`. -/
def runningEnv : Env SimAws :=
  { simEnv with
    operate := fun _ arguments w =>
      (Except.ok
        (if hasPrefix arguments "aws ec2 describe-instances --instance-id=" then "running\n"
          else if hasPrefix arguments "aws ec2 describe-instances --instance-id " then
            "10.0.1.5 203.0.113.9 i-0123"
          else if hasPrefix arguments "aws ec2 run-instances" then "i-0123" else "", none),
        w) }

/-- The simulated environment in which `operate` ends the process with status 2, as `ExecCmd`
does on a failed command, at every provider call whose command begins with `pre`. -/
def abortingEnv (pre : String) : Env SimAws :=
  { simEnv with
    operate := fun provider arguments w =>
      if hasPrefix arguments pre then (Except.error (Abort.exit 2), w)
      else simEnv.operate provider arguments w }

/-- The trace of the simulated workflow for node `10.250.0.7` when `fetchAwsAttributes` has
returned. -/
def simFetchedTrace : List Event :=
  [Event.println "", Event.println "(1/4) Fetching data from target shoot cluster",
    Event.call "getShootClusterName", Event.call "getTargetType",
    Event.call "clientToTarget", Event.call "Nodes().List",
    Event.command "bash" ["-c", "cat /tmp/tf.state  | jq -r .terraform_version"],
    Event.command "bash"
      ["-c", "cat /tmp/tf.state | jq -r .outputs.subnet_public_utility_z0.value"],
    Event.command "bash" ["-c", "cat /tmp/tf.state | jq -r .outputs.vpc_id.value"],
    Event.operate "aws" (describeSecurityGroupsCmd "vpc-1" "foo-nodes"),
    Event.operate "aws" (describeImageCmd "10.250.0.7"),
    Event.call "getBastionUserData"]

/-- The log of a Terraform pod whose run failed on a quota. -/
def simFailedLog : String :=
  "aws_instance.b: Creating...\nError: Error applying plan:\n\n2 error(s) occurred:\n\n" ++
    "* aws_instance.b: Error launching: LimitExceeded\n\trequest id: " ++
    "0a1b2c3d-0000-1111-2222-333344445555\n\n\n* aws_instance.a: AccessDenied\n\n" ++
    "Terraform does not automatically rollback in the face of errors.\n"

/-- The logs of three pods: two failed runs that differ in the request identifier only, and
a run without errors. -/
def simLogs : List (String × String) :=
  [("tf-pod-1", simFailedLog),
    ("tf-pod-2", "Error applying plan:\n\n2 error(s) occurred:\n\n" ++
      "* aws_instance.b: Error launching: LimitExceeded\n\trequest id: " ++
      "99999999-AAAA-bbbb-cccc-333344445555\n* aws_instance.a: AccessDenied\n"),
    ("tf-pod-3", "Apply complete! Resources: 2 added, 0 changed, 0 destroyed.\n")]

/-! ## Running programs: unfolding lemmas -/

section Lemmas

variable {α β : Type}

@[simp] theorem next_ok (a : α) (st : St σ) (f : α → St σ → Res σ β) :
    (Res.ok a st).next f = f a st := rfl

@[simp] theorem next_abort (w : Abort) (st : St σ) (f : α → St σ → Res σ β) :
    (Res.abort w st : Res σ α).next f = Res.abort w st := rfl

@[simp] theorem bind_apply (m : Prog σ α) (f : α → Prog σ β) (st : St σ) :
    (m >>= f) st = (m st).next f := rfl

@[simp] theorem pure_apply (a : α) (st : St σ) : (pure a : Prog σ α) st = Res.ok a st := rfl

@[simp] theorem ite_prog_apply (c : Prop) [Decidable c] (m n : Prog σ α) (st : St σ) :
    (if c then m else n) st = if c then m st else n st := by
  split <;> rfl

@[simp] theorem emit_apply (e : Event) (st : St σ) :
    emit e st = Res.ok () ⟨st.world, st.trace ++ [e]⟩ := rfl

@[simp] theorem println_apply (line : String) (st : St σ) :
    println line st = Res.ok () ⟨st.world, st.trace ++ [Event.println line]⟩ := rfl

@[simp] theorem abortWith_apply (w : Abort) (st : St σ) :
    (abortWith w : Prog σ α) st = Res.abort w st := rfl

@[simp] theorem osExit_apply (code : Nat) (st : St σ) :
    (osExit code : Prog σ α) st = Res.abort (Abort.exit code) st := rfl

@[simp] theorem libCall_apply (e : Event) (f : σ → α × σ) (st : St σ) :
    libCall e f st = Res.ok (f st.world).1 ⟨(f st.world).2, st.trace ++ [e]⟩ := rfl

@[simp] theorem sleep_apply (env : Env σ) (n : Nat) (st : St σ) :
    sleep env n st = Res.ok () ⟨env.sleep n st.world, st.trace ++ [Event.sleep n]⟩ := rfl

theorem helperCall_ok (e : Event) (f : σ → Except Abort α × σ) (st : St σ) (a : α)
    (h : (f st.world).1 = Except.ok a) :
    helperCall e f st = Res.ok a ⟨(f st.world).2, st.trace ++ [e]⟩ := by
  simp [helperCall, h]

theorem helperCall_error (e : Event) (f : σ → Except Abort α × σ) (st : St σ) (w : Abort)
    (h : (f st.world).1 = Except.error w) :
    helperCall e f st = Res.abort w ⟨(f st.world).2, st.trace ++ [e]⟩ := by
  simp [helperCall, h]

@[simp] theorem checkError_none (env : Env σ) (st : St σ) :
    checkError env none st = Res.ok () st := rfl

theorem checkError_some (env : Env σ) (e : GoError) (st : St σ) :
    ∃ st1, checkError env (some e) st = Res.abort (Abort.exit 1) st1 ∧
      ∃ logs, st1.trace = st.trace ++ logs ∧ st1.world = st.world ∧
        ∀ ev ∈ logs, (∃ l, ev = Event.logPrintln l) ∨ ∃ d, ev = Event.logFatalf e d := by
  cases hs : e.stderr with
  | none =>
    exact ⟨_, by simp [checkError, hs]; rfl, [Event.logFatalf e env.debugSwitch], by simp,
      by simp, by simp⟩
  | some text =>
    exact ⟨_, by simp [checkError, hs]; rfl,
      [Event.logPrintln text, Event.logFatalf e env.debugSwitch], by simp, by simp, by simp⟩


theorem next_eq_ok (r : Res σ α) (f : α → St σ → Res σ β) (b : β) (st2 : St σ) :
    r.next f = Res.ok b st2 ↔ ∃ a st1, r = Res.ok a st1 ∧ f a st1 = Res.ok b st2 := by
  cases r with
  | ok a st =>
    constructor
    · intro h
      exact ⟨a, st, rfl, h⟩
    · rintro ⟨a1, st1, h1, h⟩
      cases h1
      exact h
  | abort w st => simp [Res.next]

theorem helperCall_eq_ok (e : Event) (f : σ → Except Abort α × σ) (st st1 : St σ) (a : α) :
    helperCall e f st = Res.ok a st1 ↔
      (f st.world).1 = Except.ok a ∧ st1 = ⟨(f st.world).2, st.trace ++ [e]⟩ := by
  unfold helperCall
  cases h : (f st.world).1 <;> simp [h, eq_comm]

theorem checkError_eq_ok (env : Env σ) (err : Option GoError) (st st1 : St σ) (u : Unit) :
    checkError env err st = Res.ok u st1 ↔ err = none ∧ st1 = st := by
  cases err with
  | none => simp [eq_comm]
  | some e =>
    obtain ⟨st2, h, _⟩ := checkError_some env e st
    simp [h]

theorem operate_ok (env : Env σ) (provider arguments : String) (st : St σ)
    (r : String × Option GoError) (w1 : σ)
    (h : env.operate provider arguments st.world = (Except.ok r, w1)) :
    operate env provider arguments st =
      Res.ok r ⟨w1, st.trace ++ [Event.operate provider arguments]⟩ := by
  simp [operate, helperCall, h]

theorem operate_error (env : Env σ) (provider arguments : String) (st : St σ)
    (why : Abort) (w1 : σ)
    (h : env.operate provider arguments st.world = (Except.error why, w1)) :
    operate env provider arguments st =
      Res.abort why ⟨w1, st.trace ++ [Event.operate provider arguments]⟩ := by
  simp [operate, helperCall, h]

/-- A record returned by `getSecurityGroupID` differs from the one passed in
`SecurityGroupID` only. -/
theorem getSecurityGroupID_eq_ok (env : Env σ) (a a1 : AwsInstanceAttribute) (st st1 : St σ)
    (h : getSecurityGroupID env a st = Res.ok a1 st1) :
    ∃ out, a1 = { a with SecurityGroupID := out } := by
  simp only [getSecurityGroupID, bind_apply, next_eq_ok, checkError_eq_ok, pure_apply,
    Res.ok.injEq] at h
  obtain ⟨r, st2, -, u, st3, -, h, -⟩ := h
  exact ⟨r.1, h.symm⟩

/-- The names a returning `fetchAwsAttributes` leaves in the record. -/
theorem fetchAwsAttributes_eq_ok (env : Env σ) (a a1 : AwsInstanceAttribute)
    (nodeIP path : String) (st st1 : St σ)
    (h : fetchAwsAttributes env a nodeIP path st = Res.ok a1 st1) :
    ∃ s, (env.getShootClusterName st.world).1 = Except.ok s ∧ a1.ShootName = s ∧
      a1.BastionSecurityGroupName = s ++ "-bsg" ∧ a1.BastionInstanceName = s ++ "-bastions" := by
  simp only [fetchAwsAttributes, bind_apply, next_eq_ok, helperCall_eq_ok, checkError_eq_ok,
    ite_prog_apply, pure_apply, osExit_apply] at h
  obtain ⟨s, st2, ⟨hs, -⟩, id, st3, -, tv, st4, -, u, st5, -, h⟩ := h
  refine ⟨s, hs, ?_⟩
  split at h
  · simp [next_eq_ok] at h
  split at h
  · simp [next_eq_ok] at h
  split at h <;>
  · simp only [bind_apply, next_eq_ok, helperCall_eq_ok, checkError_eq_ok, pure_apply,
      Res.ok.injEq] at h
    obtain ⟨sub, st6, -, u1, st7, -, vpc, st8, -, u2, st9, -, y, st10, ⟨hy, -⟩, a2, st11, hsg,
      img, st12, -, u3, st13, -, ud, st14, -, h, -⟩ := h
    obtain ⟨out, hout⟩ := getSecurityGroupID_eq_ok env _ _ _ _ hsg
    subst hy h hout
    exact ⟨rfl, rfl, rfl⟩

/-- The loop of lines 263-269 picks the first qualifying word, or nothing. -/
theorem selectIP_first (env : Env σ) (words : List String) :
    (∃ pre post, words = pre ++ selectIP env words :: post ∧
        (∀ t ∈ pre, (env.isIP t && !hasPrefix t "10.") = false) ∧
        env.isIP (selectIP env words) = true ∧ hasPrefix (selectIP env words) "10." = false) ∨
      (selectIP env words = "" ∧
        ∀ t ∈ words, (env.isIP t && !hasPrefix t "10.") = false) := by
  induction words with
  | nil => right; simp [selectIP]
  | cons w ws ih =>
    by_cases hw : (env.isIP w && !hasPrefix w "10.") = true
    · left
      refine ⟨[], ws, ?_, by simp, ?_, ?_⟩
      · simp [selectIP, hw]
      · simp only [selectIP, hw, if_true]
        simp only [Bool.and_eq_true, Bool.not_eq_true', Bool.not_eq_eq_eq_not] at hw
        exact hw.1
      · simp only [selectIP, hw, if_true]
        simp only [Bool.and_eq_true, Bool.not_eq_true', Bool.not_eq_eq_eq_not] at hw
        simpa using hw.2
    · have hw1 : (env.isIP w && !hasPrefix w "10.") = false := by simpa using hw
      have hsel : selectIP env (w :: ws) = selectIP env ws := by simp [selectIP, hw1]
      rw [hsel]
      rcases ih with ⟨pre, post, h1, h2, h3, h4⟩ | ⟨h1, h2⟩
      · left
        refine ⟨w :: pre, post, by rw [List.cons_append, ← h1], ?_, h3, h4⟩
        intro t ht
        rcases List.mem_cons.mp ht with rfl | ht
        · exact hw1
        · exact h2 t ht
      · right
        refine ⟨h1, ?_⟩
        intro t ht
        rcases List.mem_cons.mp ht with rfl | ht
        · exact hw1
        · exact h2 t ht

/-- One turn of the readiness loop in which the state query reports `running`. -/
theorem readinessLoop_running (env : Env σ) (a : AwsInstanceAttribute) (attemptCnt : Nat)
    (st : St σ) (state details : String) (w1 w2 : σ) (hcnt : attemptCnt < 60)
    (hstate : env.operate "aws" (stateQueryCmd a) st.world = (Except.ok (state, none), w1))
    (hrun : trim state "\n" = "running")
    (hdetail : env.operate "aws" (detailQueryCmd a) w1 = (Except.ok (details, none), w2)) :
    readinessLoop env a attemptCnt st =
      Res.ok (LoopExit.returned { a with BastionIP := selectIP env (fields details) })
        ⟨w2, st.trace ++ [Event.operate "aws" (stateQueryCmd a),
          Event.println ("Instance State: " ++ state),
          Event.operate "aws" (detailQueryCmd a)]⟩ := by
  rw [readinessLoop]
  simp [hcnt, hrun, operate_ok env "aws" _ _ _ _ hstate,
    operate_ok env "aws" (detailQueryCmd a) ⟨w1, _⟩ _ _ hdetail]

/-- The readiness loop against a provider that answers every state query without error and
never with `running`: every turn issues the query and sleeps, until the counter is 60. -/
theorem readinessLoop_never_running (env : Env σ) (a : AwsInstanceAttribute)
    (hquery : ∀ w, ∃ out w1,
      env.operate "aws" (stateQueryCmd a) w = (Except.ok (out, none), w1) ∧
        trim out "\n" ≠ "running")
    (k : Nat) : ∀ (attemptCnt : Nat) (st : St σ), attemptCnt + k = 60 →
      ∃ st1, readinessLoop env a attemptCnt st = Res.ok (LoopExit.done 60) st1 ∧
        ∃ new, st1.trace = st.trace ++ new ∧
          new.filter (fun e => !e.isPrintln) =
            (List.replicate k [Event.operate "aws" (stateQueryCmd a), Event.sleep 2]).flatten := by
  induction k with
  | zero =>
    intro attemptCnt st h
    have h60 : attemptCnt = 60 := by omega
    subst h60
    refine ⟨st, ?_, [], by simp, by simp⟩
    rw [readinessLoop]
    simp
  | succ k ih =>
    intro attemptCnt st h
    have hlt : attemptCnt < 60 := by omega
    obtain ⟨out, w1, hop, hne⟩ := hquery st.world
    obtain ⟨st1, hloop, new, htrace, hnew⟩ := ih (attemptCnt + 1)
      ⟨env.sleep 2 w1, st.trace ++ [Event.operate "aws" (stateQueryCmd a),
        Event.println ("Instance State: " ++ out), Event.sleep 2]⟩ (by omega)
    refine ⟨st1, ?_, [Event.operate "aws" (stateQueryCmd a),
      Event.println ("Instance State: " ++ out), Event.sleep 2] ++ new, ?_, ?_⟩
    · rw [readinessLoop]
      simp [hlt, hne, operate_ok env "aws" _ _ _ _ hop, hloop]
    · simp [htrace]
    · rw [List.filter_append, hnew, List.replicate_succ, List.flatten_cons]
      rfl

/-- The readiness loop and its form by turns left are the same program. -/
theorem readinessLoop_eq_turns_from (env : Env σ) (a : AwsInstanceAttribute) (turns : Nat) :
    ∀ attemptCnt, attemptCnt + turns = 60 →
      readinessLoop env a attemptCnt = readinessLoopTurns env a turns attemptCnt := by
  induction turns with
  | zero =>
    intro attemptCnt h
    have h60 : ¬ attemptCnt < 60 := by omega
    rw [readinessLoop, readinessLoopTurns]
    simp [h60]
  | succ turns ih =>
    intro attemptCnt h
    have hlt : attemptCnt < 60 := by omega
    rw [readinessLoop, readinessLoopTurns, if_pos hlt, ih (attemptCnt + 1) (by omega)]

theorem readinessLoop_eq_turns (env : Env σ) (a : AwsInstanceAttribute) :
    readinessLoop env a 0 = readinessLoopTurns env a 60 0 :=
  readinessLoop_eq_turns_from env a 60 0 rfl

/-- The trace a program ended with, read off as new events. -/
theorem newEvents_eq (st : St σ) (r : Res σ α) (new : List Event)
    (h : r.state.trace = st.trace ++ new) : newEvents st r = new := by
  simp [newEvents, h]

/-- A command that begins with the text `lit` begins with `pre` when `lit` does, for `pre`
no longer than `lit`. -/
theorem issues_append (pre lit rest provider : String) (hlen : pre.length ≤ lit.length) :
    (Event.operate provider (lit ++ rest)).issues pre = pre.data.isPrefixOf lit.data := by
  have hl : pre.data.length ≤ lit.data.length := hlen
  have key : ∀ (p l r : List Char), p.length ≤ l.length →
      p.isPrefixOf (l ++ r) = p.isPrefixOf l := by
    intro p
    induction p with
    | nil => intro l r _; simp
    | cons c p ih =>
      intro l r h
      cases l with
      | nil => simp at h
      | cons d l =>
        simp only [List.cons_append, List.isPrefixOf_cons₂]
        rw [ih l r (by simpa using h)]
  simp only [Event.issues, String.data_append]
  exact key _ _ _ hl

/-- The discovery of the bastion security group is neither a creation nor an
authorization. -/
theorem describeSecurityGroups_issues (vpc name provider : String) :
    (Event.operate provider (describeSecurityGroupsCmd vpc name)).issues
        "aws ec2 create-security-group" = false ∧
      (Event.operate provider (describeSecurityGroupsCmd vpc name)).issues
        "aws ec2 authorize-security-group-ingress" = false := by
  simp only [describeSecurityGroupsCmd, String.append_assoc]
  rw [issues_append _ _ _ _ (by decide), issues_append _ _ _ _ (by decide)]
  exact ⟨by decide, by decide⟩

/-- The discovery of the bastion instance is not a launch. -/
theorem describeBastion_issues (a : AwsInstanceAttribute) (provider : String) :
    (Event.operate provider (describeBastionCmd a)).issues "aws ec2 run-instances" = false := by
  simp only [describeBastionCmd, String.append_assoc]
  rw [issues_append _ _ _ _ (by decide)]
  decide

/-- `createBastionHostSecurityGroup` when discovery finds a group. -/
theorem createBastionHostSecurityGroup_found (env : Env σ) (a : AwsInstanceAttribute)
    (st : St σ) (out : String) (w1 : σ)
    (hd : env.operate "aws" (describeSecurityGroupsCmd a.VpcID a.BastionSecurityGroupName)
      st.world = (Except.ok (out, none), w1))
    (hne : out ≠ "") :
    createBastionHostSecurityGroup env a st =
      Res.ok { a with BastionSecurityGroupID := out }
        ⟨w1, st.trace ++
          [Event.operate "aws" (describeSecurityGroupsCmd a.VpcID a.BastionSecurityGroupName),
            Event.println "Security Group exists, skipping creation."]⟩ := by
  simp [createBastionHostSecurityGroup, getBastionSecurityGroupID,
    operate_ok env "aws" _ _ _ _ hd, hne]

/-- Unless discovery answers the empty string without error, `createBastionHostSecurityGroup`
issues neither a creation nor an authorization. -/
theorem createBastionHostSecurityGroup_no_creation (env : Env σ) (a : AwsInstanceAttribute)
    (st : St σ)
    (hd : (env.operate "aws" (describeSecurityGroupsCmd a.VpcID a.BastionSecurityGroupName)
      st.world).1 ≠ Except.ok ("", none)) :
    ∀ e ∈ newEvents st (createBastionHostSecurityGroup env a st),
      e.issues "aws ec2 create-security-group" = false ∧
        e.issues "aws ec2 authorize-security-group-ingress" = false := by
  have hcmd := describeSecurityGroups_issues a.VpcID a.BastionSecurityGroupName "aws"
  rcases hop : env.operate "aws" (describeSecurityGroupsCmd a.VpcID a.BastionSecurityGroupName)
    st.world with ⟨x, w1⟩
  rw [hop] at hd
  cases x with
  | error why =>
    have hrun : createBastionHostSecurityGroup env a st = Res.abort why
        ⟨w1, st.trace ++ [Event.operate "aws"
          (describeSecurityGroupsCmd a.VpcID a.BastionSecurityGroupName)]⟩ := by
      simp [createBastionHostSecurityGroup, getBastionSecurityGroupID,
        operate_error env "aws" _ _ _ _ hop]
    rw [newEvents_eq st _ _ (by rw [hrun]; rfl)]
    intro e he
    rw [List.mem_singleton] at he
    subst he
    exact hcmd
  | ok r =>
    obtain ⟨out, err⟩ := r
    cases err with
    | some e0 =>
      obtain ⟨st2, hce, logs, htr, -, hlogs⟩ := checkError_some env e0
        ⟨w1, st.trace ++ [Event.operate "aws"
          (describeSecurityGroupsCmd a.VpcID a.BastionSecurityGroupName)]⟩
      have hrun : createBastionHostSecurityGroup env a st = Res.abort (Abort.exit 1) st2 := by
        simp [createBastionHostSecurityGroup, getBastionSecurityGroupID,
          operate_ok env "aws" _ _ _ _ hop, hce]
      rw [newEvents_eq st _ (Event.operate "aws"
        (describeSecurityGroupsCmd a.VpcID a.BastionSecurityGroupName) :: logs)
        (by rw [hrun]; simp [Res.state, htr])]
      intro e he
      rcases List.mem_cons.mp he with rfl | he
      · exact hcmd
      · rcases hlogs e he with ⟨l, rfl⟩ | ⟨d, rfl⟩ <;> exact ⟨rfl, rfl⟩
    | none =>
      have hne : out ≠ "" := by
        intro h
        subst h
        exact hd rfl
      rw [newEvents_eq st _ _ (by
        rw [createBastionHostSecurityGroup_found env a st out w1 hop hne]; rfl)]
      intro e he
      rcases List.mem_cons.mp he with rfl | he
      · exact hcmd
      · rw [List.mem_singleton] at he
        subst he
        exact ⟨rfl, rfl⟩

/-- `createBastionHostSecurityGroup` when discovery misses and the group is created: the
calls up to the authorization on the node group are issued, whatever that one answers. -/
theorem createBastionHostSecurityGroup_created (env : Env σ) (a : AwsInstanceAttribute)
    (st : St σ) (out2 : String) (r3 : String × Option GoError) (w1 w2 w3 : σ)
    (hd : env.operate "aws" (describeSecurityGroupsCmd a.VpcID a.BastionSecurityGroupName)
      st.world = (Except.ok ("", none), w1))
    (hc : env.operate "aws" (createSecurityGroupCmd a) w1 = (Except.ok (out2, none), w2))
    (ha : env.operate "aws" (authorizeIngress (trim out2 "\n")) w2 = (Except.ok r3, w3)) :
    ∃ new, (createBastionHostSecurityGroup env a st).state.trace = st.trace ++
      ([Event.operate "aws" (describeSecurityGroupsCmd a.VpcID a.BastionSecurityGroupName),
        Event.operate "aws" (createSecurityGroupCmd a),
        Event.operate "aws" (authorizeIngress (trim out2 "\n")),
        Event.println "Bastion host security group set up.",
        Event.operate "aws" (authorizeIngress a.SecurityGroupID)] ++ new) := by
  have hc1 : env.operate "aws"
      (createSecurityGroupCmd { a with BastionSecurityGroupID := "" }) w1 =
      (Except.ok (out2, none), w2) := hc
  have hpre : ∀ k : St σ → Res σ AwsInstanceAttribute,
      (∀ st2, ∃ new, (k st2).state.trace = st2.trace ++ new) →
      ∃ new, ((operate env "aws" (authorizeIngress a.SecurityGroupID)
        ⟨w3, st.trace ++
          [Event.operate "aws" (describeSecurityGroupsCmd a.VpcID a.BastionSecurityGroupName),
            Event.operate "aws" (createSecurityGroupCmd a),
            Event.operate "aws" (authorizeIngress (trim out2 "\n")),
            Event.println "Bastion host security group set up."]⟩).next
          (fun r st2 => (checkError env r.2 st2).next (fun _ st3 => k st3))).state.trace =
        st.trace ++
        ([Event.operate "aws" (describeSecurityGroupsCmd a.VpcID a.BastionSecurityGroupName),
          Event.operate "aws" (createSecurityGroupCmd a),
          Event.operate "aws" (authorizeIngress (trim out2 "\n")),
          Event.println "Bastion host security group set up.",
          Event.operate "aws" (authorizeIngress a.SecurityGroupID)] ++ new) := by
    intro k hk
    rcases hop : env.operate "aws" (authorizeIngress a.SecurityGroupID) w3 with ⟨x, w4⟩
    cases x with
    | error why =>
      refine ⟨[], ?_⟩
      rw [operate_error env "aws" _ ⟨w3, _⟩ _ _ hop]
      simp [Res.state]
    | ok r =>
      rw [operate_ok env "aws" _ ⟨w3, _⟩ _ _ hop]
      obtain ⟨out4, err⟩ := r
      cases err with
      | some e0 =>
        obtain ⟨st2, hce, logs, htr, -, -⟩ := checkError_some env e0
          ⟨w4, st.trace ++
            [Event.operate "aws" (describeSecurityGroupsCmd a.VpcID a.BastionSecurityGroupName),
              Event.operate "aws" (createSecurityGroupCmd a),
              Event.operate "aws" (authorizeIngress (trim out2 "\n")),
              Event.println "Bastion host security group set up."] ++
            [Event.operate "aws" (authorizeIngress a.SecurityGroupID)]⟩
        refine ⟨logs, ?_⟩
        simp only [next_ok, hce, next_abort, Res.state, htr]
        simp
      | none =>
        obtain ⟨new, hnew⟩ := hk ⟨w4, st.trace ++
            [Event.operate "aws" (describeSecurityGroupsCmd a.VpcID a.BastionSecurityGroupName),
              Event.operate "aws" (createSecurityGroupCmd a),
              Event.operate "aws" (authorizeIngress (trim out2 "\n")),
              Event.println "Bastion host security group set up."] ++
            [Event.operate "aws" (authorizeIngress a.SecurityGroupID)]⟩
        refine ⟨new, ?_⟩
        simp only [next_ok, checkError_none, hnew]
        simp
  obtain ⟨new, hnew⟩ := hpre
    (fun st3 => Res.ok { a with BastionSecurityGroupID := trim out2 "\n" }
      ⟨st3.world, st3.trace ++ [Event.println "Opend SSH Port on Node."]⟩)
    (fun st2 => ⟨[Event.println "Opend SSH Port on Node."], rfl⟩)
  refine ⟨new, ?_⟩
  rw [← hnew]
  simp only [createBastionHostSecurityGroup, getBastionSecurityGroupID, bind_apply,
    operate_ok env "aws" _ _ _ _ hd, operate_ok env "aws" _ ⟨w1, _⟩ _ _ hc1,
    operate_ok env "aws" _ ⟨w2, _⟩ _ _ ha, next_ok, checkError_none, pure_apply,
    ite_prog_apply, println_apply, ne_eq, not_true_eq_false, if_false, List.append_assoc,
    List.singleton_append, List.cons_append, List.nil_append]
  rfl

/-- `createBastionHostInstance` when discovery finds an instance. -/
theorem createBastionHostInstance_found (env : Env σ) (a : AwsInstanceAttribute)
    (st : St σ) (out : String) (w1 : σ)
    (hd : env.operate "aws" (describeBastionCmd a) st.world = (Except.ok (out, none), w1))
    (hne : out ≠ "") :
    createBastionHostInstance env a st =
      Res.ok { a with BastionInstanceID := out }
        ⟨w1, st.trace ++ [Event.operate "aws" (describeBastionCmd a),
          Event.println "Bastion Host exists, skipping creation."]⟩ := by
  simp [createBastionHostInstance, getBastionHostInstance, operate_ok env "aws" _ _ _ _ hd, hne]

/-- `createBastionHostInstance` when discovery answers a non-empty text, with or without an
error: no launch and no temporary file. -/
theorem createBastionHostInstance_no_launch (env : Env σ) (a : AwsInstanceAttribute)
    (st : St σ) (out : String) (err : Option GoError) (w1 : σ)
    (hd : env.operate "aws" (describeBastionCmd a) st.world = (Except.ok (out, err), w1))
    (hne : out ≠ "") :
    ∀ e ∈ newEvents st (createBastionHostInstance env a st),
      e.issues "aws ec2 run-instances" = false ∧ e.isTempFile = false := by
  have hcmd := describeBastion_issues a "aws"
  cases err with
  | some e0 =>
    obtain ⟨st2, hce, logs, htr, -, hlogs⟩ := checkError_some env e0
      ⟨w1, st.trace ++ [Event.operate "aws" (describeBastionCmd a)]⟩
    have hrun : createBastionHostInstance env a st = Res.abort (Abort.exit 1) st2 := by
      simp [createBastionHostInstance, getBastionHostInstance,
        operate_ok env "aws" _ _ _ _ hd, hce]
    rw [newEvents_eq st _ (Event.operate "aws" (describeBastionCmd a) :: logs)
      (by rw [hrun]; simp [Res.state, htr])]
    intro e he
    rcases List.mem_cons.mp he with rfl | he
    · exact ⟨hcmd, rfl⟩
    · rcases hlogs e he with ⟨l, rfl⟩ | ⟨d, rfl⟩ <;> exact ⟨rfl, rfl⟩
  | none =>
    rw [newEvents_eq st _ _ (by rw [createBastionHostInstance_found env a st out w1 hd hne]; rfl)]
    intro e he
    rcases List.mem_cons.mp he with rfl | he
    · exact ⟨hcmd, rfl⟩
    · rw [List.mem_singleton] at he
      subst he
      exact ⟨rfl, rfl⟩

/-- `createBastionHostInstance` when discovery misses and the launch succeeds: the readiness
loop runs on the record with the launched identifier, and the deferred removal follows a
return. -/
theorem createBastionHostInstance_miss (env : Env σ) (a : AwsInstanceAttribute)
    (st : St σ) (tmp out : String) (w1 w2 w3 w4 : σ)
    (hd : env.operate "aws" (describeBastionCmd a) st.world = (Except.ok ("", none), w1))
    (ht : env.tempFile (env.tempDir w1) "gardener-user.sh" w1 = ((tmp, none), w2))
    (hw : env.write tmp a.UserData w2 = (none, w3))
    (hr : env.operate "aws" (runInstancesCmd a tmp) w3 = (Except.ok (out, none), w4)) :
    createBastionHostInstance env a st =
      ((readinessLoop env (assignInstanceID { a with BastionInstanceID := "" } (fields out)) 0
          ⟨w4, st.trace ++ [Event.operate "aws" (describeBastionCmd a),
            Event.call "os.TempDir", Event.tempFile (env.tempDir w1) "gardener-user.sh",
            Event.write tmp a.UserData, Event.operate "aws" (runInstancesCmd a tmp),
            Event.println "Bastion host instance created.", Event.println ""]⟩).next
        (fun exit st2 =>
          match exit with
          | LoopExit.returned a1 => Res.ok a1 st2
          | LoopExit.done attemptCnt =>
            if attemptCnt = 90 then
              Res.abort (Abort.exit 2)
                ⟨st2.world, st2.trace ++
                  [Event.println "Bastion server instance timeout. Please try again."]⟩
            else
              Res.ok (assignInstanceID { a with BastionInstanceID := "" } (fields out)) st2)).next
        (fun a1 st3 =>
          Res.ok a1 ⟨env.remove tmp st3.world, st3.trace ++ [Event.remove tmp]⟩) := by
  have hr1 : env.operate "aws" (runInstancesCmd { a with BastionInstanceID := "" } tmp) w3 =
      (Except.ok (out, none), w4) := hr
  simp only [createBastionHostInstance, createBastionHostInstanceBody, getBastionHostInstance,
    bind_apply, operate_ok env "aws" _ _ _ _ hd, next_ok, checkError_none, pure_apply,
    ite_prog_apply, ne_eq, not_true_eq_false, if_false, libCall_apply, ht, hw,
    operate_ok env "aws" _ ⟨w3, _⟩ _ _ hr1, println_apply, List.append_assoc,
    List.singleton_append, List.cons_append, List.nil_append]
  congr 1
  congr 1
  funext exit st2
  cases exit with
  | returned a1 => rfl
  | done attemptCnt =>
    by_cases h90 : attemptCnt = 90
    · simp [h90]
    · simp [h90]

/-- Against a provider that never reports `running` and never fails, a
`createBastionHostInstance` that launches returns to its caller once the loop is left. -/
theorem createBastionHostInstance_never_running (env : Env σ) (a : AwsInstanceAttribute)
    (st : St σ) (tmp out : String) (w1 w2 w3 w4 : σ)
    (hd : env.operate "aws" (describeBastionCmd a) st.world = (Except.ok ("", none), w1))
    (ht : env.tempFile (env.tempDir w1) "gardener-user.sh" w1 = ((tmp, none), w2))
    (hw : env.write tmp a.UserData w2 = (none, w3))
    (hr : env.operate "aws" (runInstancesCmd a tmp) w3 = (Except.ok (out, none), w4))
    (hquery : ∀ w, ∃ o w5,
      env.operate "aws"
          (stateQueryCmd (assignInstanceID { a with BastionInstanceID := "" } (fields out))) w =
        (Except.ok (o, none), w5) ∧ trim o "\n" ≠ "running") :
    ∃ st1, createBastionHostInstance env a st =
      Res.ok (assignInstanceID { a with BastionInstanceID := "" } (fields out)) st1 := by
  obtain ⟨st1, hloop, -⟩ := readinessLoop_never_running env _ hquery 60 0
    ⟨w4, st.trace ++ [Event.operate "aws" (describeBastionCmd a),
      Event.call "os.TempDir", Event.tempFile (env.tempDir w1) "gardener-user.sh",
      Event.write tmp a.UserData, Event.operate "aws" (runInstancesCmd a tmp),
      Event.println "Bastion host instance created.", Event.println ""]⟩ rfl
  rw [createBastionHostInstance_miss env a st tmp out w1 w2 w3 w4 hd ht hw hr, hloop]
  exact ⟨_, rfl⟩

/-- What `log.Fatalf` leaves behind is only lines of the `log` package. -/
theorem checkError_some_logs (env : Env σ) (e : GoError) (st : St σ) :
    ∃ st1 logs, checkError env (some e) st = Res.abort (Abort.exit 1) st1 ∧
      st1.trace = st.trace ++ logs ∧ st1.world = st.world ∧
      ∀ ev ∈ logs, ev.isLog = true := by
  obtain ⟨st1, h, logs, htr, hw, hl⟩ := checkError_some env e st
  refine ⟨st1, logs, h, htr, hw, ?_⟩
  intro ev hev
  rcases hl ev hev with ⟨l, rfl⟩ | ⟨d, rfl⟩ <;> rfl

theorem isLog_issues (ev : Event) (pre : String) (h : ev.isLog = true) :
    ev.issues pre = false := by
  cases ev <;> first | rfl | simp [Event.isLog] at h

/-- A checked provider call that succeeds hands its answer on. -/
theorem operate_checked_ok {β : Type} (env : Env σ) (provider arguments : String) (w : σ)
    (tr : List Event) (k : String × Option GoError → Prog σ β) (o : String) (w1 : σ)
    (h : env.operate provider arguments w = (Except.ok (o, none), w1)) :
    (operate env provider arguments ⟨w, tr⟩).next
        (fun r => checkError env r.2 >>= fun _ => k r) =
      k (o, none) ⟨w1, tr ++ [Event.operate provider arguments]⟩ := by
  simp [operate, helperCall, h]

/-- A checked provider call that fails, by ending the process itself or by an error read
back, ends the process right after the call, with lines of the `log` package at most. -/
theorem operate_checked_fail {β : Type} (env : Env σ) (provider arguments : String) (w : σ)
    (tr : List Event) (k : String × Option GoError → Prog σ β)
    (hfail : ∀ o, (env.operate provider arguments w).1 ≠ Except.ok (o, none)) :
    ∃ why st1 logs,
      (operate env provider arguments ⟨w, tr⟩).next
          (fun r => checkError env r.2 >>= fun _ => k r) = Res.abort why st1 ∧
        st1.trace = tr ++ Event.operate provider arguments :: logs ∧
        ∀ ev ∈ logs, ev.isLog = true := by
  rcases hop : env.operate provider arguments w with ⟨x, w1⟩
  rw [hop] at hfail
  cases x with
  | error why =>
    refine ⟨why, ⟨w1, tr ++ [Event.operate provider arguments]⟩, [], ?_, rfl, ?_⟩
    · simp [operate, helperCall, hop]
    · intro ev hev
      cases hev
  | ok r =>
    obtain ⟨o, err⟩ := r
    cases err with
    | none => exact absurd rfl (hfail o)
    | some e =>
      obtain ⟨st1, logs, hce, htr, -, hl⟩ := checkError_some_logs env e
        ⟨w1, tr ++ [Event.operate provider arguments]⟩
      refine ⟨Abort.exit 1, st1, logs, ?_, ?_, hl⟩
      · simp [operate, helperCall, hop, hce]
      · simp [htr]

/-- A provider call either succeeds or fails. -/
theorem operate_outcome (env : Env σ) (provider arguments : String) (w : σ) :
    (∃ o w1, env.operate provider arguments w = (Except.ok (o, none), w1)) ∨
      ∀ o, (env.operate provider arguments w).1 ≠ Except.ok (o, none) := by
  rcases hop : env.operate provider arguments w with ⟨x, w1⟩
  cases x with
  | error why => right; intro o h; cases h
  | ok r =>
    obtain ⟨o, err⟩ := r
    cases err with
    | none => left; exact ⟨o, w1, rfl⟩
    | some e => right; intro o1 h; cases h

/-- The calls issued by a program that fails at a checked provider call, after the calls
`pfx` issued since the state `st0`. -/
theorem operate_checked_fail_new {β : Type} (env : Env σ) (provider arguments : String)
    (w : σ) (tr : List Event) (k : String × Option GoError → Prog σ β)
    (hfail : ∀ o, (env.operate provider arguments w).1 ≠ Except.ok (o, none))
    (st0 : St σ) (pfx : List Event) (htr : tr = st0.trace ++ pfx) :
    ∃ logs,
      newEvents st0 ((operate env provider arguments ⟨w, tr⟩).next
          (fun r => checkError env r.2 >>= fun _ => k r)) =
        pfx ++ Event.operate provider arguments :: logs ∧
      (∀ ev ∈ logs, ev.isLog = true) ∧
      ((operate env provider arguments ⟨w, tr⟩).next
          (fun r => checkError env r.2 >>= fun _ => k r)).returned = false := by
  obtain ⟨why, st1, logs, h, htr1, hl⟩ :=
    operate_checked_fail env provider arguments w tr k hfail
  refine ⟨logs, ?_, hl, ?_⟩
  · rw [h]
    apply newEvents_eq
    simp [Res.state, htr1, htr]
  · rw [h]
    rfl

/-- `cleanupAwsBastionHost` when its three provider calls succeed. -/
theorem cleanupAwsBastionHost_ok (env : Env σ) (a : AwsInstanceAttribute) (st : St σ)
    (o1 o2 o3 : String) (w1 w2 w3 : σ)
    (hT : env.operate "aws" (terminateInstancesCmd a) st.world = (Except.ok (o1, none), w1))
    (hR : env.operate "aws" (revokeIngressCmd a) w1 = (Except.ok (o2, none), w2))
    (hD : env.operate "aws" (deleteSecurityGroupCmd a) (env.sleep 45 w2) =
      (Except.ok (o3, none), w3)) :
    cleanupAwsBastionHost env a st = Res.ok ()
      ⟨w3, st.trace ++ [Event.println "Cleaning up bastion host configurations...",
        Event.println "", Event.println "Starting cleanup", Event.println "",
        Event.println "  (1/3) Cleaning up bastion host instance",
        Event.operate "aws" (terminateInstancesCmd a), Event.println o1,
        Event.println "  (2/3) Close SSH Port on Node.",
        Event.operate "aws" (revokeIngressCmd a),
        Event.println "  Closed SSH Port on Node.", Event.println o2,
        Event.println "  (3/3) Clean up bastion host security group", Event.println "",
        Event.println
          "  Waiting 45 seconds until instance is deleted to remove all dependencies.",
        Event.sleep 45, Event.operate "aws" (deleteSecurityGroupCmd a), Event.println "",
        Event.println "Bastion host configurations successfully cleaned up."]⟩ := by
  simp only [terminateInstancesCmd, revokeIngressCmd, deleteSecurityGroupCmd] at hT hR hD ⊢
  simp only [cleanupAwsBastionHost, bind_apply, println_apply, next_ok,
    operate_checked_ok env "aws" _ _ _ _ _ _ hT, operate_checked_ok env "aws" _ _ _ _ _ _ hR,
    operate_checked_ok env "aws" _ _ _ _ _ _ hD, sleep_apply, List.append_assoc,
    List.singleton_append, List.cons_append, List.nil_append]

/-- `cleanupAwsBastionHost` when the termination of the instance fails. -/
theorem cleanupAwsBastionHost_terminate_fails (env : Env σ) (a : AwsInstanceAttribute)
    (st : St σ)
    (hT : ∀ o, (env.operate "aws" (terminateInstancesCmd a) st.world).1 ≠ Except.ok (o, none)) :
    ∃ logs,
      newEvents st (cleanupAwsBastionHost env a st) =
        [Event.println "Cleaning up bastion host configurations...",
          Event.println "", Event.println "Starting cleanup", Event.println "",
          Event.println "  (1/3) Cleaning up bastion host instance"] ++
          Event.operate "aws" (terminateInstancesCmd a) :: logs ∧
      (∀ ev ∈ logs, ev.isLog = true) ∧
      (cleanupAwsBastionHost env a st).returned = false := by
  simp only [terminateInstancesCmd] at hT ⊢
  simp only [cleanupAwsBastionHost, bind_apply, println_apply, next_ok]
  exact operate_checked_fail_new env "aws" _ _ _ _ hT st _ (by simp)

/-- `cleanupAwsBastionHost` when the instance is terminated and the revocation fails. -/
theorem cleanupAwsBastionHost_revoke_fails (env : Env σ) (a : AwsInstanceAttribute)
    (st : St σ) (o1 : String) (w1 : σ)
    (hT : env.operate "aws" (terminateInstancesCmd a) st.world = (Except.ok (o1, none), w1))
    (hR : ∀ o, (env.operate "aws" (revokeIngressCmd a) w1).1 ≠ Except.ok (o, none)) :
    ∃ logs,
      newEvents st (cleanupAwsBastionHost env a st) =
        [Event.println "Cleaning up bastion host configurations...",
          Event.println "", Event.println "Starting cleanup", Event.println "",
          Event.println "  (1/3) Cleaning up bastion host instance",
          Event.operate "aws" (terminateInstancesCmd a), Event.println o1,
          Event.println "  (2/3) Close SSH Port on Node."] ++
          Event.operate "aws" (revokeIngressCmd a) :: logs ∧
      (∀ ev ∈ logs, ev.isLog = true) ∧
      (cleanupAwsBastionHost env a st).returned = false := by
  simp only [terminateInstancesCmd, revokeIngressCmd] at hT hR ⊢
  simp only [cleanupAwsBastionHost, bind_apply, println_apply, next_ok,
    operate_checked_ok env "aws" _ _ _ _ _ _ hT]
  exact operate_checked_fail_new env "aws" _ _ _ _ hR st _ (by simp)

/-- `cleanupAwsBastionHost` when the instance is terminated, the rule revoked and the
deletion of the group fails. -/
theorem cleanupAwsBastionHost_delete_fails (env : Env σ) (a : AwsInstanceAttribute)
    (st : St σ) (o1 o2 : String) (w1 w2 : σ)
    (hT : env.operate "aws" (terminateInstancesCmd a) st.world = (Except.ok (o1, none), w1))
    (hR : env.operate "aws" (revokeIngressCmd a) w1 = (Except.ok (o2, none), w2))
    (hD : ∀ o, (env.operate "aws" (deleteSecurityGroupCmd a) (env.sleep 45 w2)).1 ≠
      Except.ok (o, none)) :
    ∃ logs,
      newEvents st (cleanupAwsBastionHost env a st) =
        [Event.println "Cleaning up bastion host configurations...",
          Event.println "", Event.println "Starting cleanup", Event.println "",
          Event.println "  (1/3) Cleaning up bastion host instance",
          Event.operate "aws" (terminateInstancesCmd a), Event.println o1,
          Event.println "  (2/3) Close SSH Port on Node.",
          Event.operate "aws" (revokeIngressCmd a),
          Event.println "  Closed SSH Port on Node.", Event.println o2,
          Event.println "  (3/3) Clean up bastion host security group", Event.println "",
          Event.println
            "  Waiting 45 seconds until instance is deleted to remove all dependencies.",
          Event.sleep 45] ++
          Event.operate "aws" (deleteSecurityGroupCmd a) :: logs ∧
      (∀ ev ∈ logs, ev.isLog = true) ∧
      (cleanupAwsBastionHost env a st).returned = false := by
  simp only [terminateInstancesCmd, revokeIngressCmd, deleteSecurityGroupCmd] at hT hR hD ⊢
  simp only [cleanupAwsBastionHost, bind_apply, println_apply, next_ok,
    operate_checked_ok env "aws" _ _ _ _ _ _ hT, operate_checked_ok env "aws" _ _ _ _ _ _ hR,
    sleep_apply]
  exact operate_checked_fail_new env "aws" _ _ _ _ hD st _ (by simp)

/-- The termination is neither a revocation nor a deletion of a group, and the revocation is
no deletion. -/
theorem cleanup_commands_issue (a : AwsInstanceAttribute) (provider : String) :
    (Event.operate provider (terminateInstancesCmd a)).issues
        "aws ec2 revoke-security-group-ingress" = false ∧
      (Event.operate provider (terminateInstancesCmd a)).issues
        "aws ec2 delete-security-group" = false ∧
      (Event.operate provider (revokeIngressCmd a)).issues
        "aws ec2 delete-security-group" = false := by
  simp only [terminateInstancesCmd, revokeIngressCmd, String.append_assoc]
  rw [issues_append _ _ _ _ (by decide), issues_append _ _ _ _ (by decide),
    issues_append _ _ _ _ (by decide)]
  exact ⟨by decide, by decide, by decide⟩

/-- The calls issued by a program that returned. -/
theorem newEvents_ok (st : St σ) (a : α) (w : σ) (new : List Event) :
    newEvents st (Res.ok a ⟨w, st.trace ++ new⟩) = new := by
  simp [newEvents, Res.state]

/-- Lines of the `log` package are dropped by a filter that keeps no such line. -/
theorem filter_logs (p : Event → Bool) (logs : List Event)
    (hp : ∀ ev, ev.isLog = true → p ev = false) (hl : ∀ ev ∈ logs, ev.isLog = true) :
    logs.filter p = [] := by
  rw [List.filter_eq_nil_iff]
  intro ev hev
  simp [hp ev (hl ev hev)]

/-- The loop of `getAwsInstanceIDForIP` over nodes that all report an address returns,
issuing nothing, the identifier of the first qualifying node, or the empty string. -/
theorem getAwsInstanceIDForIPLoop_first (ip : String) (nodes : List Node)
    (haddr : ∀ n ∈ nodes, n.addresses ≠ []) (st : St σ) :
    ∃ v, getAwsInstanceIDForIPLoop ip nodes st = Res.ok v st ∧
      ((∃ pre n post, nodes = pre ++ n :: post ∧ (∀ m ∈ pre, ¬ Qualifies ip m) ∧
          n.addresses.head? = some ip ∧ FirstInstanceSegment n.providerID v) ∨
        ((∀ m ∈ nodes, ¬ Qualifies ip m) ∧ v = "")) := by
  induction nodes with
  | nil => exact ⟨"", rfl, Or.inr ⟨by simp, rfl⟩⟩
  | cons node rest ih =>
    obtain ⟨v, hv, hspec⟩ := ih (fun n hn => haddr n (List.mem_cons_of_mem _ hn))
    have hskip : ¬ Qualifies ip node →
        getAwsInstanceIDForIPLoop ip rest st = getAwsInstanceIDForIPLoop ip (node :: rest) st →
        ∃ v, getAwsInstanceIDForIPLoop ip (node :: rest) st = Res.ok v st ∧
          ((∃ pre n post, node :: rest = pre ++ n :: post ∧
              (∀ m ∈ pre, ¬ Qualifies ip m) ∧
              n.addresses.head? = some ip ∧ FirstInstanceSegment n.providerID v) ∨
            ((∀ m ∈ node :: rest, ¬ Qualifies ip m) ∧ v = "")) := by
      intro hq heq
      refine ⟨v, heq ▸ hv, ?_⟩
      rcases hspec with ⟨pre, n, post, h1, h2, h3, h4⟩ | ⟨h1, h2⟩
      · left
        refine ⟨node :: pre, n, post, by rw [h1]; rfl, ?_, h3, h4⟩
        intro m hm
        rcases List.mem_cons.mp hm with rfl | hm
        · exact hq
        · exact h2 m hm
      · right
        refine ⟨?_, h2⟩
        intro m hm
        rcases List.mem_cons.mp hm with rfl | hm
        · exact hq
        · exact h1 m hm
    cases hadr : node.addresses with
    | nil => exact absurd hadr (haddr node (List.mem_cons_self _ _))
    | cons address more =>
      by_cases hip : ip = address
      · cases hfind : (split node.providerID '/').find? (fun v => hasPrefix v "i-") with
        | some u =>
          refine ⟨u, ?_, Or.inl ⟨[], node, rest, rfl, by simp, ?_, ?_⟩⟩
          · simp [getAwsInstanceIDForIPLoop, hadr, hip, hfind]
          · simp [hadr, hip]
          · obtain ⟨hp, s1, s2, hsplit, hs1⟩ := List.find?_eq_some.mp hfind
            exact ⟨s1, s2, hsplit, hp, fun x hx => by simpa using hs1 x hx⟩
        | none =>
          apply hskip
          · rintro ⟨-, u, s1, s2, hsplit, hp, -⟩
            have hmem : u ∈ split node.providerID '/' := by rw [hsplit]; simp
            exact (List.find?_eq_none.mp hfind) u hmem hp
          · simp [getAwsInstanceIDForIPLoop, hadr, hip, hfind]
      · apply hskip
        · rintro ⟨hhead, -⟩
          rw [hadr] at hhead
          simp at hhead
          exact hip hhead.symm
        · simp [getAwsInstanceIDForIPLoop, hadr, hip]

theorem operate_at_ok (env : Env σ) (provider arguments : String) (w : σ) (tr : List Event)
    (r : String × Option GoError) (w1 : σ)
    (h : env.operate provider arguments w = (Except.ok r, w1)) :
    operate env provider arguments ⟨w, tr⟩ =
      Res.ok r ⟨w1, tr ++ [Event.operate provider arguments]⟩ := by
  simp [operate, helperCall, h]

theorem helperCall_at_ok (e : Event) (f : σ → Except Abort α × σ) (w : σ) (tr : List Event)
    (a : α) (w1 : σ) (h : f w = (Except.ok a, w1)) :
    helperCall e f ⟨w, tr⟩ = Res.ok a ⟨w1, tr ++ [e]⟩ := by
  simp [helperCall, h]

theorem getAwsInstanceIDForIPLoop_panics (ip : String) (pre : List Node) (n : Node)
    (post : List Node) (hpre : ∀ m ∈ pre, ¬ Qualifies ip m) (hn : n.addresses = [])
    (st : St σ) :
    getAwsInstanceIDForIPLoop ip (pre ++ n :: post) st =
      Res.abort (Abort.panic "runtime error: index out of range [0] with length 0") st := by
  induction pre with
  | nil => simp [getAwsInstanceIDForIPLoop, hn, abortWith]
  | cons m rest ih =>
    have ih1 := ih (fun x hx => hpre x (List.mem_cons_of_mem _ hx))
    cases hadr : m.addresses with
    | nil => simp [getAwsInstanceIDForIPLoop, hadr, abortWith]
    | cons address more =>
      by_cases hip : ip = address
      · subst hip
        cases hfind : (split m.providerID '/').find? (fun v => hasPrefix v "i-") with
        | some u =>
          exfalso
          apply hpre m (List.mem_cons_self _ _)
          obtain ⟨hp, s1, s2, hsplit, hs1⟩ := List.find?_eq_some.mp hfind
          exact ⟨by simp [hadr], u, s1, s2, hsplit, hp, fun x hx => by simpa using hs1 x hx⟩
        | none =>
          simp only [List.cons_append, getAwsInstanceIDForIPLoop, hadr, hfind, if_true]
          exact ih1
      · simp only [List.cons_append, getAwsInstanceIDForIPLoop, hadr, hip, if_false]
        exact ih1

/-- The test `contains` holds exactly when `substr` occurs in `s`. -/
theorem contains_iff (s substr : String) :
    contains s substr = true ↔ ∃ pre post, s.data = pre ++ substr.data ++ post := by
  simp only [contains, List.any_eq_true, List.mem_tails, List.isPrefixOf_iff_prefix]
  constructor
  · rintro ⟨t, ⟨pre, hpre⟩, ⟨post, hpost⟩⟩
    exact ⟨pre, post, by rw [← hpre, ← hpost, List.append_assoc]⟩
  · rintro ⟨pre, post, h⟩
    exact ⟨substr.data ++ post, ⟨pre, by rw [h, List.append_assoc]⟩, ⟨post, rfl⟩⟩

theorem CheckIPPortReachableLoop_retry (env : Env σ)
    (dial : String → String → Nat → σ → Bool × σ) (ip port : String) (n : Nat) (st : St σ)
    (hn : n < 12) (hd : (dial "tcp" (joinHostPort ip port) 10 st.world).1 = false) :
    CheckIPPortReachableLoop env dial ip port n st =
      CheckIPPortReachableLoop env dial ip port (n + 1)
        ⟨env.sleep 10 (dial "tcp" (joinHostPort ip port) 10 st.world).2,
          st.trace ++ retryEvents⟩ := by
  rw [CheckIPPortReachableLoop]
  simp [hn, hd, retryEvents, sleep]

theorem CheckIPPortReachableLoop_reachable (env : Env σ)
    (dial : String → String → Nat → σ → Bool × σ) (ip port : String) (n : Nat) (st : St σ)
    (hn : n < 12) (hd : (dial "tcp" (joinHostPort ip port) 10 st.world).1 = true) :
    CheckIPPortReachableLoop env dial ip port n st =
      Res.ok none ⟨(dial "tcp" (joinHostPort ip port) 10 st.world).2,
        st.trace ++ [Event.call "net.DialTimeout",
          Event.println ("IP " ++ ip ++ " port " ++ port ++ " is reachable"),
          Event.call "conn.Close"]⟩ := by
  rw [CheckIPPortReachableLoop]
  simp [hn, hd]

theorem CheckIPPortReachableLoop_done (env : Env σ)
    (dial : String → String → Nat → σ → Bool × σ) (ip port : String) (n : Nat) (st : St σ)
    (hn : ¬ n < 12) :
    CheckIPPortReachableLoop env dial ip port n st =
      Res.ok (some ⟨"IP " ++ ip ++ " port " ++ port ++ " is not reachable", none⟩) st := by
  rw [CheckIPPortReachableLoop]
  simp [hn]

/-- After `k` failed attempts the loop of `CheckIPPortReachable` is where it would be had it
been entered `k` attempts later, with the calls of `k` failed attempts issued. -/
theorem CheckIPPortReachableLoop_retries (env : Env σ)
    (dial : String → String → Nat → σ → Bool × σ) (ip port : String) (k : Nat) :
    ∀ (n : Nat) (st : St σ), n + k ≤ 12 →
      (∀ i < k, (dial "tcp" (joinHostPort ip port) 10
        (attemptWorld env dial ip port i st.world)).1 = false) →
      CheckIPPortReachableLoop env dial ip port n st =
        CheckIPPortReachableLoop env dial ip port (n + k)
          ⟨attemptWorld env dial ip port k st.world,
            st.trace ++ (List.replicate k retryEvents).flatten⟩ := by
  induction k with
  | zero => intro n st _ _; simp [attemptWorld]
  | succ k ih =>
    intro n st hn hfail
    rw [CheckIPPortReachableLoop_retry env dial ip port n st (by omega)
      (by simpa [attemptWorld] using hfail 0 (by omega))]
    rw [ih (n + 1) _ (by omega)
      (fun i hi => by simpa [attemptWorld] using hfail (i + 1) (by omega))]
    simp [attemptWorld, List.replicate_succ, Nat.add_assoc, Nat.add_comm 1 k]

theorem count_retryEvents (k : Nat) :
    (List.replicate k retryEvents).flatten.count (Event.call "net.DialTimeout") = k := by
  induction k with
  | zero => rfl
  | succ k ih =>
    rw [List.replicate_succ, List.flatten_cons, List.count_append, ih]
    simp [retryEvents, Nat.add_comm]

theorem emits_pure (P : Event → Prop) (a : α) : Emits P (pure a : Prog σ α) :=
  fun st => ⟨[], by simp [Res.state], by simp⟩

theorem emits_abortWith (P : Event → Prop) (w : Abort) : Emits P (abortWith w : Prog σ α) :=
  fun st => ⟨[], by simp [Res.state], by simp⟩

theorem emits_emit (P : Event → Prop) (e : Event) (he : P e) : Emits P (emit e : Prog σ Unit) :=
  fun st => ⟨[e], by simp [Res.state], by simpa using he⟩

theorem emits_libCall (P : Event → Prop) (e : Event) (f : σ → α × σ) (he : P e) :
    Emits P (libCall e f) :=
  fun st => ⟨[e], by simp [Res.state], by simpa using he⟩

theorem emits_helperCall (P : Event → Prop) (e : Event) (f : σ → Except Abort α × σ)
    (he : P e) : Emits P (helperCall e f) := by
  intro st
  refine ⟨[e], ?_, by simpa using he⟩
  unfold helperCall
  cases (f st.world).1 <;> rfl

theorem emits_bind (P : Event → Prop) (m : Prog σ α) (f : α → Prog σ β) (hm : Emits P m)
    (hf : ∀ a, Emits P (f a)) : Emits P (m >>= f) := by
  intro st
  obtain ⟨new1, h1, hP1⟩ := hm st
  rw [bind_apply]
  cases hr : m st with
  | abort w st1 =>
    rw [hr] at h1
    exact ⟨new1, h1, hP1⟩
  | ok a st1 =>
    rw [hr] at h1
    obtain ⟨new2, h2, hP2⟩ := hf a st1
    refine ⟨new1 ++ new2, ?_, ?_⟩
    · rw [next_ok, h2]
      have h3 : st1.trace = st.trace ++ new1 := h1
      rw [h3, List.append_assoc]
    · intro e he
      rcases List.mem_append.mp he with he | he
      · exact hP1 e he
      · exact hP2 e he

theorem emits_ite (P : Event → Prop) (c : Prop) [Decidable c] (m n : Prog σ α)
    (hm : Emits P m) (hn : Emits P n) : Emits P (if c then m else n) := by
  split
  · exact hm
  · exact hn

theorem emits_checkError (P : Event → Prop) (env : Env σ) (err : Option GoError)
    (hlog : ∀ e, e.isLog = true → P e) : Emits P (checkError env err) := by
  intro st
  cases err with
  | none => exact ⟨[], by simp [checkError_none, Res.state], by simp⟩
  | some e0 =>
    obtain ⟨st1, logs, hce, htr, -, hl⟩ := checkError_some_logs env e0 st
    exact ⟨logs, by rw [hce]; exact htr, fun e he => hlog e (hl e he)⟩

theorem emits_operate (P : Event → Prop) (env : Env σ) (provider arguments : String)
    (he : P (Event.operate provider arguments)) : Emits P (operate env provider arguments) :=
  emits_helperCall P _ _ he

/-- The state query is not a launch. -/
theorem stateQuery_issues (a : AwsInstanceAttribute) (provider : String) :
    (Event.operate provider (stateQueryCmd a)).issues "aws ec2 run-instances" = false := by
  simp only [stateQueryCmd, String.append_assoc]
  rw [issues_append _ _ _ _ (by decide)]
  decide

/-- The detail query is not a launch. -/
theorem detailQuery_issues (a : AwsInstanceAttribute) (provider : String) :
    (Event.operate provider (detailQueryCmd a)).issues "aws ec2 run-instances" = false := by
  simp only [detailQueryCmd]
  rw [issues_append _ _ _ _ (by decide)]
  decide

/-- The readiness loop issues no launch. -/
theorem readinessLoop_no_launch (env : Env σ) (a : AwsInstanceAttribute) (k : Nat) :
    ∀ attemptCnt, 60 - attemptCnt = k →
      Emits (fun e => e.issues "aws ec2 run-instances" = false)
        (readinessLoop env a attemptCnt) := by
  induction k with
  | zero =>
    intro attemptCnt h
    have h60 : ¬ attemptCnt < 60 := by omega
    intro st
    rw [readinessLoop]
    simp only [h60, if_false]
    exact emits_pure _ _ st
  | succ k ih =>
    intro attemptCnt h
    have h60 : attemptCnt < 60 := by omega
    have hrec := ih (attemptCnt + 1) (by omega)
    intro st
    rw [readinessLoop]
    simp only [h60, if_true]
    refine emits_bind _ _ _ (emits_operate _ env _ _ (stateQuery_issues a "aws")) ?_ st
    intro r
    refine emits_bind _ _ _ (emits_checkError _ env _ (fun e he => isLog_issues e _ he)) ?_
    intro _
    refine emits_bind _ _ _ (emits_emit _ _ rfl) ?_
    intro _
    refine emits_ite _ _ _ _ ?_ ?_
    · refine emits_bind _ _ _ (emits_operate _ env _ _ (detailQuery_issues a "aws")) ?_
      intro d
      refine emits_bind _ _ _ (emits_checkError _ env _ (fun e he => isLog_issues e _ he)) ?_
      intro _
      exact emits_pure _ _
    · refine emits_bind _ _ _ (emits_libCall _ _ _ rfl) ?_
      intro _
      exact hrec

/-- What `createBastionHostInstance` does after a launch call that returned: it issues no
further launch. -/
theorem createBastionHostInstance_after_launch (env : Env σ) (a : AwsInstanceAttribute)
    (tmp : String) (r : String × Option GoError) :
    Emits (fun e => e.issues "aws ec2 run-instances" = false)
      (do
        checkError env r.2
        println "Bastion host instance created."
        println ""
        let exit ← readinessLoop env (assignInstanceID a (fields r.1)) 0
        let a1 ← (match exit with
          | LoopExit.returned a => (pure a : Prog σ AwsInstanceAttribute)
          | LoopExit.done attemptCnt =>
            if attemptCnt = 90 then do
              println "Bastion server instance timeout. Please try again."
              osExit 2
            else
              pure (assignInstanceID a (fields r.1)))
        libCall (Event.remove tmp) (fun w => ((), env.remove tmp w))
        pure a1) := by
  refine emits_bind _ _ _ (emits_checkError _ env _ (fun e he => isLog_issues e _ he)) ?_
  intro _
  refine emits_bind _ _ _ (emits_emit _ _ rfl) ?_
  intro _
  refine emits_bind _ _ _ (emits_emit _ _ rfl) ?_
  intro _
  refine emits_bind _ _ _ (readinessLoop_no_launch env _ 60 0 rfl) ?_
  intro exit
  refine emits_bind _ _ _ ?_ ?_
  · cases exit with
    | returned a1 => exact emits_pure _ _
    | done attemptCnt =>
      refine emits_ite _ _ _ _ ?_ (emits_pure _ _)
      refine emits_bind _ _ _ (emits_emit _ _ rfl) ?_
      intro _
      exact emits_abortWith _ _
  · intro a1
    refine emits_bind _ _ _ (emits_libCall _ _ _ rfl) ?_
    intro _
    exact emits_pure _ _

theorem next_next {γ : Type} (r : Res σ α) (f : α → St σ → Res σ β)
    (g : β → St σ → Res σ γ) :
    (r.next f).next g = r.next (fun a st => (f a st).next g) := by
  cases r <;> rfl

/-- On a discovery miss, with the temporary file created and written,
`createBastionHostInstance` comes to the launch call with the discovery and the creation and
writing of the file issued, and what follows the launch call issues no launch. -/
theorem createBastionHostInstance_at_launch (env : Env σ) (a : AwsInstanceAttribute)
    (st : St σ) (tmp : String) (w1 w2 w3 : σ)
    (hd : env.operate "aws" (describeBastionCmd a) st.world = (Except.ok ("", none), w1))
    (ht : env.tempFile (env.tempDir w1) "gardener-user.sh" w1 = ((tmp, none), w2))
    (hw : env.write tmp a.UserData w2 = (none, w3)) :
    ∃ K : String × Option GoError → Prog σ AwsInstanceAttribute,
      (∀ r, Emits (fun e => e.issues "aws ec2 run-instances" = false) (K r)) ∧
      createBastionHostInstance env a st =
        (operate env "aws" (runInstancesCmd a tmp)
          ⟨w3, st.trace ++ [Event.operate "aws" (describeBastionCmd a),
            Event.call "os.TempDir", Event.tempFile (env.tempDir w1) "gardener-user.sh",
            Event.write tmp a.UserData]⟩).next K := by
  refine ⟨_, fun r => createBastionHostInstance_after_launch env
    { a with BastionInstanceID := "" } tmp r, ?_⟩
  simp only [createBastionHostInstance, createBastionHostInstanceBody, getBastionHostInstance,
    bind_apply, operate_ok env "aws" _ _ _ _ hd, next_ok, checkError_none, pure_apply,
    ite_prog_apply, ne_eq, not_true_eq_false, if_false, libCall_apply, ht, hw,
    List.append_assoc, List.singleton_append, List.cons_append, List.nil_append, next_next]
  rfl

/-- On a discovery miss, with the temporary file created and written, the calls of
`createBastionHostInstance` begin with the discovery, the creation and the writing of the
file and the launch, and no call after these is a launch. -/
theorem createBastionHostInstance_launch_tail (env : Env σ) (a : AwsInstanceAttribute)
    (st : St σ) (tmp : String) (w1 w2 w3 : σ)
    (hd : env.operate "aws" (describeBastionCmd a) st.world = (Except.ok ("", none), w1))
    (ht : env.tempFile (env.tempDir w1) "gardener-user.sh" w1 = ((tmp, none), w2))
    (hw : env.write tmp a.UserData w2 = (none, w3)) :
    ∃ tail, newEvents st (createBastionHostInstance env a st) =
        [Event.operate "aws" (describeBastionCmd a), Event.call "os.TempDir",
          Event.tempFile (env.tempDir w1) "gardener-user.sh", Event.write tmp a.UserData,
          Event.operate "aws" (runInstancesCmd a tmp)] ++ tail ∧
      ∀ e ∈ tail, e.issues "aws ec2 run-instances" = false := by
  obtain ⟨K, hK, hrun⟩ := createBastionHostInstance_at_launch env a st tmp w1 w2 w3 hd ht hw
  rw [hrun]
  rcases hop : env.operate "aws" (runInstancesCmd a tmp) w3 with ⟨x, w4⟩
  cases x with
  | error why =>
    refine ⟨[], ?_, by simp⟩
    apply newEvents_eq
    simp [operate, helperCall, hop, Res.state]
  | ok r =>
    rw [operate_at_ok env "aws" _ w3 _ r w4 hop, next_ok]
    obtain ⟨new, hnew, hP⟩ := hK r
      ⟨w4, st.trace ++ [Event.operate "aws" (describeBastionCmd a),
        Event.call "os.TempDir", Event.tempFile (env.tempDir w1) "gardener-user.sh",
        Event.write tmp a.UserData] ++ [Event.operate "aws" (runInstancesCmd a tmp)]⟩
    refine ⟨new, ?_, hP⟩
    apply newEvents_eq
    rw [hnew]
    simp

theorem ExecCmdReturnOutput_eq_ok (env : Env σ) (cmd : String) (args : List String)
    (st st1 : St σ) (r : String × Option GoError) :
    ExecCmdReturnOutput env cmd args st = Res.ok r st1 ↔
      r = (trimSpace (env.output cmd args st.world).1.1, (env.output cmd args st.world).1.2) ∧
        st1 = ⟨(env.output cmd args st.world).2, st.trace ++ [Event.command cmd args]⟩ := by
  simp [ExecCmdReturnOutput, eq_comm]

/-- The subnet and the network that a returning `fetchAwsAttributes` leaves in the record are
the trimmed texts printed by the queries of the branch that the version selects. -/
theorem fetchAwsAttributes_eq_ok_ids (env : Env σ) (a a1 : AwsInstanceAttribute)
    (nodeIP path : String) (st st1 : St σ) (version subnet vpc layout : String)
    (h : fetchAwsAttributes env a nodeIP path st = Res.ok a1 st1)
    (hv : Prints env ("cat " ++ path ++ "  | jq -r .terraform_version") version)
    (hl : layout = if env.check ">= 0.12.0" (trimSpace version) then ".outputs"
      else ".modules[].outputs")
    (hs : Prints env
      ("cat " ++ path ++ " | jq -r " ++ layout ++ ".subnet_public_utility_z0.value") subnet)
    (hp : Prints env ("cat " ++ path ++ " | jq -r " ++ layout ++ ".vpc_id.value") vpc) :
    a1.SubnetID = trimSpace subnet ∧ a1.VpcID = trimSpace vpc := by
  simp only [fetchAwsAttributes, bind_apply, next_eq_ok, helperCall_eq_ok, checkError_eq_ok,
    ite_prog_apply, pure_apply, osExit_apply, ExecCmdReturnOutput_eq_ok] at h
  obtain ⟨s, st2, -, id, st3, -, tv, st4, ⟨htv, -⟩, u, st5, -, h⟩ := h
  obtain ⟨wv, hwv⟩ := hv st3.world
  rw [hwv] at htv
  subst htv
  split at h
  · simp [next_eq_ok] at h
  split at h
  · simp [next_eq_ok] at h
  split at h
  · rename_i hchk
    simp only [hchk, if_true] at hl
    subst hl
    simp only [bind_apply, next_eq_ok, helperCall_eq_ok, checkError_eq_ok, pure_apply,
      Res.ok.injEq, ExecCmdReturnOutput_eq_ok] at h
    obtain ⟨sub, st6, ⟨hsub, -⟩, u1, st7, ⟨-, h67⟩, v, st8, ⟨hvpc, -⟩, u2, st9, -, y, st10,
      ⟨hy, -⟩, a2, st11, hsg, img, st12, -, u3, st13, -, ud, st14, -, h, -⟩ := h
    obtain ⟨out, hout⟩ := getSecurityGroupID_eq_ok env _ _ _ _ hsg
    obtain ⟨ws, hws⟩ := hs st5.world
    obtain ⟨wp, hwp⟩ := hp st7.world
    have hs1 : "cat " ++ path ++ " | jq -r " ++ ".outputs" ++ ".subnet_public_utility_z0.value"
        = "cat " ++ path ++ " | jq -r .outputs.subnet_public_utility_z0.value" := by
      simp only [String.append_assoc]; rfl
    have hp1 : "cat " ++ path ++ " | jq -r " ++ ".outputs" ++ ".vpc_id.value"
        = "cat " ++ path ++ " | jq -r .outputs.vpc_id.value" := by
      simp only [String.append_assoc]; rfl
    rw [hs1] at hws
    rw [hp1] at hwp
    rw [hws] at hsub
    rw [hwp] at hvpc
    subst hy h hout hsub hvpc
    exact ⟨rfl, rfl⟩
  · rename_i hchk
    simp only [hchk, Bool.false_eq_true, if_false] at hl
    subst hl
    simp only [bind_apply, next_eq_ok, helperCall_eq_ok, checkError_eq_ok, pure_apply,
      Res.ok.injEq, ExecCmdReturnOutput_eq_ok] at h
    obtain ⟨sub, st6, ⟨hsub, -⟩, u1, st7, ⟨-, h67⟩, v, st8, ⟨hvpc, -⟩, u2, st9, -, y, st10,
      ⟨hy, -⟩, a2, st11, hsg, img, st12, -, u3, st13, -, ud, st14, -, h, -⟩ := h
    obtain ⟨out, hout⟩ := getSecurityGroupID_eq_ok env _ _ _ _ hsg
    obtain ⟨ws, hws⟩ := hs st5.world
    obtain ⟨wp, hwp⟩ := hp st7.world
    have hs1 : "cat " ++ path ++ " | jq -r " ++ ".modules[].outputs" ++
        ".subnet_public_utility_z0.value"
        = "cat " ++ path ++ " | jq -r .modules[].outputs.subnet_public_utility_z0.value" := by
      simp only [String.append_assoc]; rfl
    have hp1 : "cat " ++ path ++ " | jq -r " ++ ".modules[].outputs" ++ ".vpc_id.value"
        = "cat " ++ path ++ " | jq -r .modules[].outputs.vpc_id.value" := by
      simp only [String.append_assoc]; rfl
    rw [hs1] at hws
    rw [hp1] at hwp
    rw [hws] at hsub
    rw [hwp] at hvpc
    subst hy h hout hsub hvpc
    exact ⟨rfl, rfl⟩

theorem returned_eq_ok (r : Res σ α) (h : r.returned = true) : ∃ a st1, r = Res.ok a st1 := by
  cases r with
  | ok a st1 => exact ⟨a, st1, rfl⟩
  | abort w st1 => cases h

theorem terraformErrorAt_isSome (s : List Char) :
    (terraformErrorAt s).isSome = true ↔
      "Errors:".data <+: s ∨ ("Error ".data <+: s ∧ ':' ∈ s.drop 6) := by
  unfold terraformErrorAt
  by_cases h1 : "Error ".data.isPrefixOf s = true
  · have h1p : "Error ".data <+: s := List.isPrefixOf_iff_prefix.mp h1
    by_cases h2 : (s.drop 6).contains ':' = true
    · have h2m : ':' ∈ s.drop 6 := by simpa using h2
      simp only [h1, h2, if_true, Option.isSome_some, true_iff]
      exact Or.inr ⟨h1p, h2m⟩
    · have h2m : ':' ∉ s.drop 6 := by simpa using h2
      simp only [h1, h2, if_true, Bool.false_eq_true, if_false, Option.isSome_none, false_iff]
      rintro (h | ⟨-, h⟩)
      · obtain ⟨t, rfl⟩ := h
        obtain ⟨u, hu⟩ := h1p
        have := congrArg (fun l => l.get? 5) hu
        simp at this
      · exact h2m h
  · have h1p : ¬ "Error ".data <+: s := fun h => h1 (List.isPrefixOf_iff_prefix.mpr h)
    by_cases h3 : "Errors:".data.isPrefixOf s = true
    · have h3p : "Errors:".data <+: s := List.isPrefixOf_iff_prefix.mp h3
      simp only [h1, h3, Bool.false_eq_true, if_false, if_true, Option.isSome_some, true_iff]
      exact Or.inl h3p
    · have h3p : ¬ "Errors:".data <+: s := fun h => h3 (List.isPrefixOf_iff_prefix.mpr h)
      simp only [h1, h3, Bool.false_eq_true, if_false, Option.isSome_none, false_iff]
      rintro (h | ⟨h, -⟩)
      · exact h3p h
      · exact h1p h

theorem findTerraformErrorSubmatch_isSome (s : List Char) :
    (findTerraformErrorSubmatch s).isSome = true ↔
      ∃ t, t <:+ s ∧ (terraformErrorAt t).isSome = true := by
  induction s with
  | nil =>
    simp only [findTerraformErrorSubmatch, Option.isSome_none, Bool.false_eq_true, false_iff]
    rintro ⟨t, ht, h⟩
    have : t = [] := List.eq_nil_of_suffix_nil ht
    subst this
    simp [terraformErrorAt] at h
  | cons c cs ih =>
    cases hat : terraformErrorAt (c :: cs) with
    | some g =>
      simp only [findTerraformErrorSubmatch, hat, Option.isSome_some, true_iff]
      exact ⟨c :: cs, List.suffix_refl _, by simp [hat]⟩
    | none =>
      simp only [findTerraformErrorSubmatch, hat]
      rw [ih]
      constructor
      · rintro ⟨t, ht, h⟩
        exact ⟨t, ht.trans (List.suffix_cons c cs), h⟩
      · rintro ⟨t, ht, h⟩
        rcases List.suffix_cons_iff.mp ht with rfl | ht
        · simp [hat] at h
        · exact ⟨t, ht, h⟩

/-- The expression of `findTerraformErrors` matches somewhere in a text exactly when the
text holds an error marker. -/
theorem findTerraformErrorSubmatch_isSome_iff (s : List Char) :
    (findTerraformErrorSubmatch s).isSome = true ↔ HasErrorMarker s := by
  rw [findTerraformErrorSubmatch_isSome]
  constructor
  · rintro ⟨t, ⟨pre, rfl⟩, h⟩
    rcases (terraformErrorAt_isSome t).mp h with ⟨post, rfl⟩ | ⟨⟨r, rfl⟩, hmem⟩
    · exact Or.inl ⟨pre, post, by simp⟩
    · rw [List.drop_left' (by rfl)] at hmem
      obtain ⟨mid, post, rfl⟩ := List.append_of_mem hmem
      exact Or.inr ⟨pre, mid, post, by simp⟩
  · rintro (⟨pre, post, rfl⟩ | ⟨pre, mid, post, rfl⟩)
    · refine ⟨"Errors:".data ++ post, ⟨pre, by simp⟩, ?_⟩
      exact (terraformErrorAt_isSome _).mpr (Or.inl ⟨post, rfl⟩)
    · refine ⟨"Error ".data ++ (mid ++ ':' :: post), ⟨pre, by simp⟩, ?_⟩
      refine (terraformErrorAt_isSome _).mpr (Or.inr ⟨⟨_, rfl⟩, ?_⟩)
      rw [List.drop_left' (by rfl)]
      simp

theorem dropWhile_concat_neg (p : Char → Bool) (x : Char) (hx : p x = false) (u : List Char) :
    ∃ v, (u ++ [x]).dropWhile p = v ++ [x] := by
  induction u with
  | nil => exact ⟨[], by simp [List.dropWhile, hx]⟩
  | cons c cs ih =>
    by_cases hc : p c = true
    · obtain ⟨v, hv⟩ := ih
      exact ⟨v, by simp [List.dropWhile, hc, hv]⟩
    · exact ⟨c :: cs, by simp [List.dropWhile, hc]⟩

/-- A text that begins with a character that is no white space keeps it under
`strings.TrimSpace`. -/
theorem trimSpace_cons (x : Char) (hx : isSpace x = false) (t : List Char) :
    ∃ v, (trimSpace (String.mk (x :: t))).data = x :: v := by
  unfold trimSpace
  simp only [List.dropWhile, hx]
  rw [List.reverse_cons]
  obtain ⟨v, hv⟩ := dropWhile_concat_neg isSpace x hx t.reverse
  rw [hv]
  exact ⟨v.reverse, by simp⟩

/-- When the expression matches, the result of `findTerraformErrors` begins with `*`. -/
theorem findTerraformErrors_of_match (output : String) (submatch : List Char)
    (h : findTerraformErrorSubmatch
      (beforeFirst "\n\nTerraform does not automatically rollback".data output.data) =
        some submatch) :
    ∃ v, (findTerraformErrors output).data = '*' :: v := by
  simp only [findTerraformErrors, h, String.data_append]
  rw [List.singleton_append]
  have hc : ∀ t, collapseNewlines false ('*' :: t) = '*' :: collapseNewlines false t := by
    intro t
    simp [collapseNewlines]
  rw [hc]
  exact trimSpace_cons '*' (by decide) _

/-- What the first loop of `retrieveTerraformErrors` leaves in `foundErrors`: the messages
stay distinct, they are the messages held before and the non-empty messages found in the
logs visited, and every new entry names a pod whose log produced the message. -/
theorem collectErrors_spec (rest : List (String × String)) :
    ∀ found : List (String × String), (found.map Prod.fst).Nodup →
      ((collectErrors found rest).map Prod.fst).Nodup ∧
      (∀ m, m ∈ (collectErrors found rest).map Prod.fst ↔
        m ∈ found.map Prod.fst ∨ (m ≠ "" ∧ ∃ p ∈ rest, findTerraformErrors p.2 = m)) ∧
      ∀ e ∈ collectErrors found rest,
        e ∈ found ∨ ∃ p ∈ rest, p.1 = e.2 ∧ findTerraformErrors p.2 = e.1 := by
  induction rest with
  | nil =>
    intro found hnd
    exact ⟨hnd, fun m => by simp [collectErrors], fun e he => Or.inl he⟩
  | cons p rest ih =>
    intro found hnd
    obtain ⟨podName, output⟩ := p
    by_cases hnew : findTerraformErrors output ≠ "" ∧
        findTerraformErrors output ∉ found.map Prod.fst
    · have hnd1 : ((found ++ [(findTerraformErrors output, podName)]).map Prod.fst).Nodup := by
        rw [List.map_append, List.nodup_append]
        refine ⟨hnd, by simp, ?_⟩
        intro x hx hx1
        simp only [List.map_cons, List.map_nil, List.mem_singleton] at hx1
        subst hx1
        exact hnew.2 hx
      obtain ⟨h1, h2, h3⟩ := ih _ hnd1
      have hstep : collectErrors found ((podName, output) :: rest) =
          collectErrors (found ++ [(findTerraformErrors output, podName)]) rest := by
        simp only [collectErrors]
        rw [if_pos hnew]
      rw [hstep]
      refine ⟨h1, ?_, ?_⟩
      · intro m
        rw [h2 m]
        simp only [List.map_append, List.map_cons, List.map_nil, List.mem_append,
          List.mem_singleton, List.mem_cons, List.not_mem_nil, or_false]
        constructor
        · rintro ((h | h) | ⟨hm, q, hq, hf⟩)
          · exact Or.inl h
          · subst h
            exact Or.inr ⟨hnew.1, (podName, output), Or.inl rfl, rfl⟩
          · exact Or.inr ⟨hm, q, Or.inr hq, hf⟩
        · rintro (h | ⟨hm, q, hq | hq, hf⟩)
          · exact Or.inl (Or.inl h)
          · subst hq
            exact Or.inl (Or.inr hf.symm)
          · exact Or.inr ⟨hm, q, hq, hf⟩
      · intro e he
        rcases h3 e he with h | ⟨q, hq, hf⟩
        · rcases List.mem_append.mp h with h | h
          · exact Or.inl h
          · rw [List.mem_singleton] at h
            subst h
            exact Or.inr ⟨(podName, output), List.mem_cons_self _ _, rfl, rfl⟩
        · exact Or.inr ⟨q, List.mem_cons_of_mem _ hq, hf⟩
    · obtain ⟨h1, h2, h3⟩ := ih found hnd
      have hstep : collectErrors found ((podName, output) :: rest) =
          collectErrors found rest := by
        simp only [collectErrors]
        rw [if_neg hnew]
      rw [hstep]
      refine ⟨h1, ?_, ?_⟩
      · intro m
        rw [h2 m]
        simp only [List.mem_cons]
        constructor
        · rintro (h | ⟨hm, q, hq, hf⟩)
          · exact Or.inl h
          · exact Or.inr ⟨hm, q, Or.inr hq, hf⟩
        · rintro (h | ⟨hm, q, hq | hq, hf⟩)
          · exact Or.inl h
          · subst hq
            simp only at hf
            subst hf
            by_contra hcon
            simp only [not_or] at hcon
            exact hnew ⟨hm, hcon.1⟩
          · exact Or.inr ⟨hm, q, hq, hf⟩
      · intro e he
        rcases h3 e he with h | ⟨q, hq, hf⟩
        · exact Or.inl h
        · exact Or.inr ⟨q, List.mem_cons_of_mem _ hq, hf⟩

/-- After `k` state queries that neither fail nor report `running`, the readiness loop is
where it would be had it been entered `k` turns later, in the world of query number `k`. -/
theorem readinessLoop_polls (env : Env σ) (a : AwsInstanceAttribute) (k : Nat) :
    ∀ (attemptCnt : Nat) (st : St σ), attemptCnt + k ≤ 60 →
      (∀ i < k, ∃ o, (env.operate "aws" (stateQueryCmd a) (pollWorld env a i st.world)).1 =
          Except.ok (o, none) ∧ trim o "\n" ≠ "running") →
      ∃ tr, readinessLoop env a attemptCnt st =
        readinessLoop env a (attemptCnt + k) ⟨pollWorld env a k st.world, tr⟩ := by
  induction k with
  | zero => intro attemptCnt st _ _; exact ⟨st.trace, rfl⟩
  | succ k ih =>
    intro attemptCnt st hle hpoll
    obtain ⟨o, ho, hne⟩ := hpoll 0 (by omega)
    have hop : env.operate "aws" (stateQueryCmd a) st.world =
        (Except.ok (o, none), (env.operate "aws" (stateQueryCmd a) st.world).2) :=
      Prod.ext ho rfl
    obtain ⟨tr, hrec⟩ := ih (attemptCnt + 1)
      ⟨env.sleep 2 (env.operate "aws" (stateQueryCmd a) st.world).2,
        st.trace ++ [Event.operate "aws" (stateQueryCmd a),
          Event.println ("Instance State: " ++ o), Event.sleep 2]⟩ (by omega)
      (fun i hi => hpoll (i + 1) (by omega))
    refine ⟨tr, ?_⟩
    have hlt : attemptCnt < 60 := by omega
    rw [readinessLoop]
    simp only [hlt, if_true, bind_apply, operate_ok env "aws" _ _ _ _ hop, next_ok,
      checkError_none, println_apply, hne, if_false, ite_prog_apply, sleep_apply,
      List.append_assoc, List.singleton_append, List.cons_append, List.nil_append]
    rw [hrec]
    simp [pollWorld, Nat.add_assoc, Nat.add_comm 1 k]

/-- The four commands of the set-up before the launch are no launch. -/
theorem setUp_commands_issue (vpc name privateIP groupID provider : String)
    (a : AwsInstanceAttribute) :
    (Event.operate provider (describeSecurityGroupsCmd vpc name)).issues
        "aws ec2 run-instances" = false ∧
      (Event.operate provider (describeImageCmd privateIP)).issues
        "aws ec2 run-instances" = false ∧
      (Event.operate provider (createSecurityGroupCmd a)).issues
        "aws ec2 run-instances" = false ∧
      (Event.operate provider (authorizeIngress groupID)).issues
        "aws ec2 run-instances" = false := by
  simp only [describeSecurityGroupsCmd, describeImageCmd, createSecurityGroupCmd,
    authorizeIngress, String.append_assoc]
  rw [issues_append _ _ _ _ (by decide), issues_append _ _ _ _ (by decide),
    issues_append _ _ _ _ (by decide), issues_append _ _ _ _ (by decide)]
  exact ⟨by decide, by decide, by decide, by decide⟩

theorem emits_getAwsInstanceIDForIPLoop (P : Event → Prop) (ip : String) (nodes : List Node) :
    Emits P (getAwsInstanceIDForIPLoop ip nodes : Prog σ String) := by
  induction nodes with
  | nil => exact emits_pure P _
  | cons node rest ih =>
    unfold getAwsInstanceIDForIPLoop
    cases node.addresses with
    | nil => exact emits_abortWith P _
    | cons address more =>
      simp only
      refine emits_ite P _ _ _ ?_ ih
      cases (split node.providerID '/').find? (fun v => hasPrefix v "i-") with
      | some v => exact emits_pure P _
      | none => exact ih

/-- `fetchAwsAttributes` issues no launch. -/
theorem fetchAwsAttributes_no_launch (env : Env σ) (a : AwsInstanceAttribute)
    (nodeIP path : String) :
    Emits (fun e => e.issues "aws ec2 run-instances" = false)
      (fetchAwsAttributes env a nodeIP path) := by
  have hlog : ∀ e : Event, e.isLog = true → e.issues "aws ec2 run-instances" = false :=
    fun e he => isLog_issues e _ he
  unfold fetchAwsAttributes
  refine emits_bind _ _ _ (emits_helperCall _ _ _ rfl) ?_
  intro name
  refine emits_bind _ _ _ ?_ ?_
  · unfold getAwsInstanceIDForIP
    refine emits_bind _ _ _ (emits_helperCall _ _ _ rfl) ?_
    intro t
    refine emits_bind _ _ _ (emits_checkError _ env _ hlog) ?_
    intro _
    refine emits_bind _ _ _ (emits_helperCall _ _ _ rfl) ?_
    intro err
    refine emits_bind _ _ _ (emits_checkError _ env _ hlog) ?_
    intro _
    refine emits_bind _ _ _ (emits_libCall _ _ _ rfl) ?_
    intro nodes
    refine emits_bind _ _ _ (emits_checkError _ env _ hlog) ?_
    intro _
    exact emits_getAwsInstanceIDForIPLoop _ _ _
  intro id
  have hexec : ∀ args, Emits (fun e => e.issues "aws ec2 run-instances" = false)
      (ExecCmdReturnOutput env "bash" args) := by
    intro args
    unfold ExecCmdReturnOutput
    refine emits_bind _ _ _ (emits_libCall _ _ _ rfl) ?_
    intro r
    exact emits_pure _ _
  refine emits_bind _ _ _ (hexec _) ?_
  intro terraformVersion
  refine emits_bind _ _ _ (emits_checkError _ env _ hlog) ?_
  intro _
  have hexit : Emits (fun e => e.issues "aws ec2 run-instances" = false)
      (do println "Handle version not being parsable."; osExit 2 :
        Prog σ AwsInstanceAttribute) := by
    refine emits_bind _ _ _ (emits_emit _ _ rfl) ?_
    intro _
    exact emits_abortWith _ _
  refine emits_ite _ _ _ _ hexit ?_
  refine emits_ite _ _ _ _ hexit ?_
  dsimp only
  refine emits_ite _ _ _ _ ?_ ?_
  all_goals
    refine emits_bind _ _ _ (hexec _) ?_
    intro subnetID
    refine emits_bind _ _ _ (emits_checkError _ env _ hlog) ?_
    intro _
    refine emits_bind _ _ _ (hexec _) ?_
    intro vpcID
    refine emits_bind _ _ _ (emits_checkError _ env _ hlog) ?_
    intro _
    refine emits_bind _ _ _ (emits_pure _ _) ?_
    intro a2
    refine emits_bind _ _ _ ?_ ?_
    · unfold getSecurityGroupID
      refine emits_bind _ _ _
        (emits_operate _ env _ _ (setUp_commands_issue _ _ "" "" "aws" a).1) ?_
      intro r
      refine emits_bind _ _ _ (emits_checkError _ env _ hlog) ?_
      intro _
      exact emits_pure _ _
    intro a3
    refine emits_bind _ _ _ ?_ ?_
    · unfold fetchAWSImageIDByInstancePrivateIP
      refine emits_bind _ _ _
        (emits_operate _ env _ _ (setUp_commands_issue "" "" nodeIP "" "aws" a).2.1) ?_
      intro r
      exact emits_ite _ _ _ _ (emits_pure _ _) (emits_pure _ _)
    intro image
    refine emits_bind _ _ _ (emits_checkError _ env _ hlog) ?_
    intro _
    refine emits_bind _ _ _ (emits_helperCall _ _ _ rfl) ?_
    intro userData
    exact emits_pure _ _

/-- `createBastionHostSecurityGroup` issues no launch. -/
theorem createBastionHostSecurityGroup_no_launch (env : Env σ) (a : AwsInstanceAttribute) :
    Emits (fun e => e.issues "aws ec2 run-instances" = false)
      (createBastionHostSecurityGroup env a) := by
  have hlog : ∀ e : Event, e.isLog = true → e.issues "aws ec2 run-instances" = false :=
    fun e he => isLog_issues e _ he
  unfold createBastionHostSecurityGroup
  refine emits_bind _ _ _ ?_ ?_
  · unfold getBastionSecurityGroupID
    refine emits_bind _ _ _
      (emits_operate _ env _ _ (setUp_commands_issue _ _ "" "" "aws" a).1) ?_
    intro r
    refine emits_bind _ _ _ (emits_checkError _ env _ hlog) ?_
    intro _
    exact emits_pure _ _
  intro a1
  refine emits_ite _ _ _ _ ?_ ?_
  · refine emits_bind _ _ _ (emits_emit _ _ rfl) ?_
    intro _
    exact emits_pure _ _
  · refine emits_bind _ _ _
      (emits_operate _ env _ _ (setUp_commands_issue "" "" "" "" "aws" a1).2.2.1) ?_
    intro r
    refine emits_bind _ _ _ (emits_checkError _ env _ hlog) ?_
    intro _
    refine emits_bind _ _ _
      (emits_operate _ env _ _ (setUp_commands_issue "" "" "" _ "aws" a1).2.2.2) ?_
    intro _
    refine emits_bind _ _ _ (emits_emit _ _ rfl) ?_
    intro _
    refine emits_bind _ _ _
      (emits_operate _ env _ _ (setUp_commands_issue "" "" "" _ "aws" a1).2.2.2) ?_
    intro r2
    refine emits_bind _ _ _ (emits_checkError _ env _ hlog) ?_
    intro _
    refine emits_bind _ _ _ (emits_emit _ _ rfl) ?_
    intro _
    exact emits_pure _ _

/-- A checked provider call that fails does not return. -/
theorem operate_checked_fail_returned {β : Type} (env : Env σ) (provider arguments : String)
    (w : σ) (tr : List Event) (k : String × Option GoError → Prog σ β)
    (hfail : ∀ o, (env.operate provider arguments w).1 ≠ Except.ok (o, none)) :
    ((operate env provider arguments ⟨w, tr⟩).next
      (fun r => checkError env r.2 >>= fun _ => k r)).returned = false := by
  obtain ⟨why, st1, logs, h, -, -⟩ := operate_checked_fail env provider arguments w tr k hfail
  rw [h]
  rfl

/-- When discovery misses, a failing call of `createBastionHostSecurityGroup` ends the
process: the creation or the authorization on the node group fails (the process is ended in
`operate` or an error is read back), or the authorization on the bastion group, whose outcome
is not captured, ends the process in `operate`. -/
theorem createBastionHostSecurityGroup_call_fails (env : Env σ) (a : AwsInstanceAttribute)
    (st : St σ) (w1 : σ)
    (hd : env.operate "aws" (describeSecurityGroupsCmd a.VpcID a.BastionSecurityGroupName)
      st.world = (Except.ok ("", none), w1))
    (hfail : (∀ o, (env.operate "aws" (createSecurityGroupCmd a) w1).1 ≠ Except.ok (o, none)) ∨
      ∃ out2 w2, env.operate "aws" (createSecurityGroupCmd a) w1 = (Except.ok (out2, none), w2) ∧
        ((∃ why, (env.operate "aws" (authorizeIngress (trim out2 "\n")) w2).1 =
            Except.error why) ∨
          ∃ r3 w3, env.operate "aws" (authorizeIngress (trim out2 "\n")) w2 =
              (Except.ok r3, w3) ∧
            ∀ o, (env.operate "aws" (authorizeIngress a.SecurityGroupID) w3).1 ≠
              Except.ok (o, none))) :
    (createBastionHostSecurityGroup env a st).returned = false := by
  rcases hfail with hc | ⟨out2, w2, hc, hrest⟩
  · have hc1 : ∀ o, (env.operate "aws"
        (createSecurityGroupCmd { a with BastionSecurityGroupID := "" }) w1).1 ≠
        Except.ok (o, none) := hc
    simp only [createBastionHostSecurityGroup, getBastionSecurityGroupID, bind_apply,
      operate_ok env "aws" _ _ _ _ hd, next_ok, checkError_none, pure_apply, ite_prog_apply,
      ne_eq, not_true_eq_false, if_false]
    exact operate_checked_fail_returned env "aws" _ w1 _ _ hc1
  · have hc1 : env.operate "aws"
        (createSecurityGroupCmd { a with BastionSecurityGroupID := "" }) w1 =
        (Except.ok (out2, none), w2) := hc
    rcases hrest with ⟨why, ha⟩ | ⟨r3, w3, ha, hn⟩
    · have ha1 : env.operate "aws" (authorizeIngress (trim out2 "\n")) w2 =
          (Except.error why, (env.operate "aws" (authorizeIngress (trim out2 "\n")) w2).2) :=
        Prod.ext ha rfl
      simp only [createBastionHostSecurityGroup, getBastionSecurityGroupID, bind_apply,
        operate_ok env "aws" _ _ _ _ hd, operate_ok env "aws" _ ⟨w1, _⟩ _ _ hc1,
        operate_error env "aws" _ ⟨w2, _⟩ _ _ ha1,
        next_ok, next_abort, checkError_none, pure_apply, ite_prog_apply, ne_eq,
        not_true_eq_false, if_false]
      rfl
    · have hn1 : ∀ o, (env.operate "aws" (authorizeIngress
          ({ a with BastionSecurityGroupID := trim out2 "\n" } :
            AwsInstanceAttribute).SecurityGroupID) w3).1 ≠ Except.ok (o, none) := hn
      simp only [createBastionHostSecurityGroup, getBastionSecurityGroupID, bind_apply,
        operate_ok env "aws" _ _ _ _ hd, operate_ok env "aws" _ ⟨w1, _⟩ _ _ hc1,
        operate_ok env "aws" _ ⟨w2, _⟩ _ _ ha, next_ok, checkError_none, pure_apply,
        ite_prog_apply, ne_eq, not_true_eq_false, if_false, println_apply]
      exact operate_checked_fail_returned env "aws" _ w3 _ _ hn1

/-- The words of a text that begins with a run of characters that are no white space,
followed by a white space. -/
theorem fields_append_space (xs rest : List Char) (sep : Char)
    (hxs : ∀ c ∈ xs, isSpace c = false) (hsep : isSpace sep = true) :
    fields (String.mk (xs ++ sep :: rest)) =
      (if xs.isEmpty then [] else [String.mk xs]) ++ fields (String.mk rest) := by
  unfold fields
  have h1 : ∀ x ∈ xs, ¬ isSpace x = true := fun x hx => by simp [hxs x hx]
  show List.map String.mk (List.filter (fun w => !w.isEmpty)
    (List.splitOnP isSpace (xs ++ sep :: rest))) = _
  rw [List.splitOnP_first isSpace xs h1 sep hsep rest]
  cases xs with
  | nil => simp
  | cons c cs => simp

/-- The words of the script `cat <path> <rest>` for a path without white space. -/
theorem fields_cat (path rest : String) (hne : path.data ≠ [])
    (hpath : ∀ c ∈ path.data, isSpace c = false) :
    fields ("cat " ++ path ++ " " ++ rest) = "cat" :: path :: fields rest := by
  have hdata : ("cat " ++ path ++ " " ++ rest).data =
      "cat".data ++ ' ' :: (path.data ++ ' ' :: rest.data) := by
    simp [String.data_append]
  have hmk : "cat " ++ path ++ " " ++ rest =
      String.mk ("cat".data ++ ' ' :: (path.data ++ ' ' :: rest.data)) := by
    rw [← hdata]
  rw [hmk, fields_append_space _ _ ' ' (by decide) (by decide),
    fields_append_space _ _ ' ' hpath (by decide)]
  have hemp : path.data.isEmpty = false := by
    cases h : path.data with
    | nil => exact absurd h hne
    | cons c cs => rfl
  simp [hemp]

/-- A character of a file name is no white space. -/
theorem isPathChar_not_space (c : Char) (h : isPathChar c = true) : isSpace c = false := by
  unfold isPathChar at h
  unfold isSpace
  simp only [Bool.or_eq_true, Bool.and_eq_true, decide_eq_true_eq, beq_iff_eq] at h
  simp only [Bool.or_eq_false_iff, Bool.and_eq_false_imp, decide_eq_true_eq,
    decide_eq_false_iff_not, beq_eq_false_iff_ne, ne_eq]
  omega

/-- What the pipeline prints for a file without white space in its name, with one or two
blanks before the bar, is what `jq` prints for the document of the file. -/
theorem pipelineOutput_cat (files : String → Option Json) (path filter : String) (doc : Json)
    (hfile : files path = some doc) (hne : path.data ≠ [])
    (hplain : path.data.all isPathChar = true)
    (hfilter : fields ("| jq -r " ++ filter) = ["|", "jq", "-r", filter]) :
    pipelineOutput files ("cat " ++ path ++ " | jq -r " ++ filter) = jqRaw filter doc ∧
      pipelineOutput files ("cat " ++ path ++ "  | jq -r " ++ filter) = jqRaw filter doc := by
  have h1 : "cat " ++ path ++ " | jq -r " ++ filter =
      "cat " ++ path ++ " " ++ ("| jq -r " ++ filter) := by
    simp only [String.append_assoc]
    rfl
  have h2 : "cat " ++ path ++ "  | jq -r " ++ filter =
      "cat " ++ path ++ " " ++ (" | jq -r " ++ filter) := by
    simp only [String.append_assoc]
    rfl
  have h3 : fields (" | jq -r " ++ filter) = fields ("| jq -r " ++ filter) := by
    have hmk : " | jq -r " ++ filter =
        String.mk (([] : List Char) ++ ' ' :: ("| jq -r " ++ filter).data) := by
      apply String.ext
      simp [String.data_append]
    rw [hmk, fields_append_space [] _ ' ' (by simp) (by decide)]
    rfl
  have hpath : ∀ c ∈ path.data, isSpace c = false := fun c hc =>
    isPathChar_not_space c (List.all_eq_true.mp hplain c hc)
  constructor
  · rw [h1]
    simp only [pipelineOutput, fields_cat path _ hne hpath, hfilter, hfile, hplain, if_true]
  · rw [h2]
    simp only [pipelineOutput, fields_cat path _ hne hpath, h3, hfilter, hfile, hplain,
      if_true]

theorem lookup_map_outputs (outputs : List (String × String)) (name : String) :
    (outputs.map (fun o => (o.1, outputObject o.2))).lookup name =
      (outputs.lookup name).map outputObject := by
  induction outputs with
  | nil => rfl
  | cons o os ih =>
    obtain ⟨n, v⟩ := o
    by_cases h : (name == n) = true
    · simp [List.lookup_cons, h]
    · simp [List.lookup_cons, h, ih]

/-- A `.key` step on one input. -/
theorem jqPath_field (key : String) (rest : List JqStep) (v out : Json)
    (h : v.field key = some out) :
    jqPath (JqStep.field key :: rest) [v] = jqPath rest [out] := by
  simp [jqPath, JqStep.applyAll, JqStep.apply, h]

/-- A `[]` step on one input. -/
theorem jqPath_iterate (rest : List JqStep) (v : Json) (outs : List Json)
    (h : v.iterate = some outs) :
    jqPath (JqStep.iterate :: rest) [v] = jqPath rest outs := by
  simp [jqPath, JqStep.applyAll, JqStep.apply, h]

/-- The value of an output that the outputs hold. -/
theorem outputs_value (outputs : List (String × String)) (name value : String)
    (h : outputValue outputs name = some value) :
    jqPath [JqStep.field name, JqStep.field "value"]
      [Json.obj (outputs.map (fun o => (o.1, outputObject o.2)))] = some [Json.str value] := by
  have hrev : (outputs.map (fun o => (o.1, outputObject o.2))).reverse =
      outputs.reverse.map (fun o => (o.1, outputObject o.2)) := by
    rw [List.map_reverse]
  have hlook : outputs.reverse.lookup name = some value := h
  rw [jqPath_field name _ _ (outputObject value)
    (by simp only [Json.field, hrev, lookup_map_outputs, hlook]; rfl),
    jqPath_field "value" _ _ (Json.str value) (by rfl)]
  rfl

/-- What `jq -r` prints for the three queries on a document in the flat layout. -/
theorem jqRaw_flatState (version : String) (outputs : List (String × String))
    (subnet vpc : String)
    (hs : outputValue outputs "subnet_public_utility_z0" = some subnet)
    (hp : outputValue outputs "vpc_id" = some vpc) :
    jqRaw ".terraform_version" (flatState version outputs) = some (version ++ "\n") ∧
      jqRaw ".outputs.subnet_public_utility_z0.value" (flatState version outputs) =
        some (subnet ++ "\n") ∧
      jqRaw ".outputs.vpc_id.value" (flatState version outputs) = some (vpc ++ "\n") := by
  have hparse1 : parseJqPath none ".terraform_version".data =
      some [JqStep.field "terraform_version"] := by decide
  have hparse2 : parseJqPath none ".outputs.subnet_public_utility_z0.value".data =
      some [JqStep.field "outputs", JqStep.field "subnet_public_utility_z0",
        JqStep.field "value"] := by decide
  have hparse3 : parseJqPath none ".outputs.vpc_id.value".data =
      some [JqStep.field "outputs", JqStep.field "vpc_id", JqStep.field "value"] := by decide
  have hver : (flatState version outputs).field "terraform_version" =
      some (Json.str version) := by rfl
  have hout : (flatState version outputs).field "outputs" =
      some (Json.obj (outputs.map (fun o => (o.1, outputObject o.2)))) := by rfl
  refine ⟨?_, ?_, ?_⟩
  · simp only [jqRaw, hparse1]
    rw [jqPath_field _ _ _ _ hver]
    simp [jqPath, rawLines, Json.raw]
  · simp only [jqRaw, hparse2]
    rw [jqPath_field _ _ _ _ hout, outputs_value _ _ _ hs]
    simp [rawLines, Json.raw]
  · simp only [jqRaw, hparse3]
    rw [jqPath_field _ _ _ _ hout, outputs_value _ _ _ hp]
    simp [rawLines, Json.raw]

/-- What `jq -r` prints for the three queries on a document in the legacy layout that has
one module. -/
theorem jqRaw_legacyState (version : String) (m : StateModule) (subnet vpc : String)
    (hs : outputValue m.outputs "subnet_public_utility_z0" = some subnet)
    (hp : outputValue m.outputs "vpc_id" = some vpc) :
    jqRaw ".terraform_version" (legacyState version [m]) = some (version ++ "\n") ∧
      jqRaw ".modules[].outputs.subnet_public_utility_z0.value" (legacyState version [m]) =
        some (subnet ++ "\n") ∧
      jqRaw ".modules[].outputs.vpc_id.value" (legacyState version [m]) =
        some (vpc ++ "\n") := by
  have hparse1 : parseJqPath none ".terraform_version".data =
      some [JqStep.field "terraform_version"] := by decide
  have hparse2 : parseJqPath none ".modules[].outputs.subnet_public_utility_z0.value".data =
      some [JqStep.field "modules", JqStep.iterate, JqStep.field "outputs",
        JqStep.field "subnet_public_utility_z0", JqStep.field "value"] := by decide
  have hparse3 : parseJqPath none ".modules[].outputs.vpc_id.value".data =
      some [JqStep.field "modules", JqStep.iterate, JqStep.field "outputs",
        JqStep.field "vpc_id", JqStep.field "value"] := by decide
  have hver : (legacyState version [m]).field "terraform_version" =
      some (Json.str version) := by rfl
  have hmod : (legacyState version [m]).field "modules" =
      some (Json.arr [Json.obj [("path", Json.arr (m.path.map Json.str)),
        ("outputs", Json.obj (m.outputs.map (fun o => (o.1, outputObject o.2)))),
        ("resources", Json.obj [])]]) := by rfl
  have hout : (Json.obj [("path", Json.arr (m.path.map Json.str)),
        ("outputs", Json.obj (m.outputs.map (fun o => (o.1, outputObject o.2)))),
        ("resources", Json.obj [])]).field "outputs" =
      some (Json.obj (m.outputs.map (fun o => (o.1, outputObject o.2)))) := by rfl
  refine ⟨?_, ?_, ?_⟩
  · simp only [jqRaw, hparse1]
    rw [jqPath_field _ _ _ _ hver]
    simp [jqPath, rawLines, Json.raw]
  · simp only [jqRaw, hparse2]
    rw [jqPath_field _ _ _ _ hmod, jqPath_iterate _ (Json.arr _) _ (by rfl),
      jqPath_field _ _ _ _ hout, outputs_value _ _ _ hs]
    simp [rawLines, Json.raw]
  · simp only [jqRaw, hparse3]
    rw [jqPath_field _ _ _ _ hmod, jqPath_iterate _ (Json.arr _) _ (by rfl),
      jqPath_field _ _ _ _ hout, outputs_value _ _ _ hp]
    simp [rawLines, Json.raw]

/-- In an environment that runs the pipelines over `files`, the three queries of
`fetchAwsAttributes` for one layout print what `jq` prints for the document of the file. -/
theorem prints_queries (env : Env σ) (files : String → Option Json) (path : String)
    (doc : Json) (layout version subnet vpc : String)
    (hrun : RunsPipelines env files) (hfile : files path = some doc)
    (hne : path.data ≠ []) (hpath : path.data.all isPathChar = true)
    (hf1 : fields ("| jq -r " ++ (layout ++ ".subnet_public_utility_z0.value")) =
      ["|", "jq", "-r", layout ++ ".subnet_public_utility_z0.value"])
    (hf2 : fields ("| jq -r " ++ (layout ++ ".vpc_id.value")) =
      ["|", "jq", "-r", layout ++ ".vpc_id.value"])
    (hv : jqRaw ".terraform_version" doc = some version)
    (hs : jqRaw (layout ++ ".subnet_public_utility_z0.value") doc = some subnet)
    (hp : jqRaw (layout ++ ".vpc_id.value") doc = some vpc) :
    Prints env ("cat " ++ path ++ "  | jq -r .terraform_version") version ∧
      Prints env
        ("cat " ++ path ++ " | jq -r " ++ layout ++ ".subnet_public_utility_z0.value")
        subnet ∧
      Prints env ("cat " ++ path ++ " | jq -r " ++ layout ++ ".vpc_id.value") vpc := by
  have h1 := (pipelineOutput_cat files path ".terraform_version" doc hfile hne hpath
    (by decide)).2
  have h2 := (pipelineOutput_cat files path (layout ++ ".subnet_public_utility_z0.value") doc
    hfile hne hpath hf1).1
  have h3 := (pipelineOutput_cat files path (layout ++ ".vpc_id.value") doc
    hfile hne hpath hf2).1
  rw [hv] at h1
  rw [hs] at h2
  rw [hp] at h3
  refine ⟨?_, ?_, ?_⟩
  · have e : "cat " ++ path ++ "  | jq -r .terraform_version" =
        "cat " ++ path ++ "  | jq -r " ++ ".terraform_version" := by
      simp only [String.append_assoc]
      rfl
    rw [e]
    exact hrun _ _ h1
  · have e : "cat " ++ path ++ " | jq -r " ++ layout ++ ".subnet_public_utility_z0.value" =
        "cat " ++ path ++ " | jq -r " ++ (layout ++ ".subnet_public_utility_z0.value") := by
      simp only [String.append_assoc]
    rw [e]
    exact hrun _ _ h2
  · have e : "cat " ++ path ++ " | jq -r " ++ layout ++ ".vpc_id.value" =
        "cat " ++ path ++ " | jq -r " ++ (layout ++ ".vpc_id.value") := by
      simp only [String.append_assoc]
    rw [e]
    exact hrun _ _ h3

end Lemmas

/-! ## The claims -/

/-- C1: for every cluster name `s` answered by `getShootClusterName`, whatever the record held
before, whatever the world (hence whatever the provider answers and whatever ran earlier), a
`fetchAwsAttributes` that returns leaves `BastionSecurityGroupName = s ++ "-bsg"` and
`BastionInstanceName = s ++ "-bastions"`. -/
theorem fetchAwsAttributes_deterministic_names (env : Env σ) (a a1 : AwsInstanceAttribute)
    (nodeIP path s : String) (st st1 : St σ)
    (hname : (env.getShootClusterName st.world).1 = Except.ok s)
    (h : fetchAwsAttributes env a nodeIP path st = Res.ok a1 st1) :
    a1.BastionSecurityGroupName = s ++ "-bsg" ∧ a1.BastionInstanceName = s ++ "-bastions" := by
  obtain ⟨s1, hs1, -, hb, hi⟩ := fetchAwsAttributes_eq_ok env a a1 nodeIP path st st1 h
  rw [hname] at hs1
  cases hs1
  exact ⟨hb, hi⟩

/-- C1 at the cluster `foo` of the simulated environment: the names are `foo-bsg` and
`foo-bastions`. -/
theorem fetchAwsAttributes_deterministic_names_witness :
    simRecord.BastionSecurityGroupName = "foo-bsg" ∧
      simRecord.BastionInstanceName = "foo-bastions" :=
  fetchAwsAttributes_deterministic_names simEnv
    { AwsInstanceAttribute.zero with SSHPublicKey := [1, 2, 3] } simRecord
    "10.250.0.7" "/tmp/tf.state" "foo" ⟨simWorld, []⟩ _ rfl rfl

/-- C2: when `createBastionHostInstance` has launched the bastion (discovery missed, the
temporary file was written, the launch answered `out`) and the state query number `k < 60`
is the first to report `running`, with the detail query answering `details`, the function
returns the record with `BastionIP` set to a value `ip` such that either the
whitespace-separated tokens of `details` are `pre ++ ip :: post` with `ip` accepted by `isIP`
and not beginning with `10.` and no token of `pre` qualifying, or no token qualifies and `ip`
is empty. -/
theorem createBastionHostInstance_first_public_ip (env : Env σ) (a : AwsInstanceAttribute)
    (st : St σ) (tmp out state details : String) (w1 w2 w3 w4 w5 w6 : σ) (k : Nat)
    (hd : env.operate "aws" (describeBastionCmd a) st.world = (Except.ok ("", none), w1))
    (ht : env.tempFile (env.tempDir w1) "gardener-user.sh" w1 = ((tmp, none), w2))
    (hw : env.write tmp a.UserData w2 = (none, w3))
    (hr : env.operate "aws" (runInstancesCmd a tmp) w3 = (Except.ok (out, none), w4))
    (hk : k < 60)
    (hpoll : ∀ i < k, ∃ o,
      (env.operate "aws"
        (stateQueryCmd (assignInstanceID { a with BastionInstanceID := "" } (fields out)))
        (pollWorld env (assignInstanceID { a with BastionInstanceID := "" } (fields out)) i
          w4)).1 = Except.ok (o, none) ∧ trim o "\n" ≠ "running")
    (hstate : env.operate "aws"
        (stateQueryCmd (assignInstanceID { a with BastionInstanceID := "" } (fields out)))
        (pollWorld env (assignInstanceID { a with BastionInstanceID := "" } (fields out)) k
          w4) = (Except.ok (state, none), w5))
    (hrun : trim state "\n" = "running")
    (hdetail : env.operate "aws"
        (detailQueryCmd (assignInstanceID { a with BastionInstanceID := "" } (fields out)))
        w5 = (Except.ok (details, none), w6)) :
    ∃ ip st1,
      createBastionHostInstance env a st =
        Res.ok { assignInstanceID { a with BastionInstanceID := "" } (fields out) with
          BastionIP := ip } st1 ∧
      ((∃ pre post, fields details = pre ++ ip :: post ∧
          (∀ t ∈ pre, (env.isIP t && !hasPrefix t "10.") = false) ∧
          env.isIP ip = true ∧ hasPrefix ip "10." = false) ∨
        (ip = "" ∧ ∀ t ∈ fields details, (env.isIP t && !hasPrefix t "10.") = false)) := by
  obtain ⟨tr, hloop⟩ := readinessLoop_polls env
    (assignInstanceID { a with BastionInstanceID := "" } (fields out)) k 0
    ⟨w4, st.trace ++ [Event.operate "aws" (describeBastionCmd a),
      Event.call "os.TempDir", Event.tempFile (env.tempDir w1) "gardener-user.sh",
      Event.write tmp a.UserData, Event.operate "aws" (runInstancesCmd a tmp),
      Event.println "Bastion host instance created.", Event.println ""]⟩ (by omega) hpoll
  have hreturn : ∃ st1, createBastionHostInstance env a st =
      Res.ok { assignInstanceID { a with BastionInstanceID := "" } (fields out) with
        BastionIP := selectIP env (fields details) } st1 := by
    rw [createBastionHostInstance_miss env a st tmp out w1 w2 w3 w4 hd ht hw hr, hloop,
      readinessLoop_running env _ (0 + k) ⟨_, tr⟩ state details w5 w6 (by omega) hstate hrun
        hdetail]
    exact ⟨_, rfl⟩
  obtain ⟨st1, hst1⟩ := hreturn
  exact ⟨selectIP env (fields details), st1, hst1, selectIP_first env (fields details)⟩

/-- C2 at the detail output with the tokens `10.0.1.5`, `203.0.113.9`, `i-0123`: the launched
bastion `i-0123` is reported running at the first query and `createBastionHostInstance`
returns with `BastionIP` set to `203.0.113.9`. -/
theorem createBastionHostInstance_first_public_ip_witness :
    fields "10.0.1.5 203.0.113.9 i-0123" = ["10.0.1.5", "203.0.113.9", "i-0123"] ∧
      (createBastionHostInstance runningEnv simRecord ⟨simWorld, []⟩).value? =
        some { simRecord with BastionInstanceID := "i-0123", BastionIP := "203.0.113.9" } := by
  refine ⟨by decide, ?_⟩
  obtain ⟨ip, st1, h, hip⟩ :=
    createBastionHostInstance_first_public_ip runningEnv simRecord ⟨simWorld, []⟩
      "/tmp/gardener-user.sh1" "i-0123" "running\n" "10.0.1.5 203.0.113.9 i-0123"
      simWorld simWorld simWorld simWorld simWorld simWorld 0 rfl rfl rfl rfl (by decide)
      (fun i hi => absurd hi (Nat.not_lt_zero i)) rfl (by decide) rfl
  have hfields :
      fields "10.0.1.5 203.0.113.9 i-0123" = ["10.0.1.5", "203.0.113.9", "i-0123"] := by
    decide
  rw [hfields] at hip
  have h203 : (runningEnv.isIP "203.0.113.9" && !hasPrefix "203.0.113.9" "10.") = true := by
    decide
  have hval : ip = "203.0.113.9" := by
    rcases hip with ⟨pre, post, hsplit, hpre, hok, hten⟩ | ⟨-, hnone⟩
    · match pre, hsplit, hpre with
      | [], hsplit, _ =>
        simp only [List.nil_append, List.cons.injEq] at hsplit
        rw [← hsplit.1] at hten
        exact absurd hten (by decide)
      | [_], hsplit, _ =>
        simp only [List.cons_append, List.nil_append, List.cons.injEq] at hsplit
        exact hsplit.2.1.symm
      | p :: q :: rest, hsplit, hpre =>
        simp only [List.cons_append, List.cons.injEq] at hsplit
        have hq := hpre q (by simp)
        rw [← hsplit.2.1, h203] at hq
        exact absurd hq (by decide)
    · have := hnone "203.0.113.9" (by simp)
      rw [h203] at this
      exact absurd this (by decide)
  subst hval
  rw [h]
  rfl

/-- C3 (the code departs from the claim): against the simulated provider, which answers
discovery by filtering the running instances on the requested `tag:Name` value, two calls of
`createBastionHostInstance` in sequence issue two `run-instances` calls and leave two running
instances tagged `foo-bastions`: discovery asks for the tag `foo-bsg`. -/
theorem createBastionHostInstance_twice_launches_twice :
    ((newEvents ⟨simWorld, []⟩ simTwice).filter
        (Event.issues "aws ec2 run-instances")).length = 2 ∧
      simTwice.state.world.instances.map (fun i => (i.nameTag, i.state)) =
        [("foo-bastions", "running"), ("foo-bastions", "running")] := by
  simp only [simTwice, createBastionHostInstance, createBastionHostInstanceBody,
    readinessLoop_eq_turns]
  decide!

/-- C4 (the code departs from the claim): in the simulated world where discovery finds the
running instance `i-0123`, whose details hold the public address `203.0.113.9`,
`createBastionHostInstance` returns normally with `BastionInstanceID = "i-0123"` and
`BastionIP` still empty. -/
theorem createBastionHostInstance_reuse_leaves_ip_empty :
    (createBastionHostInstance simEnv simRecord ⟨simReuseWorld, []⟩).value? =
        some { simRecord with BastionInstanceID := "i-0123" } ∧
      (createBastionHostInstance simEnv simRecord ⟨simReuseWorld, []⟩).value?.map
        (fun a => a.BastionIP) = some "" ∧
      selectIP simEnv (fields (simOperate
        (detailQueryCmd { simRecord with BastionInstanceID := "i-0123" }) simReuseWorld).1) =
        "203.0.113.9" := by
  decide

/-- C5 (the code departs from the claim): when the interactive session of the simulated
workflow ends with a non-zero status, `sshToAWSNode` ends the process with status 1 after the
bastion was launched, and no `terminate-instances`, `revoke-security-group-ingress` or
`delete-security-group` call is issued: the bastion and its group stay. -/
theorem sshToAWSNode_failed_session_skips_teardown :
    simFailedSession.abort? = some (Abort.exit 1) ∧
      simFailedSession.state.trace.any (Event.issues "aws ec2 run-instances") = true ∧
      simFailedSession.state.trace.all (fun e =>
        !e.issues "aws ec2 terminate-instances" &&
        !e.issues "aws ec2 revoke-security-group-ingress" &&
        !e.issues "aws ec2 delete-security-group") = true ∧
      simFailedSession.state.world.instances.map (fun i => i.id) = ["i-7"] ∧
      simFailedSession.state.world.groups.map (fun g => g.1) = ["foo-nodes", "foo-bsg"] := by
  simp only [simFailedSession, sshToAWSNode, createBastionHostInstance,
    createBastionHostInstanceBody, readinessLoop_eq_turns]
  decide!

/-- C6 as stated fails: in the simulated world where the bastion security group exists,
`createBastionHostSecurityGroup` returns without issuing the authorization on the node
security group. -/
theorem createBastionHostSecurityGroup_found_no_node_ingress :
    (createBastionHostSecurityGroup simEnv simRecord ⟨simGroupWorld, []⟩).returned = true ∧
      Event.operate "aws" (authorizeIngress simRecord.SecurityGroupID) ∉
        (createBastionHostSecurityGroup simEnv simRecord ⟨simGroupWorld, []⟩).state.trace := by
  decide

/-- C6, amended: when every provider call succeeds, `createBastionHostSecurityGroup` issues the
authorization of TCP/22 from `0.0.0.0/0` on the node security group if discovery answers the
empty string (the bastion group is created), and issues no
`authorize-security-group-ingress` call at all if discovery answers a non-empty text (the
group is found). -/
theorem createBastionHostSecurityGroup_node_ingress_on_creation (env : Env σ)
    (a : AwsInstanceAttribute) (st : St σ) (out : String) (w1 : σ)
    (hok : ∀ arguments w, ∃ o w2, env.operate "aws" arguments w = (Except.ok (o, none), w2))
    (hd : env.operate "aws" (describeSecurityGroupsCmd a.VpcID a.BastionSecurityGroupName)
      st.world = (Except.ok (out, none), w1)) :
    (out = "" → Event.operate "aws" (authorizeIngress a.SecurityGroupID) ∈
        newEvents st (createBastionHostSecurityGroup env a st)) ∧
      (out ≠ "" → ∀ e ∈ newEvents st (createBastionHostSecurityGroup env a st),
        e.issues "aws ec2 authorize-security-group-ingress" = false) := by
  constructor
  · intro hout
    subst hout
    obtain ⟨out2, w2, hc⟩ := hok (createSecurityGroupCmd a) w1
    obtain ⟨o3, w3, ha⟩ := hok (authorizeIngress (trim out2 "\n")) w2
    obtain ⟨new, hnew⟩ :=
      createBastionHostSecurityGroup_created env a st out2 (o3, none) w1 w2 w3 hd hc ha
    rw [newEvents_eq st _ _ hnew]
    simp
  · intro hne e he
    refine (createBastionHostSecurityGroup_no_creation env a st ?_ e he).2
    rw [hd]
    intro h
    injection h with h
    injection h with h
    exact hne h

/-- C6, amended, in the simulated environment started without a bastion group: the group is
created and the node group `sg-nodes` is opened. -/
theorem createBastionHostSecurityGroup_node_ingress_on_creation_witness :
    Event.operate "aws" (authorizeIngress "sg-nodes") ∈
      newEvents ⟨simWorld, []⟩
        (createBastionHostSecurityGroup simEnv simRecord ⟨simWorld, []⟩) :=
  (createBastionHostSecurityGroup_node_ingress_on_creation simEnv simRecord ⟨simWorld, []⟩ ""
    simWorld (fun _ _ => ⟨_, _, rfl⟩) rfl).1 rfl

/-- C7: against every provider that answers each state query without error and never with
`running`, the readiness loop of `createBastionHostInstance`, entered with the counter at 0,
ends with the counter at 60, and what it issued, apart from the progress lines, is exactly 60
times the state query followed by a sleep of 2 seconds. -/
theorem readinessLoop_sixty_state_queries (env : Env σ) (a : AwsInstanceAttribute)
    (st : St σ)
    (hquery : ∀ w, ∃ out w1,
      env.operate "aws" (stateQueryCmd a) w = (Except.ok (out, none), w1) ∧
        trim out "\n" ≠ "running") :
    ∃ st1 new, readinessLoop env a 0 st = Res.ok (LoopExit.done 60) st1 ∧
      st1.trace = st.trace ++ new ∧
      new.filter (fun e => !e.isPrintln) =
        (List.replicate 60 [Event.operate "aws" (stateQueryCmd a), Event.sleep 2]).flatten := by
  obtain ⟨st1, h, new, htr, hnew⟩ := readinessLoop_never_running env a hquery 60 0 st rfl
  exact ⟨st1, new, h, htr, hnew⟩

/-- C7 at the provider that always answers `pending`, for the launched instance `i-7`. -/
theorem readinessLoop_sixty_state_queries_witness :
    ∃ st1 new,
      readinessLoop pendingEnv { simRecord with BastionInstanceID := "i-7" } 0 ⟨simWorld, []⟩ =
        Res.ok (LoopExit.done 60) st1 ∧
      st1.trace = [] ++ new ∧
      new.filter (fun e => !e.isPrintln) =
        (List.replicate 60
          [Event.operate "aws" (stateQueryCmd { simRecord with BastionInstanceID := "i-7" }),
            Event.sleep 2]).flatten :=
  readinessLoop_sixty_state_queries pendingEnv { simRecord with BastionInstanceID := "i-7" }
    ⟨simWorld, []⟩ (fun w => ⟨"pending\n", w, rfl, by decide⟩)

/-- C8 (the code departs from the claim): against the provider that never reports `running`,
`createBastionHostInstance` returns normally to its caller, with the launched identifier and
an empty `BastionIP`: the check of line 276 compares the counter, which the loop leaves at 60,
with 90. -/
theorem createBastionHostInstance_timeout_returns :
    ∃ st1, createBastionHostInstance pendingEnv simRecord ⟨simWorld, []⟩ =
      Res.ok { simRecord with BastionInstanceID := "i-7" } st1 :=
  createBastionHostInstance_never_running pendingEnv simRecord ⟨simWorld, []⟩
    "/tmp/gardener-user.sh1" "i-7" simWorld simWorld simWorld simWorld rfl rfl rfl rfl
    (fun w => ⟨"pending\n", w, rfl, by decide⟩)

/-- C9: when the discovery of `createBastionHostSecurityGroup` answers a non-empty text
(without error), the function returns after the discovery query and a progress line, with
`BastionSecurityGroupID` the text answered; and whenever a `create-security-group` call is
among the calls issued, discovery had answered the empty string without error. -/
theorem createBastionHostSecurityGroup_found_skips_creation (env : Env σ)
    (a : AwsInstanceAttribute) (st : St σ) :
    (∀ out w1,
      env.operate "aws" (describeSecurityGroupsCmd a.VpcID a.BastionSecurityGroupName)
        st.world = (Except.ok (out, none), w1) →
      out ≠ "" →
      createBastionHostSecurityGroup env a st =
        Res.ok { a with BastionSecurityGroupID := out }
          ⟨w1, st.trace ++
            [Event.operate "aws"
              (describeSecurityGroupsCmd a.VpcID a.BastionSecurityGroupName),
              Event.println "Security Group exists, skipping creation."]⟩) ∧
      ((∃ e ∈ newEvents st (createBastionHostSecurityGroup env a st),
          e.issues "aws ec2 create-security-group" = true) →
        (env.operate "aws" (describeSecurityGroupsCmd a.VpcID a.BastionSecurityGroupName)
          st.world).1 = Except.ok ("", none)) := by
  refine ⟨fun out w1 hd hne => createBastionHostSecurityGroup_found env a st out w1 hd hne, ?_⟩
  rintro ⟨e, he, hissue⟩
  by_contra hd
  rw [(createBastionHostSecurityGroup_no_creation env a st hd e he).1] at hissue
  exact absurd hissue (by decide)

/-- C9 in the simulated environment: with the group `foo-bsg` present it is reused as
`sg-foo-bsg` and nothing is created; started without it, the creation is issued and
discovery had answered the empty string. -/
theorem createBastionHostSecurityGroup_found_skips_creation_witness :
    createBastionHostSecurityGroup simEnv simRecord ⟨simGroupWorld, []⟩ =
        Res.ok { simRecord with BastionSecurityGroupID := "sg-foo-bsg" }
          ⟨simGroupWorld,
            [Event.operate "aws" (describeSecurityGroupsCmd "vpc-1" "foo-bsg"),
              Event.println "Security Group exists, skipping creation."]⟩ ∧
      (simEnv.operate "aws" (describeSecurityGroupsCmd "vpc-1" "foo-bsg") simWorld).1 =
        Except.ok ("", none) :=
  ⟨(createBastionHostSecurityGroup_found_skips_creation simEnv simRecord
      ⟨simGroupWorld, []⟩).1 "sg-foo-bsg" simGroupWorld rfl (by decide),
    (createBastionHostSecurityGroup_found_skips_creation simEnv simRecord ⟨simWorld, []⟩).2
      ⟨Event.operate "aws" (createSecurityGroupCmd simRecord), by decide, by decide⟩⟩

/-- C10: when the discovery of `createBastionHostInstance` answers a non-empty text, none of
the calls issued is a `run-instances` call or the creation of a temporary file; and, the
answer being read back without error, the function returns with `BastionInstanceID` the
text answered, after the discovery query and a progress line only. -/
theorem createBastionHostInstance_found_skips_launch (env : Env σ)
    (a : AwsInstanceAttribute) (st : St σ) (out : String) (err : Option GoError) (w1 : σ)
    (hd : env.operate "aws" (describeBastionCmd a) st.world = (Except.ok (out, err), w1))
    (hne : out ≠ "") :
    (∀ e ∈ newEvents st (createBastionHostInstance env a st),
        e.issues "aws ec2 run-instances" = false ∧ e.isTempFile = false) ∧
      (err = none →
        createBastionHostInstance env a st =
          Res.ok { a with BastionInstanceID := out }
            ⟨w1, st.trace ++ [Event.operate "aws" (describeBastionCmd a),
              Event.println "Bastion Host exists, skipping creation."]⟩) := by
  refine ⟨createBastionHostInstance_no_launch env a st out err w1 hd hne, ?_⟩
  intro herr
  subst herr
  exact createBastionHostInstance_found env a st out w1 hd hne

/-- C10 in the simulated world where discovery finds `i-0123`. -/
theorem createBastionHostInstance_found_skips_launch_witness :
    createBastionHostInstance simEnv simRecord ⟨simReuseWorld, []⟩ =
      Res.ok { simRecord with BastionInstanceID := "i-0123" }
        ⟨simReuseWorld, [Event.operate "aws" (describeBastionCmd simRecord),
          Event.println "Bastion Host exists, skipping creation."]⟩ :=
  (createBastionHostInstance_found_skips_launch simEnv simRecord ⟨simReuseWorld, []⟩ "i-0123"
    none simReuseWorld rfl (by decide)).2 rfl

/-- C11: when every provider call succeeds, `cleanupAwsBastionHost` returns, and what it
issued, apart from the progress lines, is exactly: `terminate-instances` for
`BastionInstanceID`, `revoke-security-group-ingress` of TCP/22 from `0.0.0.0/0` on
`SecurityGroupID`, a sleep of 45 seconds, `delete-security-group` for
`BastionSecurityGroupID`, in this order. -/
theorem cleanupAwsBastionHost_three_calls_in_order (env : Env σ) (a : AwsInstanceAttribute)
    (st : St σ)
    (hok : ∀ arguments w, ∃ o w1, env.operate "aws" arguments w = (Except.ok (o, none), w1)) :
    (cleanupAwsBastionHost env a st).returned = true ∧
      (newEvents st (cleanupAwsBastionHost env a st)).filter (fun e => !e.isPrintln) =
        [Event.operate "aws" (terminateInstancesCmd a),
          Event.operate "aws" (revokeIngressCmd a), Event.sleep 45,
          Event.operate "aws" (deleteSecurityGroupCmd a)] := by
  obtain ⟨o1, w1, hT⟩ := hok (terminateInstancesCmd a) st.world
  obtain ⟨o2, w2, hR⟩ := hok (revokeIngressCmd a) w1
  obtain ⟨o3, w3, hD⟩ := hok (deleteSecurityGroupCmd a) (env.sleep 45 w2)
  rw [cleanupAwsBastionHost_ok env a st o1 o2 o3 w1 w2 w3 hT hR hD]
  refine ⟨rfl, ?_⟩
  rw [newEvents_ok]
  rfl

/-- C11 for the bastion `i-7` of the simulated environment. -/
theorem cleanupAwsBastionHost_three_calls_in_order_witness :
    (cleanupAwsBastionHost simEnv simBastionRecord ⟨simSetUpWorld, []⟩).returned = true ∧
      (newEvents ⟨simSetUpWorld, []⟩
          (cleanupAwsBastionHost simEnv simBastionRecord ⟨simSetUpWorld, []⟩)).filter
          (fun e => !e.isPrintln) =
        [Event.operate "aws" "aws ec2 terminate-instances --instance-ids i-7",
          Event.operate "aws" ("aws ec2 revoke-security-group-ingress --group-id sg-nodes" ++
            " --protocol tcp --port 22 --cidr 0.0.0.0/0"),
          Event.sleep 45,
          Event.operate "aws" "aws ec2 delete-security-group --group-id sg-foo-bsg"] :=
  cleanupAwsBastionHost_three_calls_in_order simEnv simBastionRecord ⟨simSetUpWorld, []⟩
    (fun _ _ => ⟨_, _, rfl⟩)

/-- C12 as stated fails: for the record with every identifier empty,
`cleanupAwsBastionHost` issues the three calls all the same, each with an empty identifier. -/
theorem cleanupAwsBastionHost_empty_identifiers_not_skipped :
    (newEvents ⟨simWorld, []⟩
        (cleanupAwsBastionHost simEnv AwsInstanceAttribute.zero ⟨simWorld, []⟩)).filter
        (fun e => !e.isPrintln) =
      [Event.operate "aws" "aws ec2 terminate-instances --instance-ids ",
        Event.operate "aws" ("aws ec2 revoke-security-group-ingress --group-id " ++
          " --protocol tcp --port 22 --cidr 0.0.0.0/0"),
        Event.sleep 45,
        Event.operate "aws" "aws ec2 delete-security-group --group-id "] := by
  decide

/-- C12, amended: `cleanupAwsBastionHost` skips no step on account of its identifier, empty
or not: the `terminate-instances` call is always issued with `BastionInstanceID` as it
stands; when it succeeds the revocation is issued with `SecurityGroupID` as it stands; and
when that succeeds too the `delete-security-group` call is issued with
`BastionSecurityGroupID` as it stands. -/
theorem cleanupAwsBastionHost_skips_no_step (env : Env σ) (a : AwsInstanceAttribute)
    (st : St σ) :
    Event.operate "aws" (terminateInstancesCmd a) ∈
        newEvents st (cleanupAwsBastionHost env a st) ∧
      (∀ o1 w1,
        env.operate "aws" (terminateInstancesCmd a) st.world = (Except.ok (o1, none), w1) →
        Event.operate "aws" (revokeIngressCmd a) ∈
            newEvents st (cleanupAwsBastionHost env a st) ∧
          ∀ o2 w2,
            env.operate "aws" (revokeIngressCmd a) w1 = (Except.ok (o2, none), w2) →
            Event.operate "aws" (deleteSecurityGroupCmd a) ∈
              newEvents st (cleanupAwsBastionHost env a st)) := by
  have hdel : ∀ o1 w1 o2 w2,
      env.operate "aws" (terminateInstancesCmd a) st.world = (Except.ok (o1, none), w1) →
      env.operate "aws" (revokeIngressCmd a) w1 = (Except.ok (o2, none), w2) →
      Event.operate "aws" (terminateInstancesCmd a) ∈
          newEvents st (cleanupAwsBastionHost env a st) ∧
        Event.operate "aws" (revokeIngressCmd a) ∈
          newEvents st (cleanupAwsBastionHost env a st) ∧
        Event.operate "aws" (deleteSecurityGroupCmd a) ∈
          newEvents st (cleanupAwsBastionHost env a st) := by
    intro o1 w1 o2 w2 hT hR
    rcases operate_outcome env "aws" (deleteSecurityGroupCmd a) (env.sleep 45 w2) with
      ⟨o3, w3, hD⟩ | hD
    · rw [cleanupAwsBastionHost_ok env a st o1 o2 o3 w1 w2 w3 hT hR hD, newEvents_ok]
      simp
    · obtain ⟨logs, h, -, -⟩ :=
        cleanupAwsBastionHost_delete_fails env a st o1 o2 w1 w2 hT hR hD
      rw [h]
      simp
  have hrev : ∀ o1 w1,
      env.operate "aws" (terminateInstancesCmd a) st.world = (Except.ok (o1, none), w1) →
      Event.operate "aws" (terminateInstancesCmd a) ∈
          newEvents st (cleanupAwsBastionHost env a st) ∧
        Event.operate "aws" (revokeIngressCmd a) ∈
          newEvents st (cleanupAwsBastionHost env a st) := by
    intro o1 w1 hT
    rcases operate_outcome env "aws" (revokeIngressCmd a) w1 with ⟨o2, w2, hR⟩ | hR
    · exact ⟨(hdel o1 w1 o2 w2 hT hR).1, (hdel o1 w1 o2 w2 hT hR).2.1⟩
    · obtain ⟨logs, h, -, -⟩ := cleanupAwsBastionHost_revoke_fails env a st o1 w1 hT hR
      rw [h]
      simp
  refine ⟨?_, fun o1 w1 hT =>
    ⟨(hrev o1 w1 hT).2, fun o2 w2 hR => (hdel o1 w1 o2 w2 hT hR).2.2⟩⟩
  rcases operate_outcome env "aws" (terminateInstancesCmd a) st.world with ⟨o1, w1, hT⟩ | hT
  · exact (hrev o1 w1 hT).1
  · obtain ⟨logs, h, -, -⟩ := cleanupAwsBastionHost_terminate_fails env a st hT
    rw [h]
    simp

/-- C12, amended, for the record with every identifier empty in the simulated environment:
the three calls are issued. -/
theorem cleanupAwsBastionHost_skips_no_step_witness :
    Event.operate "aws" "aws ec2 terminate-instances --instance-ids " ∈
        newEvents ⟨simWorld, []⟩
          (cleanupAwsBastionHost simEnv AwsInstanceAttribute.zero ⟨simWorld, []⟩) ∧
      Event.operate "aws" (revokeIngressCmd AwsInstanceAttribute.zero) ∈
        newEvents ⟨simWorld, []⟩
          (cleanupAwsBastionHost simEnv AwsInstanceAttribute.zero ⟨simWorld, []⟩) ∧
      Event.operate "aws" "aws ec2 delete-security-group --group-id " ∈
        newEvents ⟨simWorld, []⟩
          (cleanupAwsBastionHost simEnv AwsInstanceAttribute.zero ⟨simWorld, []⟩) :=
  ⟨(cleanupAwsBastionHost_skips_no_step simEnv AwsInstanceAttribute.zero ⟨simWorld, []⟩).1,
    ((cleanupAwsBastionHost_skips_no_step simEnv AwsInstanceAttribute.zero ⟨simWorld, []⟩).2
      "" simWorld rfl).1,
    ((cleanupAwsBastionHost_skips_no_step simEnv AwsInstanceAttribute.zero ⟨simWorld, []⟩).2
      "" simWorld rfl).2 "" simWorld rfl⟩

/-- C13: when the termination and the revocation succeed and the deletion of the bastion
security group fails, what `cleanupAwsBastionHost` issued, apart from progress and log
lines, is the `terminate-instances` call, the `revoke-security-group-ingress` call, the sleep
of 45 seconds and the failing `delete-security-group` call: both earlier steps were issued,
the deletion being the last one. -/
theorem cleanupAwsBastionHost_delete_failure_after_other_steps (env : Env σ)
    (a : AwsInstanceAttribute) (st : St σ) (o1 o2 : String) (w1 w2 : σ)
    (hT : env.operate "aws" (terminateInstancesCmd a) st.world = (Except.ok (o1, none), w1))
    (hR : env.operate "aws" (revokeIngressCmd a) w1 = (Except.ok (o2, none), w2))
    (hD : ∀ o, (env.operate "aws" (deleteSecurityGroupCmd a) (env.sleep 45 w2)).1 ≠
      Except.ok (o, none)) :
    (newEvents st (cleanupAwsBastionHost env a st)).filter
        (fun e => !e.isPrintln && !e.isLog) =
      [Event.operate "aws" (terminateInstancesCmd a),
        Event.operate "aws" (revokeIngressCmd a), Event.sleep 45,
        Event.operate "aws" (deleteSecurityGroupCmd a)] := by
  obtain ⟨logs, h, hl, -⟩ := cleanupAwsBastionHost_delete_fails env a st o1 o2 w1 w2 hT hR hD
  have hlogs : logs.filter (fun e => !e.isPrintln && !e.isLog) = [] :=
    filter_logs _ logs (fun ev hev => by simp [hev]) hl
  have hlast : (Event.operate "aws" (deleteSecurityGroupCmd a) :: logs).filter
      (fun e => !e.isPrintln && !e.isLog) =
      [Event.operate "aws" (deleteSecurityGroupCmd a)] := by
    rw [List.filter_cons_of_pos (by rfl), hlogs]
  rw [h, List.filter_append, hlast]
  rfl

/-- C13 in the simulated environment where the deletion of a group fails. -/
theorem cleanupAwsBastionHost_delete_failure_after_other_steps_witness :
    (newEvents ⟨simSetUpWorld, []⟩
        (cleanupAwsBastionHost (failingEnv "aws ec2 delete-security-group" exitStatus)
          simBastionRecord ⟨simSetUpWorld, []⟩)).filter
        (fun e => !e.isPrintln && !e.isLog) =
      [Event.operate "aws" "aws ec2 terminate-instances --instance-ids i-7",
        Event.operate "aws" ("aws ec2 revoke-security-group-ingress --group-id sg-nodes" ++
          " --protocol tcp --port 22 --cidr 0.0.0.0/0"),
        Event.sleep 45,
        Event.operate "aws" "aws ec2 delete-security-group --group-id sg-foo-bsg"] :=
  cleanupAwsBastionHost_delete_failure_after_other_steps
    (failingEnv "aws ec2 delete-security-group" exitStatus) simBastionRecord
    ⟨simSetUpWorld, []⟩ "" "" { simSetUpWorld with instances := [] }
    { simSetUpWorld with instances := [] } rfl rfl (fun o h => by cases h)

/-- C14: in `cleanupAwsBastionHost` a failing step, whether the helper ends the process or an
error is read back, ends the process: if the `terminate-instances` call fails, no
`revoke-security-group-ingress` and no `delete-security-group` call is issued; if it succeeds
and the revocation fails, no `delete-security-group` call is issued. -/
theorem cleanupAwsBastionHost_failure_is_fatal (env : Env σ) (a : AwsInstanceAttribute)
    (st : St σ) :
    ((∀ o, (env.operate "aws" (terminateInstancesCmd a) st.world).1 ≠ Except.ok (o, none)) →
        (cleanupAwsBastionHost env a st).returned = false ∧
          ∀ e ∈ newEvents st (cleanupAwsBastionHost env a st),
            e.issues "aws ec2 revoke-security-group-ingress" = false ∧
              e.issues "aws ec2 delete-security-group" = false) ∧
      (∀ o1 w1,
        env.operate "aws" (terminateInstancesCmd a) st.world = (Except.ok (o1, none), w1) →
        (∀ o, (env.operate "aws" (revokeIngressCmd a) w1).1 ≠ Except.ok (o, none)) →
        (cleanupAwsBastionHost env a st).returned = false ∧
          ∀ e ∈ newEvents st (cleanupAwsBastionHost env a st),
            e.issues "aws ec2 delete-security-group" = false) := by
  obtain ⟨hTR, hTD, hRD⟩ := cleanup_commands_issue a "aws"
  constructor
  · intro hT
    obtain ⟨logs, h, hl, hret⟩ := cleanupAwsBastionHost_terminate_fails env a st hT
    refine ⟨hret, ?_⟩
    rw [h]
    intro e he
    simp only [List.mem_append, List.mem_cons, List.mem_singleton, List.not_mem_nil,
      or_false] at he
    rcases he with (rfl | rfl | rfl | rfl | rfl) | rfl | he
    all_goals first
      | exact ⟨rfl, rfl⟩
      | exact ⟨hTR, hTD⟩
      | exact ⟨isLog_issues e _ (hl e he), isLog_issues e _ (hl e he)⟩
  · intro o1 w1 hT hR
    obtain ⟨logs, h, hl, hret⟩ := cleanupAwsBastionHost_revoke_fails env a st o1 w1 hT hR
    refine ⟨hret, ?_⟩
    rw [h]
    intro e he
    simp only [List.mem_append, List.mem_cons, List.mem_singleton, List.not_mem_nil,
      or_false] at he
    rcases he with (rfl | rfl | rfl | rfl | rfl | rfl | rfl | rfl) | rfl | he
    all_goals first
      | rfl
      | exact hTD
      | exact hRD
      | exact isLog_issues e _ (hl e he)

/-- C14 in the simulated environment: with a failing termination the process ends without a
revocation or a deletion, and with a failing revocation it ends without a deletion. -/
theorem cleanupAwsBastionHost_failure_is_fatal_witness :
    ((cleanupAwsBastionHost (failingEnv "aws ec2 terminate-instances" exitStatus)
          simBastionRecord ⟨simSetUpWorld, []⟩).returned = false ∧
        ∀ e ∈ newEvents ⟨simSetUpWorld, []⟩
            (cleanupAwsBastionHost (failingEnv "aws ec2 terminate-instances" exitStatus)
              simBastionRecord ⟨simSetUpWorld, []⟩),
          e.issues "aws ec2 revoke-security-group-ingress" = false ∧
            e.issues "aws ec2 delete-security-group" = false) ∧
      ((cleanupAwsBastionHost (failingEnv "aws ec2 revoke-security-group-ingress" exitStatus)
          simBastionRecord ⟨simSetUpWorld, []⟩).returned = false ∧
        ∀ e ∈ newEvents ⟨simSetUpWorld, []⟩
            (cleanupAwsBastionHost
              (failingEnv "aws ec2 revoke-security-group-ingress" exitStatus)
              simBastionRecord ⟨simSetUpWorld, []⟩),
          e.issues "aws ec2 delete-security-group" = false) :=
  ⟨(cleanupAwsBastionHost_failure_is_fatal
      (failingEnv "aws ec2 terminate-instances" exitStatus) simBastionRecord
      ⟨simSetUpWorld, []⟩).1 (fun o h => by cases h),
    (cleanupAwsBastionHost_failure_is_fatal
      (failingEnv "aws ec2 revoke-security-group-ingress" exitStatus) simBastionRecord
      ⟨simSetUpWorld, []⟩).2 "" { simSetUpWorld with instances := [] } rfl
      (fun o h => by cases h)⟩

/-- C19: `fetchAWSImageIDByInstancePrivateIP` returns, and the pair it returns has an error
exactly when reading the answer back failed or the answer is the text `None`; with an error
the image is empty, without one it is the answer unchanged; the image is never `None`. -/
theorem fetchAWSImageIDByInstancePrivateIP_error_iff (env : Env σ) (privateIP : String)
    (st : St σ) (out : String) (err : Option GoError) (w1 : σ)
    (hop : env.operate "aws" (describeImageCmd privateIP) st.world =
      (Except.ok (out, err), w1)) :
    ∃ r st1, fetchAWSImageIDByInstancePrivateIP env privateIP st = Res.ok r st1 ∧
      (r.2 ≠ none ↔ (err ≠ none ∨ out = "None")) ∧
      (r.2 ≠ none → r.1 = "") ∧ (r.2 = none → r.1 = out) ∧ r.1 ≠ "None" := by
  simp only [describeImageCmd] at hop
  by_cases h : err ≠ none ∨ out = "None"
  · refine ⟨("", some ⟨"could not fetch image ID (AMI) of instance with private IP address " ++
      env.quote privateIP, none⟩), ⟨w1, st.trace ++ [Event.operate "aws"
        (describeImageCmd privateIP)]⟩, ?_, ?_⟩
    · simp only [fetchAWSImageIDByInstancePrivateIP, bind_apply,
        operate_ok env "aws" _ _ _ _ hop, next_ok, ite_prog_apply, if_pos h, pure_apply]
      rfl
    · simp [h]
  · refine ⟨(out, none), ⟨w1, st.trace ++ [Event.operate "aws"
        (describeImageCmd privateIP)]⟩, ?_, ?_⟩
    · simp only [fetchAWSImageIDByInstancePrivateIP, bind_apply,
        operate_ok env "aws" _ _ _ _ hop, next_ok, ite_prog_apply, if_neg h, pure_apply]
      rfl
    · have hout : out ≠ "None" := fun ho => h (Or.inr ho)
      have herr : err = none := by
        by_contra he
        exact h (Or.inl he)
      simp [herr, hout]

/-- C19 in the simulated environment: the image of the instance at `10.250.0.7` is returned
without error. -/
theorem fetchAWSImageIDByInstancePrivateIP_error_iff_witness :
    ∃ r st1,
      fetchAWSImageIDByInstancePrivateIP simEnv "10.250.0.7" ⟨simWorld, []⟩ = Res.ok r st1 ∧
      (r.2 ≠ none ↔ ((none : Option GoError) ≠ none ∨ "ami-0123" = "None")) ∧
      (r.2 ≠ none → r.1 = "") ∧ (r.2 = none → r.1 = "ami-0123") ∧ r.1 ≠ "None" :=
  fetchAWSImageIDByInstancePrivateIP_error_iff simEnv "10.250.0.7" ⟨simWorld, []⟩ "ami-0123"
    none simWorld rfl

/-- C20 as stated fails: when a node that reports no address is listed before the node
`10.250.0.7`, `getAwsInstanceIDForIP` ends in a run-time panic instead of returning the
identifier `i-0a1b` of that node. -/
theorem getAwsInstanceIDForIP_addressless_node_panics :
    (getAwsInstanceIDForIP addresslessEnv "10.250.0.7" ⟨simWorld, []⟩).abort? =
        some (Abort.panic "runtime error: index out of range [0] with length 0") ∧
      (getAwsInstanceIDForIP addresslessEnv "10.250.0.7" ⟨simWorld, []⟩).value? ≠
        some "i-0a1b" := by
  decide

/-- C20, amended: for every IP and every node list in which each node reports at least one
address, obtained without error, `getAwsInstanceIDForIP` returns the first `/`-separated
segment beginning with `i-` of the provider ID of the first node, in list order, that
qualifies (first reported address equal to the IP, provider ID with such a segment), and the
empty string when no node qualifies. -/
theorem getAwsInstanceIDForIP_first_match (env : Env σ) (ip : String) (st : St σ)
    (t : String) (w1 w2 w3 : σ) (nodes : List Node)
    (ht : env.getTargetType st.world = (Except.ok (t, none), w1))
    (hc : env.clientToTarget t w1 = (Except.ok none, w2))
    (hl : env.listNodes w2 = ((nodes, none), w3))
    (haddr : ∀ n ∈ nodes, n.addresses ≠ []) :
    ∃ v st1, getAwsInstanceIDForIP env ip st = Res.ok v st1 ∧
      ((∃ pre n post, nodes = pre ++ n :: post ∧ (∀ m ∈ pre, ¬ Qualifies ip m) ∧
          n.addresses.head? = some ip ∧ FirstInstanceSegment n.providerID v) ∨
        ((∀ m ∈ nodes, ¬ Qualifies ip m) ∧ v = "")) := by
  obtain ⟨v, hv, hspec⟩ := getAwsInstanceIDForIPLoop_first ip nodes haddr
    ⟨w3, st.trace ++ [Event.call "getTargetType", Event.call "clientToTarget",
      Event.call "Nodes().List"]⟩
  refine ⟨v, ⟨w3, st.trace ++ [Event.call "getTargetType", Event.call "clientToTarget",
    Event.call "Nodes().List"]⟩, ?_, hspec⟩
  simp only [getAwsInstanceIDForIP, bind_apply, helperCall, ht, hc, hl, next_ok,
    checkError_none, libCall_apply, List.append_assoc, List.singleton_append,
    List.cons_append, List.nil_append]
  exact hv

/-- C20, amended, in the simulated environment: the node `10.250.0.7` is the instance
`i-0a1b`. -/
theorem getAwsInstanceIDForIP_first_match_witness :
    ∃ st1,
      getAwsInstanceIDForIP simEnv "10.250.0.7" ⟨simWorld, []⟩ = Res.ok "i-0a1b" st1 := by
  obtain ⟨v, st1, h, -⟩ := getAwsInstanceIDForIP_first_match simEnv "10.250.0.7"
    ⟨simWorld, []⟩ "shoot" simWorld simWorld simWorld
    [⟨["10.250.0.7"], "aws:///eu-west-1a/i-0a1b"⟩] rfl rfl rfl (by decide)
  have hval : (getAwsInstanceIDForIP simEnv "10.250.0.7" ⟨simWorld, []⟩).value? =
      some "i-0a1b" := by decide
  rw [h] at hval
  cases hval
  exact ⟨st1, h⟩

/-- C15 (the code departs from the claim): when the launch call fails, in the simulated
environment, `createBastionHostInstance` ends the process with status 1 after the temporary
file was created and written, and the deferred removal is never issued. -/
theorem createBastionHostInstance_failed_launch_keeps_file :
    simFailedLaunch.abort? = some (Abort.exit 1) ∧
      Event.tempFile "/tmp" "gardener-user.sh" ∈ simFailedLaunch.state.trace ∧
      Event.write "/tmp/gardener-user.sh1" [1, 2, 3] ∈ simFailedLaunch.state.trace ∧
      Event.remove "/tmp/gardener-user.sh1" ∉ simFailedLaunch.state.trace := by
  decide

/-- C16 as stated fails: when the authorization on the node group is answered with an
"already exists" error, `createBastionHostSecurityGroup` ends the process with status 1. -/
theorem createBastionHostSecurityGroup_duplicate_rule_is_fatal :
    simDuplicateRule.returned = false ∧ simDuplicateRule.abort? = some (Abort.exit 1) ∧
      Event.logFatalf duplicateRule false ∈ simDuplicateRule.state.trace := by
  decide

/-- C16, amended: when the group is created and the authorization on the node security group
is answered, `createBastionHostSecurityGroup` returns normally exactly when no error is read
back for that call; any error, whatever its text, ends the process with status 1. -/
theorem createBastionHostSecurityGroup_node_rule_error_is_fatal (env : Env σ)
    (a : AwsInstanceAttribute) (st : St σ) (out2 o4 : String) (r3 : String × Option GoError)
    (err : Option GoError) (w1 w2 w3 w4 : σ)
    (hd : env.operate "aws" (describeSecurityGroupsCmd a.VpcID a.BastionSecurityGroupName)
      st.world = (Except.ok ("", none), w1))
    (hc : env.operate "aws" (createSecurityGroupCmd a) w1 = (Except.ok (out2, none), w2))
    (ha : env.operate "aws" (authorizeIngress (trim out2 "\n")) w2 = (Except.ok r3, w3))
    (hn : env.operate "aws" (authorizeIngress a.SecurityGroupID) w3 =
      (Except.ok (o4, err), w4)) :
    ((createBastionHostSecurityGroup env a st).returned = true ↔ err = none) ∧
      (err ≠ none →
        (createBastionHostSecurityGroup env a st).abort? = some (Abort.exit 1)) := by
  have hc1 : env.operate "aws"
      (createSecurityGroupCmd { a with BastionSecurityGroupID := "" }) w1 =
      (Except.ok (out2, none), w2) := hc
  have hn1 : env.operate "aws" (authorizeIngress
      ({ a with BastionSecurityGroupID := trim out2 "\n" } : AwsInstanceAttribute).SecurityGroupID)
      w3 = (Except.ok (o4, err), w4) := hn
  cases err with
  | none =>
    have hrun : (createBastionHostSecurityGroup env a st).returned = true := by
      simp only [createBastionHostSecurityGroup, getBastionSecurityGroupID, bind_apply,
        operate_ok env "aws" _ _ _ _ hd, operate_ok env "aws" _ ⟨w1, _⟩ _ _ hc1,
        operate_ok env "aws" _ ⟨w2, _⟩ _ _ ha, operate_ok env "aws" _ ⟨w3, _⟩ _ _ hn1,
        next_ok, checkError_none, pure_apply, ite_prog_apply, println_apply, ne_eq,
        not_true_eq_false, if_false]
      rfl
    exact ⟨⟨fun _ => rfl, fun _ => hrun⟩, fun h => absurd rfl h⟩
  | some e =>
    obtain ⟨st5, hce, -⟩ := checkError_some env e
      ⟨w4, st.trace ++
        [Event.operate "aws" (describeSecurityGroupsCmd a.VpcID a.BastionSecurityGroupName)] ++
        [Event.operate "aws" (createSecurityGroupCmd { a with BastionSecurityGroupID := "" })] ++
        [Event.operate "aws" (authorizeIngress (trim out2 "\n"))] ++
        [Event.println "Bastion host security group set up."] ++
        [Event.operate "aws" (authorizeIngress a.SecurityGroupID)]⟩
    have hrun : createBastionHostSecurityGroup env a st = Res.abort (Abort.exit 1) st5 := by
      simp only [createBastionHostSecurityGroup, getBastionSecurityGroupID, bind_apply,
        operate_ok env "aws" _ _ _ _ hd, operate_ok env "aws" _ ⟨w1, _⟩ _ _ hc1,
        operate_ok env "aws" _ ⟨w2, _⟩ _ _ ha, operate_ok env "aws" _ ⟨w3, _⟩ _ _ hn1,
        next_ok, checkError_none, pure_apply, ite_prog_apply, println_apply, ne_eq,
        not_true_eq_false, if_false]
      rw [hce]
      rfl
    rw [hrun]
    exact ⟨⟨fun h => (by cases h), fun h => (by cases h)⟩, fun _ => rfl⟩

/-- C16, amended, in the simulated environment: the "already exists" answer ends the process
with status 1. -/
theorem createBastionHostSecurityGroup_node_rule_error_is_fatal_witness :
    simDuplicateRule.abort? = some (Abort.exit 1) :=
  (createBastionHostSecurityGroup_node_rule_error_is_fatal
    (failingEnv "aws ec2 authorize-security-group-ingress --group-id sg-nodes" duplicateRule)
    simRecord ⟨simWorld, []⟩ "sg-foo-bsg\n" "" ("", none) (some duplicateRule) simWorld
    simGroupWorld simGroupWorld simGroupWorld rfl rfl rfl rfl).2 (by decide)

/-- C17: in the workflow of `sshToAWSNode`, once `fetchAwsAttributes` has returned and the
discovery of the bastion group has answered the empty string, a failing call of
`createBastionHostSecurityGroup` ends the process and no `run-instances` call is issued.  A
failing call is: the `create-security-group` call or the authorization on the node group
ending the process in `operate` or having an error read back (whatever its text), or the
authorization on the bastion group, whose outcome line 154 does not capture, ending the
process in `operate`. -/
theorem sshToAWSNode_failed_group_call_aborts (env : Env σ) (nodeIP path user : String)
    (sshPublicKey : List Nat) (st st1 : St σ) (a1 : AwsInstanceAttribute) (w1 : σ)
    (hfetch : fetchAwsAttributes env
      { AwsInstanceAttribute.zero with SSHPublicKey := sshPublicKey } nodeIP path
      ⟨st.world, st.trace ++ [Event.println "",
        Event.println "(1/4) Fetching data from target shoot cluster"]⟩ = Res.ok a1 st1)
    (hd : env.operate "aws" (describeSecurityGroupsCmd a1.VpcID a1.BastionSecurityGroupName)
      st1.world = (Except.ok ("", none), w1))
    (hfail : (∀ o, (env.operate "aws" (createSecurityGroupCmd a1) w1).1 ≠ Except.ok (o, none)) ∨
      ∃ out2 w2,
        env.operate "aws" (createSecurityGroupCmd a1) w1 = (Except.ok (out2, none), w2) ∧
        ((∃ why, (env.operate "aws" (authorizeIngress (trim out2 "\n")) w2).1 =
            Except.error why) ∨
          ∃ r3 w3, env.operate "aws" (authorizeIngress (trim out2 "\n")) w2 =
              (Except.ok r3, w3) ∧
            ∀ o, (env.operate "aws" (authorizeIngress a1.SecurityGroupID) w3).1 ≠
              Except.ok (o, none))) :
    (sshToAWSNode env nodeIP path user sshPublicKey st).returned = false ∧
      ∀ e ∈ newEvents st (sshToAWSNode env nodeIP path user sshPublicKey st),
        e.issues "aws ec2 run-instances" = false := by
  have hfetch1 : fetchAwsAttributes env
      { AwsInstanceAttribute.zero with SSHPublicKey := sshPublicKey } nodeIP path
      ⟨st.world, st.trace ++ [Event.println ""] ++
        [Event.println "(1/4) Fetching data from target shoot cluster"]⟩ = Res.ok a1 st1 := by
    simpa using hfetch
  obtain ⟨new1, htr1, hP1⟩ := fetchAwsAttributes_no_launch env
    { AwsInstanceAttribute.zero with SSHPublicKey := sshPublicKey } nodeIP path
    ⟨st.world, st.trace ++ [Event.println "",
      Event.println "(1/4) Fetching data from target shoot cluster"]⟩
  rw [hfetch] at htr1
  have htr1a : st1.trace = st.trace ++ [Event.println "",
      Event.println "(1/4) Fetching data from target shoot cluster"] ++ new1 := htr1
  obtain ⟨new2, htr2, hP2⟩ := createBastionHostSecurityGroup_no_launch env a1
    ⟨st1.world, st1.trace ++ [Event.println "Data fetched from target shoot cluster."] ++
      [Event.println ""] ++ [Event.println "(2/4) Setting up bastion host security group"]⟩
  have hret := createBastionHostSecurityGroup_call_fails env a1
    ⟨st1.world, st1.trace ++ [Event.println "Data fetched from target shoot cluster."] ++
      [Event.println ""] ++ [Event.println "(2/4) Setting up bastion host security group"]⟩
    w1 hd hfail
  cases hsg : createBastionHostSecurityGroup env a1
    ⟨st1.world, st1.trace ++ [Event.println "Data fetched from target shoot cluster."] ++
      [Event.println ""] ++ [Event.println "(2/4) Setting up bastion host security group"]⟩ with
  | ok a2 st3 =>
    rw [hsg] at hret
    cases hret
  | abort why st3 =>
    rw [hsg] at htr2
    have hrun : sshToAWSNode env nodeIP path user sshPublicKey st = Res.abort why st3 := by
      simp only [sshToAWSNode, bind_apply, println_apply, next_ok, hfetch1, hsg, next_abort]
    rw [hrun]
    refine ⟨rfl, ?_⟩
    have htr3 : st3.trace = st.trace ++ ([Event.println "",
        Event.println "(1/4) Fetching data from target shoot cluster"] ++ new1 ++
        [Event.println "Data fetched from target shoot cluster.", Event.println "",
          Event.println "(2/4) Setting up bastion host security group"] ++ new2) := by
      have h3 : st3.trace = _ := htr2
      rw [h3, htr1a]
      simp
    rw [newEvents_eq st _ _ (by rw [Res.state]; exact htr3)]
    intro e he
    simp only [List.mem_append, List.mem_cons, List.mem_singleton, List.not_mem_nil,
      or_false] at he
    rcases he with (((rfl | rfl) | he) | (rfl | rfl | rfl)) | he
    all_goals first
      | rfl
      | exact hP1 e he
      | exact hP2 e he

/-- C17 in the simulated environment: when the `create-security-group` call has an error read
back, and when `operate` ends the process at the authorization on the new bastion group
`sg-foo-bsg`, the workflow for node `10.250.0.7` of cluster `foo` ends without a
`run-instances` call. -/
theorem sshToAWSNode_failed_group_call_aborts_witness :
    ((sshToAWSNode (failingEnv "aws ec2 create-security-group" exitStatus) "10.250.0.7"
          "/tmp/tf.state" "gardener" [1, 2, 3] ⟨simWorld, []⟩).returned = false ∧
        ∀ e ∈ newEvents ⟨simWorld, []⟩
            (sshToAWSNode (failingEnv "aws ec2 create-security-group" exitStatus) "10.250.0.7"
              "/tmp/tf.state" "gardener" [1, 2, 3] ⟨simWorld, []⟩),
          e.issues "aws ec2 run-instances" = false) ∧
      ((sshToAWSNode
          (abortingEnv "aws ec2 authorize-security-group-ingress --group-id sg-foo-bsg")
          "10.250.0.7" "/tmp/tf.state" "gardener" [1, 2, 3] ⟨simWorld, []⟩).returned = false ∧
        ∀ e ∈ newEvents ⟨simWorld, []⟩
            (sshToAWSNode
              (abortingEnv "aws ec2 authorize-security-group-ingress --group-id sg-foo-bsg")
              "10.250.0.7" "/tmp/tf.state" "gardener" [1, 2, 3] ⟨simWorld, []⟩),
          e.issues "aws ec2 run-instances" = false) :=
  ⟨sshToAWSNode_failed_group_call_aborts
      (failingEnv "aws ec2 create-security-group" exitStatus)
      "10.250.0.7" "/tmp/tf.state" "gardener" [1, 2, 3] ⟨simWorld, []⟩
      ⟨simWorld, simFetchedTrace⟩ simRecord simWorld rfl rfl (Or.inl (fun o h => by cases h)),
    sshToAWSNode_failed_group_call_aborts
      (abortingEnv "aws ec2 authorize-security-group-ingress --group-id sg-foo-bsg")
      "10.250.0.7" "/tmp/tf.state" "gardener" [1, 2, 3] ⟨simWorld, []⟩
      ⟨simWorld, simFetchedTrace⟩ simRecord simWorld rfl rfl
      (Or.inr ⟨"sg-foo-bsg\n", simGroupWorld, rfl, Or.inl ⟨Abort.exit 2, rfl⟩⟩)⟩

/-- C18 as stated fails: in the simulated environment where no node has the IP as first
address, `getAwsInstanceIDForIP` returns the empty string and the workflow goes on: it
creates the security group, authorizes the ingress, launches the bastion and returns. -/
theorem sshToAWSNode_unresolved_instance_goes_on :
    (getAwsInstanceIDForIP unresolvedEnv "10.250.0.7" ⟨simWorld, []⟩).value? = some "" ∧
      simUnresolved.returned = true ∧
      simUnresolved.state.trace.any (Event.issues "aws ec2 create-security-group") = true ∧
      simUnresolved.state.trace.any
        (Event.issues "aws ec2 authorize-security-group-ingress") = true ∧
      simUnresolved.state.trace.any (Event.issues "aws ec2 run-instances") = true := by
  simp only [simUnresolved, sshToAWSNode, createBastionHostInstance,
    createBastionHostInstanceBody, readinessLoop_eq_turns]
  decide!

/-- C18, amended: when `getAwsInstanceIDForIP` returns the empty string, `fetchAwsAttributes`
does not treat it as a failure: the remaining look-ups succeeding, it returns normally, with
`InstanceID` empty. -/
theorem fetchAwsAttributes_unresolved_instance_returns (env : Env σ)
    (a : AwsInstanceAttribute) (nodeIP path name tv : String) (st st2 : St σ) (w1 w3 : σ)
    (hname : env.getShootClusterName st.world = (Except.ok name, w1))
    (hid : getAwsInstanceIDForIP env nodeIP
      ⟨w1, st.trace ++ [Event.call "getShootClusterName"]⟩ = Res.ok "" st2)
    (hver : env.output "bash" ["-c", "cat " ++ path ++ "  | jq -r .terraform_version"]
      st2.world = ((tv, none), w3))
    (hcons : env.validConstraint ">= 0.12.0" = true)
    (hvalid : env.validVersion (trimSpace tv) = true)
    (hout : ∀ args w, ∃ o w4, env.output "bash" args w = ((o, none), w4))
    (hop : ∀ arguments w, ∃ o w4, env.operate "aws" arguments w = (Except.ok (o, none), w4))
    (himg : ∀ w, (env.operate "aws" (describeImageCmd nodeIP) w).1 ≠ Except.ok ("None", none))
    (hud : ∀ key w, ∃ d w4, env.getBastionUserData key w = (Except.ok d, w4)) :
    (fetchAwsAttributes env a nodeIP path st).returned = true ∧
      (fetchAwsAttributes env a nodeIP path st).value?.map (fun r => r.InstanceID) =
        some "" := by
  have hname1 := helperCall_at_ok (Event.call "getShootClusterName") env.getShootClusterName
    st.world st.trace name w1 hname
  by_cases hchk : env.check ">= 0.12.0" (trimSpace tv) = true
  · obtain ⟨sn, w4, h4⟩ := hout
      ["-c", "cat " ++ path ++ " | jq -r .outputs.subnet_public_utility_z0.value"] w3
    obtain ⟨vp, w5, h5⟩ := hout ["-c", "cat " ++ path ++ " | jq -r .outputs.vpc_id.value"] w4
    obtain ⟨sg, w6, h6⟩ := hop (describeSecurityGroupsCmd (trimSpace vp) (name ++ "-nodes")) w5
    obtain ⟨im, w7, h7⟩ := hop (describeImageCmd nodeIP) w6
    have him : im ≠ "None" := by
      intro h
      subst h
      exact himg w6 (by rw [h7])
    obtain ⟨d, w8, h8⟩ := hud a.SSHPublicKey w7
    simp only [describeImageCmd] at h7
    simp [fetchAwsAttributes, hname1, hid, ExecCmdReturnOutput, hver, hcons, hvalid, hchk,
      h4, h5, getSecurityGroupID, operate_at_ok env "aws" _ _ _ _ _ h6,
      fetchAWSImageIDByInstancePrivateIP, operate_at_ok env "aws" _ _ _ _ _ h7, him,
      helperCall_at_ok _ _ _ _ _ _ h8, Res.returned, Res.value?]
  · have hchk1 : env.check ">= 0.12.0" (trimSpace tv) = false := by simpa using hchk
    obtain ⟨sn, w4, h4⟩ := hout
      ["-c", "cat " ++ path ++ " | jq -r .modules[].outputs.subnet_public_utility_z0.value"] w3
    obtain ⟨vp, w5, h5⟩ := hout
      ["-c", "cat " ++ path ++ " | jq -r .modules[].outputs.vpc_id.value"] w4
    obtain ⟨sg, w6, h6⟩ := hop (describeSecurityGroupsCmd (trimSpace vp) (name ++ "-nodes")) w5
    obtain ⟨im, w7, h7⟩ := hop (describeImageCmd nodeIP) w6
    have him : im ≠ "None" := by
      intro h
      subst h
      exact himg w6 (by rw [h7])
    obtain ⟨d, w8, h8⟩ := hud a.SSHPublicKey w7
    simp only [describeImageCmd] at h7
    simp [fetchAwsAttributes, hname1, hid, ExecCmdReturnOutput, hver, hcons, hvalid, hchk1,
      h4, h5, getSecurityGroupID, operate_at_ok env "aws" _ _ _ _ _ h6,
      fetchAWSImageIDByInstancePrivateIP, operate_at_ok env "aws" _ _ _ _ _ h7, him,
      helperCall_at_ok _ _ _ _ _ _ h8, Res.returned, Res.value?]

/-- C18, amended, in the simulated environment where no node has the IP as first address. -/
theorem fetchAwsAttributes_unresolved_instance_returns_witness :
    (fetchAwsAttributes unresolvedEnv { AwsInstanceAttribute.zero with SSHPublicKey := [1, 2, 3] }
        "10.250.0.7" "/tmp/tf.state" ⟨simWorld, []⟩).returned = true ∧
      (fetchAwsAttributes unresolvedEnv
        { AwsInstanceAttribute.zero with SSHPublicKey := [1, 2, 3] }
        "10.250.0.7" "/tmp/tf.state" ⟨simWorld, []⟩).value?.map (fun r => r.InstanceID) =
        some "" :=
  fetchAwsAttributes_unresolved_instance_returns unresolvedEnv
    { AwsInstanceAttribute.zero with SSHPublicKey := [1, 2, 3] } "10.250.0.7" "/tmp/tf.state"
    "foo" "0.12.20\n" ⟨simWorld, []⟩
    ⟨simWorld, [Event.call "getShootClusterName", Event.call "getTargetType",
      Event.call "clientToTarget", Event.call "Nodes().List"]⟩
    simWorld simWorld rfl rfl rfl rfl (by decide) (fun _ _ => ⟨_, _, rfl⟩)
    (fun _ _ => ⟨_, _, rfl⟩)
    (fun _ h => by
      have h2 : (Except.ok ("ami-0123", none) : Except Abort (String × Option GoError)) =
          Except.ok ("None", none) := h
      injection h2 with h3
      injection h3 with h4
      exact absurd h4 (by decide))
    (fun _ _ => ⟨_, _, rfl⟩)

/-- C21 as stated fails: the flat state `/tmp/tf.state` and the legacy state
`/tmp/tf11-modules.state` of cluster `foo` carry the same outputs `subnet-1` and `vpc-1`, the
legacy one in its root module, next to a child module without outputs.  `jq` prints one line
for every module, so `fetchAwsAttributes` sets `SubnetID` and `VpcID` to `subnet-1` and
`vpc-1` for the flat state and to two-line texts for the legacy state. -/
theorem fetchAwsAttributes_second_module_changes_ids :
    simFiles "/tmp/tf.state" = some (flatState "0.12.20" simOutputs) ∧
      simFiles "/tmp/tf11-modules.state" =
        some (legacyState "0.11.14" [⟨["root"], simOutputs⟩, ⟨["root", "network"], []⟩]) ∧
      (fetchAwsAttributes (fileEnv simFiles) AwsInstanceAttribute.zero "10.250.0.7"
        "/tmp/tf.state" ⟨simWorld, []⟩).value?.map (fun r => (r.SubnetID, r.VpcID)) =
        some ("subnet-1", "vpc-1") ∧
      (fetchAwsAttributes (fileEnv simFiles) AwsInstanceAttribute.zero "10.250.0.7"
        "/tmp/tf11-modules.state" ⟨simWorld, []⟩).value?.map
          (fun r => (r.SubnetID, r.VpcID)) = some ("subnet-1\nnull", "vpc-1\nnull") := by
  refine ⟨by rfl, by rfl, by decide, by decide⟩

/-- C21, amended: for every state document in the flat layout whose version satisfies
`>= 0.12.0` and every state document in the legacy layout with exactly one module whose
version does not satisfy it, both carrying the values `subnet` and `vpc` for the outputs
`subnet_public_utility_z0` and `vpc_id`, two returning runs of `fetchAwsAttributes`, one on
each document, set the same `SubnetID` and the same `VpcID`: the values as `jq` prints them,
trimmed.  The files have names made of letters, digits and `-`, `.`, `/`, `_`, and the
environments run the pipelines `cat <path> | jq -r <filter>` over them. -/
theorem fetchAwsAttributes_same_ids_for_both_layouts (env1 env2 : Env σ)
    (files1 files2 : String → Option Json) (a b : AwsInstanceAttribute)
    (nodeIP1 path1 nodeIP2 path2 : String) (st1 st2 : St σ)
    (version1 version2 subnet vpc : String) (outputs1 : List (String × String))
    (module2 : StateModule)
    (hrun1 : RunsPipelines env1 files1) (hrun2 : RunsPipelines env2 files2)
    (hne1 : path1.data ≠ []) (hpath1 : path1.data.all isPathChar = true)
    (hne2 : path2.data ≠ []) (hpath2 : path2.data.all isPathChar = true)
    (hfile1 : files1 path1 = some (flatState version1 outputs1))
    (hfile2 : files2 path2 = some (legacyState version2 [module2]))
    (hc1 : env1.check ">= 0.12.0" (trimSpace (version1 ++ "\n")) = true)
    (hc2 : env2.check ">= 0.12.0" (trimSpace (version2 ++ "\n")) = false)
    (hs1 : outputValue outputs1 "subnet_public_utility_z0" = some subnet)
    (hp1 : outputValue outputs1 "vpc_id" = some vpc)
    (hs2 : outputValue module2.outputs "subnet_public_utility_z0" = some subnet)
    (hp2 : outputValue module2.outputs "vpc_id" = some vpc)
    (h1 : (fetchAwsAttributes env1 a nodeIP1 path1 st1).returned = true)
    (h2 : (fetchAwsAttributes env2 b nodeIP2 path2 st2).returned = true) :
    (fetchAwsAttributes env1 a nodeIP1 path1 st1).value?.map
        (fun r => (r.SubnetID, r.VpcID)) =
        some (trimSpace (subnet ++ "\n"), trimSpace (vpc ++ "\n")) ∧
      (fetchAwsAttributes env2 b nodeIP2 path2 st2).value?.map
        (fun r => (r.SubnetID, r.VpcID)) =
        some (trimSpace (subnet ++ "\n"), trimSpace (vpc ++ "\n")) := by
  obtain ⟨a1, st3, hrun3⟩ := returned_eq_ok _ h1
  obtain ⟨b1, st4, hrun4⟩ := returned_eq_ok _ h2
  obtain ⟨jv1, js1, jp1⟩ := jqRaw_flatState version1 outputs1 subnet vpc hs1 hp1
  obtain ⟨jv2, js2, jp2⟩ := jqRaw_legacyState version2 module2 subnet vpc hs2 hp2
  obtain ⟨pv1, ps1, pp1⟩ := prints_queries env1 files1 path1 _ ".outputs" _ _ _ hrun1 hfile1
    hne1 hpath1 (by decide) (by decide) jv1 js1 jp1
  obtain ⟨pv2, ps2, pp2⟩ := prints_queries env2 files2 path2 _ ".modules[].outputs" _ _ _
    hrun2 hfile2 hne2 hpath2 (by decide) (by decide) jv2 js2 jp2
  have e1 := fetchAwsAttributes_eq_ok_ids env1 a a1 nodeIP1 path1 st1 st3 _ _ _ ".outputs"
    hrun3 pv1 (by simp [hc1]) ps1 pp1
  have e2 := fetchAwsAttributes_eq_ok_ids env2 b b1 nodeIP2 path2 st2 st4 _ _ _
    ".modules[].outputs" hrun4 pv2 (by simp [hc2]) ps2 pp2
  rw [hrun3, hrun4]
  simp [Res.value?, e1.1, e1.2, e2.1, e2.2]

/-- C21, amended, on the state files of cluster `foo`: the flat state `/tmp/tf.state` and
the legacy state `/tmp/tf11.state`, which has the root module only, both give subnet
`subnet-1` and network `vpc-1`. -/
theorem fetchAwsAttributes_same_ids_for_both_layouts_witness :
    (fetchAwsAttributes (fileEnv simFiles) AwsInstanceAttribute.zero "10.250.0.7"
        "/tmp/tf.state" ⟨simWorld, []⟩).value?.map (fun r => (r.SubnetID, r.VpcID)) =
        some (trimSpace ("subnet-1" ++ "\n"), trimSpace ("vpc-1" ++ "\n")) ∧
      (fetchAwsAttributes (fileEnv simFiles) AwsInstanceAttribute.zero "10.250.0.7"
        "/tmp/tf11.state" ⟨simWorld, []⟩).value?.map (fun r => (r.SubnetID, r.VpcID)) =
        some (trimSpace ("subnet-1" ++ "\n"), trimSpace ("vpc-1" ++ "\n")) :=
  fetchAwsAttributes_same_ids_for_both_layouts (fileEnv simFiles) (fileEnv simFiles)
    simFiles simFiles AwsInstanceAttribute.zero AwsInstanceAttribute.zero
    "10.250.0.7" "/tmp/tf.state" "10.250.0.7" "/tmp/tf11.state" ⟨simWorld, []⟩ ⟨simWorld, []⟩
    "0.12.20" "0.11.14" "subnet-1" "vpc-1" simOutputs ⟨["root"], simOutputs⟩
    (fun script out h w => ⟨w, by simp [fileEnv, h]⟩)
    (fun script out h w => ⟨w, by simp [fileEnv, h]⟩)
    (by decide) (by decide) (by decide) (by decide) (by rfl) (by rfl) (by decide) (by decide)
    (by decide) (by decide) (by decide) (by decide) (by decide) (by decide)

/-- C22: on a discovery miss, with the temporary file created and written without error,
`createBastionHostInstance` issues exactly one `run-instances` call, whatever the provider
answers to it and afterwards.  The call follows the writing of `UserData` to the temporary
file and requests count 1 of instance type `t2.nano` with image `ImageID`, key pair
`KeyName`, security group `BastionSecurityGroupID`, subnet `SubnetID`, a public IP
address, the user data of that file and the tag `Name=BastionInstanceName`. -/
theorem createBastionHostInstance_one_launch (env : Env σ) (a : AwsInstanceAttribute)
    (st : St σ) (tmp : String) (w1 w2 w3 : σ)
    (hd : env.operate "aws" (describeBastionCmd a) st.world = (Except.ok ("", none), w1))
    (ht : env.tempFile (env.tempDir w1) "gardener-user.sh" w1 = ((tmp, none), w2))
    (hw : env.write tmp a.UserData w2 = (none, w3)) :
    (newEvents st (createBastionHostInstance env a st)).filter
        (Event.issues "aws ec2 run-instances") =
        [Event.operate "aws" (runInstancesCmd a tmp)] ∧
      (∃ tail, newEvents st (createBastionHostInstance env a st) =
        [Event.operate "aws" (describeBastionCmd a), Event.call "os.TempDir",
          Event.tempFile (env.tempDir w1) "gardener-user.sh", Event.write tmp a.UserData,
          Event.operate "aws" (runInstancesCmd a tmp)] ++ tail) ∧
      runInstancesCmd a tmp =
        "aws ec2 run-instances --iam-instance-profile Name=" ++ a.BastionInstanceName ++
          " --image-id " ++ a.ImageID ++ " --count 1 --instance-type t2.nano --key-name " ++
          a.KeyName ++ " --security-group-ids " ++ a.BastionSecurityGroupID ++
          " --subnet-id " ++ a.SubnetID ++
          " --associate-public-ip-address --user-data file://" ++ tmp ++
          " --tag-specifications ResourceType=instance,Tags=[\x7bKey=Name,Value=" ++
          a.BastionInstanceName ++ "\x7d]" := by
  have hcmd : runInstancesCmd a tmp =
      "aws ec2 run-instances --iam-instance-profile Name=" ++ a.BastionInstanceName ++
        " --image-id " ++ a.ImageID ++ " --count 1 --instance-type t2.nano --key-name " ++
        a.KeyName ++ " --security-group-ids " ++ a.BastionSecurityGroupID ++
        " --subnet-id " ++ a.SubnetID ++
        " --associate-public-ip-address --user-data file://" ++ tmp ++
        " --tag-specifications ResourceType=instance,Tags=[\x7bKey=Name,Value=" ++
        a.BastionInstanceName ++ "\x7d]" := by
    simp only [runInstancesCmd, String.append_assoc]
    rw [← String.append_assoc "aws "]
    rfl
  have hlaunch : (Event.operate "aws" (runInstancesCmd a tmp)).issues
      "aws ec2 run-instances" = true := by
    rw [hcmd]
    simp only [String.append_assoc]
    rw [issues_append _ _ _ _ (by decide)]
    decide
  obtain ⟨tail, htail, hP⟩ :=
    createBastionHostInstance_launch_tail env a st tmp w1 w2 w3 hd ht hw
  refine ⟨?_, ⟨tail, htail⟩, hcmd⟩
  have hnone : tail.filter (Event.issues "aws ec2 run-instances") = [] := by
    rw [List.filter_eq_nil_iff]
    intro e he
    simp [hP e he]
  rw [htail, List.filter_append, hnone, List.append_nil]
  have h1 := describeBastion_issues a "aws"
  simp only [List.filter_cons, h1, hlaunch, List.filter_nil]
  rfl

/-- C22 in the simulated environment: the launch for cluster `foo` is the only
`run-instances` call, and its words are those of the claim. -/
theorem createBastionHostInstance_one_launch_witness :
    (newEvents ⟨simGroupWorld, []⟩
        (createBastionHostInstance simEnv simGroupRecord ⟨simGroupWorld, []⟩)).filter
        (Event.issues "aws ec2 run-instances") =
        [Event.operate "aws" (runInstancesCmd simGroupRecord "/tmp/gardener-user.sh1")] ∧
      fields (runInstancesCmd simGroupRecord "/tmp/gardener-user.sh1") =
        ["aws", "ec2", "run-instances", "--iam-instance-profile", "Name=foo-bastions",
          "--image-id", "ami-0123", "--count", "1", "--instance-type", "t2.nano", "--key-name",
          "foo-ssh-publickey", "--security-group-ids", "sg-foo-bsg", "--subnet-id", "subnet-1",
          "--associate-public-ip-address", "--user-data", "file:///tmp/gardener-user.sh1",
          "--tag-specifications",
          "ResourceType=instance,Tags=[\x7bKey=Name,Value=foo-bastions\x7d]"] :=
  ⟨(createBastionHostInstance_one_launch simEnv simGroupRecord ⟨simGroupWorld, []⟩
      "/tmp/gardener-user.sh1" simGroupWorld simGroupWorld simGroupWorld rfl rfl rfl).1,
    by decide⟩

/-- C23 (the code departs from the claim): in a kubeconfig whose user `admin` sets a client
certificate file and whose user `oidc` uses an exec plugin, `ValidateClientConfig` returns
`nil` when `range` visits `oidc` first, and the error for `admin` when it visits `admin`
first. -/
theorem ValidateClientConfig_nil_after_exec_user :
    certFileUser.unsupported = true ∧
      (ValidateClientConfig simEnv simKubeConfigOfCurrentTarget
        [("oidc", execUser), ("admin", certFileUser)] ⟨simWorld, []⟩).value? = some none ∧
      (ValidateClientConfig simEnv simKubeConfigOfCurrentTarget
        [("admin", certFileUser), ("oidc", execUser)] ⟨simWorld, []⟩).value? =
        some (some ⟨"client certificate files are not supported (user \"admin\"), these " ++
          "are the valid fields: [client-certificate-data client-key-data token username " ++
          "password]", none⟩) := by
  decide!

/-- C24: in whatever order the two `range` loops visit their maps, `retrieveTerraformErrors`
returns `nil` if and only if `findTerraformErrors` yields the empty string for every log;
otherwise it returns exactly one entry per distinct non-empty error message, each of the form
`-> Pod '<pod>' reported:` followed by a line feed and the message, where `<pod>` is a pod
whose log produced the message, so that no error message appears twice. -/
theorem retrieveTerraformErrors_one_entry_per_message (visited : List (String × String))
    (ranged : List (String × String) → List (String × String))
    (hperm : ∀ l, (ranged l).Perm l) :
    (retrieveTerraformErrors visited ranged = none ↔
        ∀ p ∈ visited, findTerraformErrors p.2 = "") ∧
      ∀ errorList, retrieveTerraformErrors visited ranged = some errorList →
        ∃ entries : List (String × String),
          errorList = entries.map
            (fun e => "-> Pod '" ++ e.2 ++ "' reported:\n" ++ e.1) ∧
          (entries.map Prod.fst).Nodup ∧
          (∀ m, m ∈ entries.map Prod.fst ↔
            m ≠ "" ∧ ∃ p ∈ visited, findTerraformErrors p.2 = m) ∧
          ∀ e ∈ entries, ∃ p ∈ visited, p.1 = e.2 ∧ findTerraformErrors p.2 = e.1 := by
  obtain ⟨h1, h2, h3⟩ := collectErrors_spec visited [] (by simp)
  have hp := hperm (collectErrors [] visited)
  constructor
  · simp only [retrieveTerraformErrors, List.length_map]
    constructor
    · intro h p hp1
      by_contra hne
      have hmem : findTerraformErrors p.2 ∈ (collectErrors [] visited).map Prod.fst :=
        (h2 _).mpr (Or.inr ⟨hne, p, hp1, rfl⟩)
      have hlen : (ranged (collectErrors [] visited)).length = 0 := by
        by_contra hl
        simp [hl] at h
      rw [hp.length_eq, List.length_eq_zero] at hlen
      rw [hlen] at hmem
      simp at hmem
    · intro h
      have hnil : collectErrors [] visited = [] := by
        rw [List.eq_nil_iff_forall_not_mem]
        intro e he
        have hmem : e.1 ∈ (collectErrors [] visited).map Prod.fst :=
          List.mem_map_of_mem _ he
        rcases (h2 _).mp hmem with h0 | ⟨hne, p, hp1, hf⟩
        · simp at h0
        · exact hne (hf ▸ h p hp1)
      rw [hnil] at hp
      rw [hnil, hp.length_eq]
      simp
  · intro errorList h
    simp only [retrieveTerraformErrors, List.length_map] at h
    split at h
    · cases h
    · refine ⟨ranged (collectErrors [] visited), ?_, ?_, ?_, ?_⟩
      · exact (Option.some.inj h).symm
      · exact (hp.map Prod.fst).nodup_iff.mpr h1
      · intro m
        rw [(hp.map Prod.fst).mem_iff, h2 m]
        simp
      · intro e he
        rcases h3 e (hp.mem_iff.mp he) with h0 | h0
        · simp at h0
        · exact h0

/-- C24 on the logs of three pods, visited in the order given: two failed runs that differ in
the request identifier report the same message, which is listed once, for the pod visited
first. -/
theorem retrieveTerraformErrors_one_entry_per_message_witness :
    (retrieveTerraformErrors simLogs id = none ↔
        ∀ p ∈ simLogs, findTerraformErrors p.2 = "") ∧
      retrieveTerraformErrors simLogs id =
        some ["-> Pod 'tf-pod-1' reported:\n* aws_instance.a: AccessDenied\n" ++
          "* aws_instance.b: Error launching: LimitExceeded\n\trequest id: <omitted>"] :=
  ⟨(retrieveTerraformErrors_one_entry_per_message simLogs id (fun l => List.Perm.refl l)).1,
    by decide⟩

/-- C25: `findTerraformErrors` returns the empty string if and only if the Terraform output,
after the optional `Terraform does not automatically rollback` explanation is cut off, holds
no error marker (neither `Errors:` nor `Error ` followed by a colon); whenever a marker is
present the result is non-empty: it begins with `*`. -/
theorem findTerraformErrors_empty_iff_no_marker (output : String) :
    (findTerraformErrors output = "" ↔
        ¬ HasErrorMarker
          (beforeFirst "\n\nTerraform does not automatically rollback".data output.data)) ∧
      (HasErrorMarker
          (beforeFirst "\n\nTerraform does not automatically rollback".data output.data) ↔
        ∃ v, (findTerraformErrors output).data = '*' :: v) := by
  rw [← findTerraformErrorSubmatch_isSome_iff]
  cases h : findTerraformErrorSubmatch
      (beforeFirst "\n\nTerraform does not automatically rollback".data output.data) with
  | some submatch =>
    obtain ⟨v, hv⟩ := findTerraformErrors_of_match output submatch h
    refine ⟨?_, ?_⟩
    · simp only [Option.isSome_some, not_true_eq_false, iff_false]
      intro he
      rw [he] at hv
      cases hv
    · simp only [Option.isSome_some, true_iff]
      exact ⟨v, hv⟩
  | none =>
    have hres : findTerraformErrors output = "" := by simp [findTerraformErrors, h]
    refine ⟨by simp [hres], ?_⟩
    simp only [Option.isSome_none, Bool.false_eq_true, false_iff]
    rintro ⟨v, hv⟩
    rw [hres] at hv
    cases hv

/-- C26: `CheckIPPortReachable` is a bounded check.  When the attempts before attempt `k`
(counted from 0, `k < 12`) fail and attempt `k` yields a connection, it returns `nil` right
after that attempt, having made exactly `k + 1` attempts; when the first 12 attempts all fail,
it returns the error `IP <ip> port <port> is not reachable` after exactly 12 attempts. -/
theorem CheckIPPortReachable_bounded (env : Env σ)
    (dial : String → String → Nat → σ → Bool × σ) (ip port : String) (st : St σ) :
    (∀ k, k < 12 →
        (∀ i < k, (dial "tcp" (joinHostPort ip port) 10
          (attemptWorld env dial ip port i st.world)).1 = false) →
        (dial "tcp" (joinHostPort ip port) 10
          (attemptWorld env dial ip port k st.world)).1 = true →
        ∃ st1, CheckIPPortReachable env dial ip port st = Res.ok none st1 ∧
          st1.trace = st.trace ++ (List.replicate k retryEvents).flatten ++
            [Event.call "net.DialTimeout",
              Event.println ("IP " ++ ip ++ " port " ++ port ++ " is reachable"),
              Event.call "conn.Close"] ∧
          (newEvents st (CheckIPPortReachable env dial ip port st)).count
            (Event.call "net.DialTimeout") = k + 1) ∧
      ((∀ i < 12, (dial "tcp" (joinHostPort ip port) 10
          (attemptWorld env dial ip port i st.world)).1 = false) →
        ∃ st1, CheckIPPortReachable env dial ip port st =
            Res.ok (some ⟨"IP " ++ ip ++ " port " ++ port ++ " is not reachable", none⟩) st1 ∧
          st1.trace = st.trace ++ (List.replicate 12 retryEvents).flatten ∧
          (newEvents st (CheckIPPortReachable env dial ip port st)).count
            (Event.call "net.DialTimeout") = 12) := by
  constructor
  · intro k hk hfail hok
    have hrun : CheckIPPortReachable env dial ip port st =
        Res.ok none ⟨(dial "tcp" (joinHostPort ip port) 10
            (attemptWorld env dial ip port k st.world)).2,
          st.trace ++ (List.replicate k retryEvents).flatten ++
            [Event.call "net.DialTimeout",
              Event.println ("IP " ++ ip ++ " port " ++ port ++ " is reachable"),
              Event.call "conn.Close"]⟩ := by
      rw [CheckIPPortReachable,
        CheckIPPortReachableLoop_retries env dial ip port k 0 st (by omega) hfail,
        CheckIPPortReachableLoop_reachable env dial ip port (0 + k) _ (by omega) hok]
    refine ⟨_, hrun, rfl, ?_⟩
    rw [hrun, List.append_assoc, newEvents_ok, List.count_append, count_retryEvents]
    rfl
  · intro hfail
    have hrun : CheckIPPortReachable env dial ip port st =
        Res.ok (some ⟨"IP " ++ ip ++ " port " ++ port ++ " is not reachable", none⟩)
          ⟨attemptWorld env dial ip port 12 st.world,
            st.trace ++ (List.replicate 12 retryEvents).flatten⟩ := by
      rw [CheckIPPortReachable,
        CheckIPPortReachableLoop_retries env dial ip port 12 0 st (by omega) hfail,
        CheckIPPortReachableLoop_done env dial ip port (0 + 12) _ (by omega)]
    refine ⟨_, hrun, rfl, ?_⟩
    rw [hrun, newEvents_ok, count_retryEvents]

/-- C26 in the simulated network: the bastion `203.0.113.9` of the world `simBastionWorld`
answers at the first attempt, and in the world without instances the check gives up after 12
attempts. -/
theorem CheckIPPortReachable_bounded_witness :
    (∃ st1, CheckIPPortReachable simEnv simDial "203.0.113.9" "22" ⟨simBastionWorld, []⟩ =
        Res.ok none st1 ∧
      st1.trace = [] ++ (List.replicate 0 retryEvents).flatten ++
        [Event.call "net.DialTimeout", Event.println ("IP " ++ "203.0.113.9" ++ " port " ++
          "22" ++ " is reachable"), Event.call "conn.Close"] ∧
      (newEvents ⟨simBastionWorld, []⟩
        (CheckIPPortReachable simEnv simDial "203.0.113.9" "22" ⟨simBastionWorld, []⟩)).count
          (Event.call "net.DialTimeout") = 0 + 1) ∧
      ∃ st1, CheckIPPortReachable simEnv simDial "203.0.113.9" "22" ⟨simWorld, []⟩ =
          Res.ok (some ⟨"IP " ++ "203.0.113.9" ++ " port " ++ "22" ++ " is not reachable",
            none⟩) st1 ∧
        st1.trace = [] ++ (List.replicate 12 retryEvents).flatten ∧
        (newEvents ⟨simWorld, []⟩
          (CheckIPPortReachable simEnv simDial "203.0.113.9" "22" ⟨simWorld, []⟩)).count
            (Event.call "net.DialTimeout") = 12 :=
  ⟨(CheckIPPortReachable_bounded simEnv simDial "203.0.113.9" "22" ⟨simBastionWorld, []⟩).1 0
      (by decide) (fun i hi => absurd hi (Nat.not_lt_zero i)) (by decide),
    (CheckIPPortReachable_bounded simEnv simDial "203.0.113.9" "22" ⟨simWorld, []⟩).2
      (fun i _ => by
        have hw : ∀ j, attemptWorld simEnv simDial "203.0.113.9" "22" j simWorld = simWorld := by
          intro j
          induction j with
          | zero => rfl
          | succ j ih => exact ih
        rw [hw i]
        decide)⟩

/-- C27 (the code departs from the claim): the user name is part of the format string that
line 71 hands to `fmt.Sprintf`.  For the user `ci%staging` the command run is not the one
the claim gives: both hops name the user `ci%!s(MISSING)taging`.  For the user `gardener` the
same environment runs the command of the claim. -/
theorem sshToAWSNode_percent_in_user_name :
    Event.command "bash" ["-c", "ssh -i key -o \"ProxyCommand ssh -W %h:%p -i key -o " ++
        "StrictHostKeyChecking=no ci%!s(MISSING)taging@203.0.113.9\" " ++
        "ci%!s(MISSING)taging@10.250.0.7 -o StrictHostKeyChecking=no"] ∈
        (simSessionOf "ci%staging").state.trace ∧
      Event.command "bash" ["-c", "ssh -i key -o \"ProxyCommand ssh -W %h:%p -i key -o " ++
        "StrictHostKeyChecking=no ci%staging@203.0.113.9\" " ++
        "ci%staging@10.250.0.7 -o StrictHostKeyChecking=no"] ∉
        (simSessionOf "ci%staging").state.trace ∧
      Event.command "bash" ["-c", "ssh -i key -o \"ProxyCommand ssh -W %h:%p -i key -o " ++
        "StrictHostKeyChecking=no gardener@203.0.113.9\" " ++
        "gardener@10.250.0.7 -o StrictHostKeyChecking=no"] ∈
        (simSessionOf "gardener").state.trace := by
  simp only [simSessionOf, sshToAWSNode, createBastionHostInstance,
    createBastionHostInstanceBody, readinessLoop_eq_turns]
  decide!

/-- C28: for every message, `determineErrorCode` returns an error whose text is the message
itself when it contains none of the keywords, and otherwise `CODE:<code> ` followed by the
message, the code being chosen by the first matching rule in the order: unauthorized for
`UnauthorizedOperation` or `SignatureDoesNotMatch`, quota exceeded for `LimitExceeded`,
insufficient privileges for `AccessDenied`, dependencies for `DependencyViolation`.  The four
codes are the non-empty constants of the API package. -/
theorem determineErrorCode_first_matching_rule (codes : ErrorCodes) (message : String)
    (hu : codes.ErrorInfraUnauthorized ≠ "") (hq : codes.ErrorInfraQuotaExceeded ≠ "")
    (hp : codes.ErrorInfraInsufficientPrivileges ≠ "")
    (hd : codes.ErrorInfraDependencies ≠ "") :
    (contains message "UnauthorizedOperation" = false →
        contains message "SignatureDoesNotMatch" = false →
        contains message "LimitExceeded" = false → contains message "AccessDenied" = false →
        contains message "DependencyViolation" = false →
        determineErrorCode codes message = ⟨message, none⟩) ∧
      (contains message "UnauthorizedOperation" = true ∨
          contains message "SignatureDoesNotMatch" = true →
        determineErrorCode codes message =
          ⟨"CODE:" ++ codes.ErrorInfraUnauthorized ++ " " ++ message, none⟩) ∧
      (contains message "UnauthorizedOperation" = false →
        contains message "SignatureDoesNotMatch" = false →
        contains message "LimitExceeded" = true →
        determineErrorCode codes message =
          ⟨"CODE:" ++ codes.ErrorInfraQuotaExceeded ++ " " ++ message, none⟩) ∧
      (contains message "UnauthorizedOperation" = false →
        contains message "SignatureDoesNotMatch" = false →
        contains message "LimitExceeded" = false → contains message "AccessDenied" = true →
        determineErrorCode codes message =
          ⟨"CODE:" ++ codes.ErrorInfraInsufficientPrivileges ++ " " ++ message, none⟩) ∧
      (contains message "UnauthorizedOperation" = false →
        contains message "SignatureDoesNotMatch" = false →
        contains message "LimitExceeded" = false → contains message "AccessDenied" = false →
        contains message "DependencyViolation" = true →
        determineErrorCode codes message =
          ⟨"CODE:" ++ codes.ErrorInfraDependencies ++ " " ++ message, none⟩) := by
  have hlen : ∀ s : String, s ≠ "" → s.length ≠ 0 := by
    intro s hs h0
    apply hs
    apply String.ext
    exact List.length_eq_zero.mp h0
  refine ⟨?_, ?_, ?_, ?_, ?_⟩
  · intro h1 h2 h3 h4 h5
    simp [determineErrorCode, errorCodeOf, h1, h2, h3, h4, h5]
  · intro h
    have hc : errorCodeOf codes message = codes.ErrorInfraUnauthorized := by
      rcases h with h | h <;> simp [errorCodeOf, h]
    simp [determineErrorCode, hc, hlen _ hu]
  · intro h1 h2 h3
    have hc : errorCodeOf codes message = codes.ErrorInfraQuotaExceeded := by
      simp [errorCodeOf, h1, h2, h3]
    simp [determineErrorCode, hc, hlen _ hq]
  · intro h1 h2 h3 h4
    have hc : errorCodeOf codes message = codes.ErrorInfraInsufficientPrivileges := by
      simp [errorCodeOf, h1, h2, h3, h4]
    simp [determineErrorCode, hc, hlen _ hp]
  · intro h1 h2 h3 h4 h5
    have hc : errorCodeOf codes message = codes.ErrorInfraDependencies := by
      simp [errorCodeOf, h1, h2, h3, h4, h5]
    simp [determineErrorCode, hc, hlen _ hd]

/-- C28 on a message that holds two keywords: `LimitExceeded` is tested before
`AccessDenied`, so the code is quota exceeded. -/
theorem determineErrorCode_first_matching_rule_witness :
    determineErrorCode gardenCodes "AccessDenied: VpcLimitExceeded" =
      ⟨"CODE:" ++ gardenCodes.ErrorInfraQuotaExceeded ++ " " ++
        "AccessDenied: VpcLimitExceeded", none⟩ :=
  (determineErrorCode_first_matching_rule gardenCodes "AccessDenied: VpcLimitExceeded"
    (by decide) (by decide) (by decide) (by decide)).2.2.1 (by decide) (by decide) (by decide)

/-- C29: for every shoot and boolean `h`, after `setHibernation(shoot, h)` the shoot's
`Spec.Hibernation` is non-nil with `Enabled` equal to `h` and without schedules, whatever it
held before, and the other fields of the shoot are unchanged. -/
theorem setHibernation_replaces_hibernation {ρ ς : Type} (shoot : Shoot ρ ς) (h : Bool) :
    (setHibernation shoot h).1.Hibernation = some { Enabled := some h, Schedules := [] } ∧
      (setHibernation shoot h).1.rest = shoot.rest :=
  ⟨rfl, rfl⟩

/-- C30: `getAwsInstanceIDForIP` reads the first address of every node it visits without
checking that one exists.  With the node list obtained without error: when every node reports
at least one address the lookup returns, and when a node without addresses stands in the
list with no qualifying node before it, the lookup ends in the run-time panic of an index
out of range instead of returning a result. -/
theorem getAwsInstanceIDForIP_out_of_range (env : Env σ) (ip : String) (st : St σ)
    (t : String) (w1 w2 w3 : σ) (nodes : List Node)
    (ht : env.getTargetType st.world = (Except.ok (t, none), w1))
    (hc : env.clientToTarget t w1 = (Except.ok none, w2))
    (hl : env.listNodes w2 = ((nodes, none), w3)) :
    ((∀ n ∈ nodes, n.addresses ≠ []) →
        ∃ v st1, getAwsInstanceIDForIP env ip st = Res.ok v st1) ∧
      (∀ pre n post, nodes = pre ++ n :: post → (∀ m ∈ pre, ¬ Qualifies ip m) →
        n.addresses = [] →
        ∃ st1, getAwsInstanceIDForIP env ip st =
          Res.abort (Abort.panic "runtime error: index out of range [0] with length 0") st1) := by
  have hrun : getAwsInstanceIDForIP env ip st =
      getAwsInstanceIDForIPLoop ip nodes
        ⟨w3, st.trace ++ [Event.call "getTargetType", Event.call "clientToTarget",
          Event.call "Nodes().List"]⟩ := by
    simp only [getAwsInstanceIDForIP, bind_apply, helperCall, ht, hc, hl, next_ok,
      checkError_none, libCall_apply, List.append_assoc, List.singleton_append,
      List.cons_append, List.nil_append]
  constructor
  · intro haddr
    obtain ⟨v, hv, -⟩ := getAwsInstanceIDForIPLoop_first ip nodes haddr
      ⟨w3, st.trace ++ [Event.call "getTargetType", Event.call "clientToTarget",
        Event.call "Nodes().List"]⟩
    exact ⟨v, _, hrun.trans hv⟩
  · intro pre n post hnodes hpre hn
    subst hnodes
    exact ⟨_, hrun.trans (getAwsInstanceIDForIPLoop_panics ip pre n post hpre hn _)⟩

/-- C30 in the simulated environments: the lookup of `10.250.0.7` returns for the cluster
whose only node reports that address, and panics for the cluster that lists a node without
addresses first. -/
theorem getAwsInstanceIDForIP_out_of_range_witness :
    (∃ v st1, getAwsInstanceIDForIP simEnv "10.250.0.7" ⟨simWorld, []⟩ = Res.ok v st1) ∧
      ∃ st1, getAwsInstanceIDForIP addresslessEnv "10.250.0.7" ⟨simWorld, []⟩ =
        Res.abort (Abort.panic "runtime error: index out of range [0] with length 0") st1 :=
  ⟨(getAwsInstanceIDForIP_out_of_range simEnv "10.250.0.7" ⟨simWorld, []⟩ "shoot" simWorld
      simWorld simWorld [⟨["10.250.0.7"], "aws:///eu-west-1a/i-0a1b"⟩] rfl rfl rfl).1
      (by decide),
    (getAwsInstanceIDForIP_out_of_range addresslessEnv "10.250.0.7" ⟨simWorld, []⟩ "shoot"
      simWorld simWorld simWorld
      [⟨[], "aws:///eu-west-1a/i-0aaa"⟩, ⟨["10.250.0.7"], "aws:///eu-west-1a/i-0a1b"⟩]
      rfl rfl rfl).2 [] ⟨[], "aws:///eu-west-1a/i-0aaa"⟩
      [⟨["10.250.0.7"], "aws:///eu-west-1a/i-0a1b"⟩] rfl (by simp) rfl⟩

end Gardenctl
